import Mathlib

/-!
# ARGB conversion dispatch layer (`source/convert_from_argb.cc`)

A shallow embedding of the fourteen `ARGBTo*` entry points.  Every entry
point validates its arguments, normalises the orientation, resolves its row
kernels once and then drives the row loop.  The row kernels themselves live
in `row.h` and are not part of the embedded file, so an entry point is
modelled by the status it returns together with the exact sequence of row
kernel invocations it performs (`Result.trace`); the effect on memory is the
fold of an arbitrary kernel semantics over that sequence (`exec`).

Conventions:
* pointers are integer addresses, the null pointer is `0`;
* `int` negation of the height and the `width + 1` of the half width are
  taken modulo `2^32`; byte offsets into caller buffers are exact integers;
* compile-time switches (`HAS_*`, `kMaxStride`) are fields of `Build`,
  run-time capability answers are a `Cpu`.
-/

namespace Libyuv

/-! ## Machine integers and alignment -/

/-- Two's-complement reduction of an integer to the range of a 32-bit `int`. -/
def wrap32 (x : Int) : Int := (x + 2147483648) % 4294967296 - 2147483648

/-- The C expression `-x` on a 32-bit `int`. -/
def neg32 (x : Int) : Int := wrap32 (-x)

/-- Modelled from the spec: the macro `IS_ALIGNED(p, a)` of `basic_types.h`,
which is not part of the embedded sources; `p` is a multiple of the power of
two `a` (a negative stride is aligned when its two's-complement low bits are
zero, which is the same condition). -/
def IS_ALIGNED (p a : Int) : Bool := decide (p % a = 0)

/-! ## Build configuration and CPU capabilities -/

/-- Compile-time configuration: the scratch-row capacity `kMaxStride` and the
`HAS_*` macros of `row.h` that guard the SIMD ladders. -/
structure Build where
  kMaxStride : Int
  HAS_ARGBTOYROW_SSSE3 : Bool
  HAS_ARGBTOYROW_NEON : Bool
  HAS_ARGBTOUV422ROW_SSSE3 : Bool
  HAS_MERGEUV_SSE2 : Bool
  HAS_MERGEUV_AVX2 : Bool
  HAS_MERGEUV_NEON : Bool
  HAS_I422TOYUY2ROW_SSE2 : Bool
  HAS_I422TOYUY2ROW_NEON : Bool
  HAS_I422TOUYVYROW_SSE2 : Bool
  HAS_I422TOUYVYROW_NEON : Bool
  HAS_ARGBTORGBAROW_SSSE3 : Bool
  HAS_ARGBTORGBAROW_NEON : Bool
  HAS_ARGBTORGB24ROW_SSSE3 : Bool
  HAS_ARGBTORGB24ROW_NEON : Bool
  HAS_ARGBTORAWROW_SSSE3 : Bool
  HAS_ARGBTORAWROW_NEON : Bool
  HAS_ARGBTORGB565ROW_SSE2 : Bool
  HAS_ARGBTORGB565ROW_NEON : Bool
  HAS_ARGBTOARGB1555ROW_SSE2 : Bool
  HAS_ARGBTOARGB1555ROW_NEON : Bool
  HAS_ARGBTOARGB4444ROW_SSE2 : Bool
  HAS_ARGBTOARGB4444ROW_NEON : Bool

/-- The capability identifiers queried by this file. -/
inductive CpuFlag
  | kCpuHasSSE2
  | kCpuHasSSSE3
  | kCpuHasAVX2
  | kCpuHasNEON
deriving DecidableEq

/-- The answers of the capability query for the running process. -/
abbrev Cpu := CpuFlag → Bool

/-- Modelled from the spec: the capability query `TestCpuFlag(flag)` of
`cpu_id.h`, which is not part of the embedded sources; an idempotent lookup in
the capability set of the process. -/
def TestCpuFlag (cpu : Cpu) (flag : CpuFlag) : Bool := cpu flag

/-- The capability set in which every query answers false (forced reference). -/
def Cpu.none : Cpu := fun _ => false

/-! ## Row kernels and their invocations -/

/-- The implementation a row function pointer is bound to, named by the suffix
of the row function (`ARGBToYRow_C`, `ARGBToYRow_Any_SSSE3`, ...). -/
inductive Variant
  | C
  | Any_SSSE3
  | Unaligned_SSSE3
  | SSSE3
  | Any_SSE2
  | Unaligned_SSE2
  | SSE2
  | Any_AVX2
  | Unaligned_AVX2
  | AVX2
  | Any_NEON
  | Unaligned_NEON
  | NEON
deriving DecidableEq

/-- A pointer handed to a row kernel: an address in the caller's memory or the
start of one of the call-local scratch rows. -/
inductive Ptr
  | mem (addr : Int)
  | row_y
  | row_u
  | row_v
deriving DecidableEq

/-- One invocation of a row kernel through its function pointer, with the
arguments in the order of the C signature. -/
inductive Call
  | ARGBToYRow (f : Variant) (src_argb dst_y : Ptr) (pix : Int)
  | ARGBToUV444Row (f : Variant) (src_argb dst_u dst_v : Ptr) (pix : Int)
  | ARGBToUV422Row (f : Variant) (src_argb dst_u dst_v : Ptr) (pix : Int)
  | ARGBToUV411Row (f : Variant) (src_argb dst_u dst_v : Ptr) (pix : Int)
  | ARGBToUVRow (f : Variant) (src_argb0 : Ptr) (src_stride_argb : Int)
      (dst_u dst_v : Ptr) (width : Int)
  | MergeUV (f : Variant) (src_u src_v dst_uv : Ptr) (width : Int)
  | I422ToYUY2Row (f : Variant) (src_y src_u src_v dst_yuy2 : Ptr) (width : Int)
  | I422ToUYVYRow (f : Variant) (src_y src_u src_v dst_uyvy : Ptr) (width : Int)
  | ARGBToRGBARow (f : Variant) (src_argb dst_rgba : Ptr) (pix : Int)
  | ARGBToRGB24Row (f : Variant) (src_argb dst_rgb : Ptr) (pix : Int)
  | ARGBToRAWRow (f : Variant) (src_argb dst_rgb : Ptr) (pix : Int)
  | ARGBToRGB565Row (f : Variant) (src_argb dst_rgb : Ptr) (pix : Int)
  | ARGBToARGB1555Row (f : Variant) (src_argb dst_rgb : Ptr) (pix : Int)
  | ARGBToARGB4444Row (f : Variant) (src_argb dst_rgb : Ptr) (pix : Int)
deriving DecidableEq

/-- The same invocation bound to the reference (`_C`) implementation. -/
def Call.reference : Call → Call
  | .ARGBToYRow _ s d n => .ARGBToYRow .C s d n
  | .ARGBToUV444Row _ s u v n => .ARGBToUV444Row .C s u v n
  | .ARGBToUV422Row _ s u v n => .ARGBToUV422Row .C s u v n
  | .ARGBToUV411Row _ s u v n => .ARGBToUV411Row .C s u v n
  | .ARGBToUVRow _ s st u v n => .ARGBToUVRow .C s st u v n
  | .MergeUV _ u v d n => .MergeUV .C u v d n
  | .I422ToYUY2Row _ y u v d n => .I422ToYUY2Row .C y u v d n
  | .I422ToUYVYRow _ y u v d n => .I422ToUYVYRow .C y u v d n
  | .ARGBToRGBARow _ s d n => .ARGBToRGBARow .C s d n
  | .ARGBToRGB24Row _ s d n => .ARGBToRGB24Row .C s d n
  | .ARGBToRAWRow _ s d n => .ARGBToRAWRow .C s d n
  | .ARGBToRGB565Row _ s d n => .ARGBToRGB565Row .C s d n
  | .ARGBToARGB1555Row _ s d n => .ARGBToARGB1555Row .C s d n
  | .ARGBToARGB4444Row _ s d n => .ARGBToARGB4444Row .C s d n

/-- What an entry point returns: the status and the row kernel invocations it
performed, in program order. -/
structure Result where
  status : Int
  trace : List Call
deriving DecidableEq

/-! ## Memory and kernel semantics -/

/-- The bytes a call can observe or change: the caller's address space and the
three call-local scratch rows. -/
structure Memory where
  bytes : Int → UInt8
  row_y : Int → UInt8
  row_u : Int → UInt8
  row_v : Int → UInt8

/-- Modelled from the spec: the row kernel set of `row.h`, which is not part of
the embedded sources; a kernel semantics gives, for each invocation, the
memory after it as a function of the memory before it. -/
abbrev Kernels := Call → Memory → Memory

/-- The memory after performing a sequence of invocations in order. -/
def exec (K : Kernels) : List Call → Memory → Memory
  | [], m => m
  | c :: cs, m => exec K cs (K c m)

/-- All implementations of one logical row kernel compute the same function. -/
def VariantsAgree (K : Kernels) : Prop := ∀ c : Call, K c = K c.reference

/-! ## Control structure shared by the entry points -/

/-- The loop `for (int y = y0; y < bound; y += step) body`, with the loop
state threaded through `body`; `fuel` bounds the number of iterations. -/
def forLoop {σ : Type} (body : σ → List Call × σ) (bound step : Int) :
    Nat → Int → σ → List Call × σ
  | 0, _, s => ([], s)
  | fuel + 1, y, s =>
    if y < bound then
      let r := body s
      let t := forLoop body bound step fuel (y + step) r.2
      (r.1 ++ t.1, t.2)
    else ([], s)

/-- Orientation normalisation
`if (height < 0) { height = -height; p = p + (height - 1) * stride; stride = -stride; }`,
returning the new `(height, p, stride)`. -/
def invert (height p stride : Int) : Int × Int × Int :=
  if height < 0 then
    (neg32 height, p + (neg32 height - 1) * stride, -stride)
  else (height, p, stride)

/-- The half width `(width + 1) >> 1`. -/
def halfwidth (width : Int) : Int := wrap32 (width + 1) >>> (1 : Nat)

/-- Pointer registers of a one-plane loop. -/
structure Regs1 where
  src_argb : Int
  dst : Int
deriving DecidableEq

/-- Pointer registers of a semi-planar loop. -/
structure Regs2 where
  src_argb : Int
  dst_y : Int
  dst_uv : Int
deriving DecidableEq

/-- Pointer registers of a three-plane loop. -/
structure Regs3 where
  src_argb : Int
  dst_y : Int
  dst_u : Int
  dst_v : Int
deriving DecidableEq

/-! ## Kernel selection ladders -/

/-- The SSSE3 ladder of a row function pointer whose aligned tier tests the
source and the luma destination (`ARGBToYRow` in `ARGBToI444`, `ARGBToI422`,
`ARGBToI411`, `ARGBToI400`; `ARGBToUV422Row` in `ARGBToI422`):
`cur` is the pointer before the ladder, the result the pointer after it. -/
def ladderSSSE3 (cpu : Cpu) (src_argb src_stride_argb dst_y dst_stride_y width : Int)
    (cur : Variant) : Variant :=
  if TestCpuFlag cpu .kCpuHasSSSE3 && decide (16 ≤ width) then
    if IS_ALIGNED width 16 then
      if IS_ALIGNED src_argb 16 && IS_ALIGNED src_stride_argb 16 &&
          IS_ALIGNED dst_y 16 && IS_ALIGNED dst_stride_y 16 then
        .SSSE3
      else .Unaligned_SSSE3
    else .Any_SSSE3
  else cur

/-- The NEON ladder of `ARGBToYRow` (`width >= 8`, then `IS_ALIGNED(width, 8)`). -/
def ladderYNEON (width : Int) : Variant :=
  if IS_ALIGNED width 8 then .NEON else .Any_NEON

/-- Kernel resolution of `ARGBToI444`: `(ARGBToYRow, ARGBToUV444Row)`. -/
def ARGBToI444.kernels (b : Build) (cpu : Cpu)
    (src_argb src_stride_argb dst_y dst_stride_y width : Int) : Variant × Variant :=
  if b.HAS_ARGBTOYROW_SSSE3 then
    (ladderSSSE3 cpu src_argb src_stride_argb dst_y dst_stride_y width .C, .C)
  else if b.HAS_ARGBTOYROW_NEON then
    if TestCpuFlag cpu .kCpuHasNEON && decide (8 ≤ width) then
      if IS_ALIGNED width 8 then (.NEON, .NEON) else (.Any_NEON, .Any_NEON)
    else (.C, .C)
  else (.C, .C)

/-- Kernel resolution of `ARGBToI422`: `(ARGBToYRow, ARGBToUV422Row)`.  The
chroma pointer is resolved first (SSSE3 block), the NEON block of the luma
pointer may rebind it. -/
def ARGBToI422.kernels (b : Build) (cpu : Cpu)
    (src_argb src_stride_argb dst_y dst_stride_y width : Int) : Variant × Variant :=
  let uv422 : Variant :=
    if b.HAS_ARGBTOUV422ROW_SSSE3 then
      ladderSSSE3 cpu src_argb src_stride_argb dst_y dst_stride_y width .C
    else .C
  if b.HAS_ARGBTOYROW_SSSE3 then
    (ladderSSSE3 cpu src_argb src_stride_argb dst_y dst_stride_y width .C, uv422)
  else if b.HAS_ARGBTOYROW_NEON then
    if TestCpuFlag cpu .kCpuHasNEON && decide (8 ≤ width) then
      (ladderYNEON width,
        if 16 ≤ width then (if IS_ALIGNED width 16 then .NEON else .Any_NEON) else uv422)
    else (.C, uv422)
  else (.C, uv422)

/-- Kernel resolution of `ARGBToI411`: `(ARGBToYRow, ARGBToUV411Row)`. -/
def ARGBToI411.kernels (b : Build) (cpu : Cpu)
    (src_argb src_stride_argb dst_y dst_stride_y width : Int) : Variant × Variant :=
  if b.HAS_ARGBTOYROW_SSSE3 then
    (ladderSSSE3 cpu src_argb src_stride_argb dst_y dst_stride_y width .C, .C)
  else if b.HAS_ARGBTOYROW_NEON then
    if TestCpuFlag cpu .kCpuHasNEON && decide (8 ≤ width) then
      (ladderYNEON width,
        if 32 ≤ width then (if IS_ALIGNED width 32 then .NEON else .Any_NEON) else .C)
    else (.C, .C)
  else (.C, .C)

/-- Kernel resolution of `ARGBToI400`: `ARGBToYRow`. -/
def ARGBToI400.kernels (b : Build) (cpu : Cpu)
    (src_argb src_stride_argb dst_y dst_stride_y width : Int) : Variant :=
  if b.HAS_ARGBTOYROW_SSSE3 then
    ladderSSSE3 cpu src_argb src_stride_argb dst_y dst_stride_y width .C
  else if b.HAS_ARGBTOYROW_NEON then
    if TestCpuFlag cpu .kCpuHasNEON && decide (8 ≤ width) then ladderYNEON width else .C
  else .C

/-- The NEON block shared by `ARGBToNV12`, `ARGBToNV21`, `ARGBToYUY2` and
`ARGBToUYVY`: `(ARGBToUVRow, ARGBToYRow)`. -/
def ladderUVYNEON (cpu : Cpu) (width : Int) : Variant × Variant :=
  if TestCpuFlag cpu .kCpuHasNEON && decide (8 ≤ width) then
    if IS_ALIGNED width 8 then
      (if IS_ALIGNED width 16 then .NEON else .C, .NEON)
    else (.C, .Any_NEON)
  else (.C, .C)

/-- Resolution of `(ARGBToUVRow, ARGBToYRow)` in `ARGBToNV12` and `ARGBToNV21`. -/
def nvKernels (b : Build) (cpu : Cpu)
    (src_argb src_stride_argb dst_y dst_stride_y width : Int) : Variant × Variant :=
  if b.HAS_ARGBTOYROW_SSSE3 then
    if TestCpuFlag cpu .kCpuHasSSSE3 && decide (16 ≤ width) then
      if IS_ALIGNED width 16 then
        if IS_ALIGNED src_argb 16 && IS_ALIGNED src_stride_argb 16 then
          (.SSSE3,
            if IS_ALIGNED dst_y 16 && IS_ALIGNED dst_stride_y 16 then .SSSE3
            else .Unaligned_SSSE3)
        else (.Unaligned_SSSE3, .Unaligned_SSSE3)
      else (.Any_SSSE3, .Any_SSSE3)
    else (.C, .C)
  else if b.HAS_ARGBTOYROW_NEON then ladderUVYNEON cpu width
  else (.C, .C)

/-- One `MergeUV` block: capability `flag`, block size `blk`, and the three
implementations of the instruction set. -/
def mergeBlock (has : Bool) (cpu : Cpu) (flag : CpuFlag) (blk : Int)
    (any unaligned aligned : Variant) (dst_uv dst_stride_uv halfwidth : Int)
    (cur : Variant) : Variant :=
  if has then
    if TestCpuFlag cpu flag && decide (blk ≤ halfwidth) then
      if IS_ALIGNED halfwidth blk then
        if IS_ALIGNED dst_uv blk && IS_ALIGNED dst_stride_uv blk then aligned
        else unaligned
      else any
    else cur
  else cur

/-- Resolution of `MergeUV` in `ARGBToNV12` and `ARGBToNV21`: the SSE2, AVX2
and NEON blocks in program order, each rebinding the pointer of the previous. -/
def mergeKernel (b : Build) (cpu : Cpu) (dst_uv dst_stride_uv halfwidth : Int) : Variant :=
  mergeBlock b.HAS_MERGEUV_NEON cpu .kCpuHasNEON 16 .Any_NEON .Unaligned_NEON .NEON
    dst_uv dst_stride_uv halfwidth
    (mergeBlock b.HAS_MERGEUV_AVX2 cpu .kCpuHasAVX2 32 .Any_AVX2 .Unaligned_AVX2 .AVX2
      dst_uv dst_stride_uv halfwidth
      (mergeBlock b.HAS_MERGEUV_SSE2 cpu .kCpuHasSSE2 16 .Any_SSE2 .Unaligned_SSE2 .SSE2
        dst_uv dst_stride_uv halfwidth .C))

/-- Resolution of `(ARGBToUVRow, ARGBToYRow)` in `ARGBToYUY2` and `ARGBToUYVY`. -/
def packedKernels (b : Build) (cpu : Cpu)
    (src_argb src_stride_argb width : Int) : Variant × Variant :=
  if b.HAS_ARGBTOYROW_SSSE3 then
    if TestCpuFlag cpu .kCpuHasSSSE3 && decide (16 ≤ width) then
      if IS_ALIGNED width 16 then
        if IS_ALIGNED src_argb 16 && IS_ALIGNED src_stride_argb 16 then (.SSSE3, .SSSE3)
        else (.Unaligned_SSSE3, .Unaligned_SSSE3)
      else (.Any_SSSE3, .Any_SSSE3)
    else (.C, .C)
  else if b.HAS_ARGBTOYROW_NEON then ladderUVYNEON cpu width
  else (.C, .C)

/-- Resolution of the repack pointer (`I422ToYUY2Row`, `I422ToUYVYRow`); `sse2`
and `neon` are the two `HAS_*` macros of the kernel. -/
def repackKernel (sse2 neon : Bool) (cpu : Cpu) (dst dst_stride width : Int) : Variant :=
  if sse2 then
    if TestCpuFlag cpu .kCpuHasSSE2 && decide (16 ≤ width) &&
        IS_ALIGNED dst 16 && IS_ALIGNED dst_stride 16 then
      if IS_ALIGNED width 16 then .SSE2 else .Any_SSE2
    else .C
  else if neon then
    if TestCpuFlag cpu .kCpuHasNEON && decide (16 ≤ width) then
      if IS_ALIGNED width 16 then .NEON else .Any_NEON
    else .C
  else .C

/-- Kernel resolution of `ARGBToRGBA`: `ARGBToRGBARow`. -/
def ARGBToRGBA.kernels (b : Build) (cpu : Cpu)
    (src_argb src_stride_argb dst_rgba dst_stride_rgba width : Int) : Variant :=
  if b.HAS_ARGBTORGBAROW_SSSE3 then
    if TestCpuFlag cpu .kCpuHasSSSE3 && IS_ALIGNED width 4 &&
        IS_ALIGNED src_argb 16 && IS_ALIGNED src_stride_argb 16 &&
        IS_ALIGNED dst_rgba 16 && IS_ALIGNED dst_stride_rgba 16 then .SSSE3
    else .C
  else if b.HAS_ARGBTORGBAROW_NEON then
    if TestCpuFlag cpu .kCpuHasNEON && IS_ALIGNED width 8 then .NEON else .C
  else .C

/-- Kernel resolution of `ARGBToRGB24` and `ARGBToRAW` (`ssse3` and `neon` are
the two `HAS_*` macros of the kernel). -/
def rgb24Kernel (ssse3 neon : Bool) (cpu : Cpu)
    (src_argb src_stride_argb dst dst_stride width : Int) : Variant :=
  if ssse3 then
    if TestCpuFlag cpu .kCpuHasSSSE3 && decide (16 ≤ width) &&
        IS_ALIGNED src_argb 16 && IS_ALIGNED src_stride_argb 16 &&
        IS_ALIGNED dst 16 && IS_ALIGNED dst_stride 16 then
      if IS_ALIGNED width 16 then .SSSE3 else .Any_SSSE3
    else .C
  else if neon then
    if TestCpuFlag cpu .kCpuHasNEON && decide (8 ≤ width) then
      if IS_ALIGNED width 8 then .NEON else .Any_NEON
    else .C
  else .C

/-- Kernel resolution of `ARGBToRGB565`, `ARGBToARGB1555` and `ARGBToARGB4444`
(`sse2` and `neon` are the two `HAS_*` macros of the kernel). -/
def rgb16Kernel (sse2 neon : Bool) (cpu : Cpu)
    (src_argb src_stride_argb width : Int) : Variant :=
  if sse2 then
    if TestCpuFlag cpu .kCpuHasSSE2 && decide (4 ≤ width) &&
        IS_ALIGNED src_argb 16 && IS_ALIGNED src_stride_argb 16 then
      if IS_ALIGNED width 4 then .SSE2 else .Any_SSE2
    else .C
  else if neon then
    if TestCpuFlag cpu .kCpuHasNEON && decide (8 ≤ width) then
      if IS_ALIGNED width 8 then .NEON else .Any_NEON
    else .C
  else .C

/-! ## Loop bodies -/

/-- Body of the row loop of the three-plane formats: chroma kernel, luma
kernel, then the four pointers advance by their strides. -/
def planarBody (UVRow : Ptr → Ptr → Ptr → Int → Call) (YRow : Ptr → Ptr → Int → Call)
    (src_stride_argb dst_stride_y dst_stride_u dst_stride_v width : Int)
    (s : Regs3) : List Call × Regs3 :=
  ([UVRow (.mem s.src_argb) (.mem s.dst_u) (.mem s.dst_v) width,
    YRow (.mem s.src_argb) (.mem s.dst_y) width],
   { src_argb := s.src_argb + src_stride_argb,
     dst_y := s.dst_y + dst_stride_y,
     dst_u := s.dst_u + dst_stride_u,
     dst_v := s.dst_v + dst_stride_v })

/-- The four invocations made for the row pair at `s` in the semi-planar
formats; `cross` is the cross-row stride handed to the chroma kernel and added
to the source of the second luma invocation, `Merge` the merge invocation into
a given chroma row. -/
def nvCalls (UVRow YRow : Variant) (Merge : Ptr → Call)
    (cross dst_stride_y width : Int) (s : Regs2) : List Call :=
  [.ARGBToUVRow UVRow (.mem s.src_argb) cross .row_u .row_v width,
   Merge (.mem s.dst_uv),
   .ARGBToYRow YRow (.mem s.src_argb) (.mem s.dst_y) width,
   .ARGBToYRow YRow (.mem (s.src_argb + cross)) (.mem (s.dst_y + dst_stride_y)) width]

/-- Body of the row-pair loop of the semi-planar formats. -/
def nvBody (UVRow YRow : Variant) (Merge : Ptr → Call)
    (src_stride_argb dst_stride_y dst_stride_uv width : Int)
    (s : Regs2) : List Call × Regs2 :=
  (nvCalls UVRow YRow Merge src_stride_argb dst_stride_y width s,
   { src_argb := s.src_argb + src_stride_argb * 2,
     dst_y := s.dst_y + dst_stride_y * 2,
     dst_uv := s.dst_uv + dst_stride_uv })

/-- Body of the row loop of the packed 4:2:2 formats. -/
def packedBody (UVRow YRow : Variant) (Repack : Ptr → Ptr → Ptr → Ptr → Int → Call)
    (src_stride_argb dst_stride width : Int) (s : Regs1) : List Call × Regs1 :=
  ([.ARGBToUVRow UVRow (.mem s.src_argb) 0 .row_u .row_v width,
    .ARGBToYRow YRow (.mem s.src_argb) .row_y width,
    Repack .row_y .row_u .row_v (.mem s.dst) width],
   { src_argb := s.src_argb + src_stride_argb, dst := s.dst + dst_stride })

/-- Body of the row loop of the one-kernel formats. -/
def rowBody (Row : Ptr → Ptr → Int → Call)
    (src_stride_argb dst_stride width : Int) (s : Regs1) : List Call × Regs1 :=
  ([Row (.mem s.src_argb) (.mem s.dst) width],
   { src_argb := s.src_argb + src_stride_argb, dst := s.dst + dst_stride })

/-- The row loop `for (int y = 0; y < height; ++y)` of the one-kernel formats
after the argument check. -/
def rowLoop (Row : Ptr → Ptr → Int → Call)
    (src_argb src_stride_argb dst dst_stride width height : Int) : List Call :=
  (forLoop (rowBody Row src_stride_argb dst_stride width) height 1 height.toNat 0
    { src_argb := src_argb, dst := dst }).1

/-- The rows of `ARGBToNV12` and `ARGBToNV21` after the argument check and the
orientation normalisation: kernel resolution, the row-pair loop
`for (int y = 0; y < height - 1; y += 2)` and the `if (height & 1)` block.
`Merge` fixes the order in which the scratch rows are handed to `MergeUV`. -/
def nvRows (b : Build) (cpu : Cpu) (Merge : Variant → Ptr → Int → Call)
    (src_argb src_stride_argb dst_y dst_stride_y dst_uv dst_stride_uv width height : Int) :
    List Call :=
  let k := nvKernels b cpu src_argb src_stride_argb dst_y dst_stride_y width
  let hw := halfwidth width
  let m := mergeKernel b cpu dst_uv dst_stride_uv hw
  let loop := forLoop
    (nvBody k.1 k.2 (fun d => Merge m d hw) src_stride_argb dst_stride_y dst_stride_uv width)
    (height - 1) 2 height.toNat 0
    { src_argb := src_argb, dst_y := dst_y, dst_uv := dst_uv }
  loop.1 ++
    (if height % 2 = 1 then nvCalls k.1 k.2 (fun d => Merge m d hw) 0 dst_stride_y width loop.2
     else [])

/-- The rows of `ARGBToYUY2` and `ARGBToUYVY` after the argument check and the
orientation normalisation (which flips the destination): kernel resolution
and the row loop.  `Repack` is the repack kernel bound to a variant, `sse2`
and `neon` its two `HAS_*` macros. -/
def packedRows (b : Build) (cpu : Cpu) (sse2 neon : Bool)
    (Repack : Variant → Ptr → Ptr → Ptr → Ptr → Int → Call)
    (src_argb src_stride_argb dst dst_stride width height : Int) : List Call :=
  let k := packedKernels b cpu src_argb src_stride_argb width
  let r := repackKernel sse2 neon cpu dst dst_stride width
  (forLoop (packedBody k.1 k.2 (Repack r) src_stride_argb dst_stride width)
    height 1 height.toNat 0 { src_argb := src_argb, dst := dst }).1

/-- The row loop `for (int y = 0; y < height; ++y)` of the three-plane formats. -/
def planarLoop (UVRow : Ptr → Ptr → Ptr → Int → Call) (YRow : Ptr → Ptr → Int → Call)
    (src_argb src_stride_argb dst_y dst_stride_y dst_u dst_stride_u dst_v dst_stride_v
      width height : Int) : List Call :=
  (forLoop (planarBody UVRow YRow src_stride_argb dst_stride_y dst_stride_u dst_stride_v width)
    height 1 height.toNat 0
    { src_argb := src_argb, dst_y := dst_y, dst_u := dst_u, dst_v := dst_v }).1

/-! ## The entry points -/

/-- `ARGBToI444` (lines 26-74). -/
def ARGBToI444 (b : Build) (cpu : Cpu) (src_argb src_stride_argb dst_y dst_stride_y
    dst_u dst_stride_u dst_v dst_stride_v width height : Int) : Result :=
  if src_argb = 0 ∨ dst_y = 0 ∨ dst_u = 0 ∨ dst_v = 0 ∨ width ≤ 0 ∨ height = 0 then
    { status := -1, trace := [] }
  else
    let n := invert height src_argb src_stride_argb
    let k := ARGBToI444.kernels b cpu n.2.1 n.2.2 dst_y dst_stride_y width
    { status := 0,
      trace := planarLoop (Call.ARGBToUV444Row k.2) (Call.ARGBToYRow k.1)
        n.2.1 n.2.2 dst_y dst_stride_y dst_u dst_stride_u dst_v dst_stride_v width n.1 }

/-- `ARGBToI422` (lines 78-143). -/
def ARGBToI422 (b : Build) (cpu : Cpu) (src_argb src_stride_argb dst_y dst_stride_y
    dst_u dst_stride_u dst_v dst_stride_v width height : Int) : Result :=
  if src_argb = 0 ∨ dst_y = 0 ∨ dst_u = 0 ∨ dst_v = 0 ∨ width ≤ 0 ∨ height = 0 then
    { status := -1, trace := [] }
  else
    let n := invert height src_argb src_stride_argb
    let k := ARGBToI422.kernels b cpu n.2.1 n.2.2 dst_y dst_stride_y width
    { status := 0,
      trace := planarLoop (Call.ARGBToUV422Row k.2) (Call.ARGBToYRow k.1)
        n.2.1 n.2.2 dst_y dst_stride_y dst_u dst_stride_u dst_v dst_stride_v width n.1 }

/-- `ARGBToI411` (lines 147-199). -/
def ARGBToI411 (b : Build) (cpu : Cpu) (src_argb src_stride_argb dst_y dst_stride_y
    dst_u dst_stride_u dst_v dst_stride_v width height : Int) : Result :=
  if src_argb = 0 ∨ dst_y = 0 ∨ dst_u = 0 ∨ dst_v = 0 ∨ width ≤ 0 ∨ height = 0 then
    { status := -1, trace := [] }
  else
    let n := invert height src_argb src_stride_argb
    let k := ARGBToI411.kernels b cpu n.2.1 n.2.2 dst_y dst_stride_y width
    { status := 0,
      trace := planarLoop (Call.ARGBToUV411Row k.2) (Call.ARGBToYRow k.1)
        n.2.1 n.2.2 dst_y dst_stride_y dst_u dst_stride_u dst_v dst_stride_v width n.1 }

/-- `ARGBToNV12` (lines 202-304): the scratch rows are merged as `(row_u, row_v)`. -/
def ARGBToNV12 (b : Build) (cpu : Cpu) (src_argb src_stride_argb dst_y dst_stride_y
    dst_uv dst_stride_uv width height : Int) : Result :=
  if src_argb = 0 ∨ dst_y = 0 ∨ dst_uv = 0 ∨ width ≤ 0 ∨ height = 0 ∨
      width > b.kMaxStride then
    { status := -1, trace := [] }
  else
    let n := invert height src_argb src_stride_argb
    { status := 0,
      trace := nvRows b cpu (fun m d hw => Call.MergeUV m .row_u .row_v d hw)
        n.2.1 n.2.2 dst_y dst_stride_y dst_uv dst_stride_uv width n.1 }

/-- `ARGBToNV21` (lines 308-410): the scratch rows are merged as `(row_v, row_u)`. -/
def ARGBToNV21 (b : Build) (cpu : Cpu) (src_argb src_stride_argb dst_y dst_stride_y
    dst_uv dst_stride_uv width height : Int) : Result :=
  if src_argb = 0 ∨ dst_y = 0 ∨ dst_uv = 0 ∨ width ≤ 0 ∨ height = 0 ∨
      width > b.kMaxStride then
    { status := -1, trace := [] }
  else
    let n := invert height src_argb src_stride_argb
    { status := 0,
      trace := nvRows b cpu (fun m d hw => Call.MergeUV m .row_v .row_u d hw)
        n.2.1 n.2.2 dst_y dst_stride_y dst_uv dst_stride_uv width n.1 }

/-- `ARGBToYUY2` (lines 414-489); the orientation normalisation acts on the
destination. -/
def ARGBToYUY2 (b : Build) (cpu : Cpu) (src_argb src_stride_argb dst_yuy2 dst_stride_yuy2
    width height : Int) : Result :=
  if src_argb = 0 ∨ dst_yuy2 = 0 ∨ width ≤ 0 ∨ height = 0 ∨ width > b.kMaxStride then
    { status := -1, trace := [] }
  else
    let n := invert height dst_yuy2 dst_stride_yuy2
    { status := 0,
      trace := packedRows b cpu b.HAS_I422TOYUY2ROW_SSE2 b.HAS_I422TOYUY2ROW_NEON
        Call.I422ToYUY2Row src_argb src_stride_argb n.2.1 n.2.2 width n.1 }

/-- `ARGBToUYVY` (lines 493-568); the orientation normalisation acts on the
destination. -/
def ARGBToUYVY (b : Build) (cpu : Cpu) (src_argb src_stride_argb dst_uyvy dst_stride_uyvy
    width height : Int) : Result :=
  if src_argb = 0 ∨ dst_uyvy = 0 ∨ width ≤ 0 ∨ height = 0 ∨ width > b.kMaxStride then
    { status := -1, trace := [] }
  else
    let n := invert height dst_uyvy dst_stride_uyvy
    { status := 0,
      trace := packedRows b cpu b.HAS_I422TOUYVYROW_SSE2 b.HAS_I422TOUYVYROW_NEON
        Call.I422ToUYVYRow src_argb src_stride_argb n.2.1 n.2.2 width n.1 }

/-- `ARGBToI400` (lines 572-611). -/
def ARGBToI400 (b : Build) (cpu : Cpu) (src_argb src_stride_argb dst_y dst_stride_y
    width height : Int) : Result :=
  if src_argb = 0 ∨ dst_y = 0 ∨ width ≤ 0 ∨ height = 0 then
    { status := -1, trace := [] }
  else
    let n := invert height src_argb src_stride_argb
    { status := 0,
      trace := rowLoop
        (Call.ARGBToYRow (ARGBToI400.kernels b cpu n.2.1 n.2.2 dst_y dst_stride_y width))
        n.2.1 n.2.2 dst_y dst_stride_y width n.1 }

/-- `ARGBToRGBA` (lines 615-649). -/
def ARGBToRGBA (b : Build) (cpu : Cpu) (src_argb src_stride_argb dst_rgba dst_stride_rgba
    width height : Int) : Result :=
  if src_argb = 0 ∨ dst_rgba = 0 ∨ width ≤ 0 ∨ height = 0 then
    { status := -1, trace := [] }
  else
    let n := invert height src_argb src_stride_argb
    { status := 0,
      trace := rowLoop
        (Call.ARGBToRGBARow (ARGBToRGBA.kernels b cpu n.2.1 n.2.2 dst_rgba dst_stride_rgba width))
        n.2.1 n.2.2 dst_rgba dst_stride_rgba width n.1 }

/-- `ARGBToRGB24` (lines 653-690). -/
def ARGBToRGB24 (b : Build) (cpu : Cpu) (src_argb src_stride_argb dst_rgb24 dst_stride_rgb24
    width height : Int) : Result :=
  if src_argb = 0 ∨ dst_rgb24 = 0 ∨ width ≤ 0 ∨ height = 0 then
    { status := -1, trace := [] }
  else
    let n := invert height src_argb src_stride_argb
    { status := 0,
      trace := rowLoop
        (Call.ARGBToRGB24Row (rgb24Kernel b.HAS_ARGBTORGB24ROW_SSSE3 b.HAS_ARGBTORGB24ROW_NEON
          cpu n.2.1 n.2.2 dst_rgb24 dst_stride_rgb24 width))
        n.2.1 n.2.2 dst_rgb24 dst_stride_rgb24 width n.1 }

/-- `ARGBToRAW` (lines 694-731). -/
def ARGBToRAW (b : Build) (cpu : Cpu) (src_argb src_stride_argb dst_raw dst_stride_raw
    width height : Int) : Result :=
  if src_argb = 0 ∨ dst_raw = 0 ∨ width ≤ 0 ∨ height = 0 then
    { status := -1, trace := [] }
  else
    let n := invert height src_argb src_stride_argb
    { status := 0,
      trace := rowLoop
        (Call.ARGBToRAWRow (rgb24Kernel b.HAS_ARGBTORAWROW_SSSE3 b.HAS_ARGBTORAWROW_NEON
          cpu n.2.1 n.2.2 dst_raw dst_stride_raw width))
        n.2.1 n.2.2 dst_raw dst_stride_raw width n.1 }

/-- `ARGBToRGB565` (lines 735-771). -/
def ARGBToRGB565 (b : Build) (cpu : Cpu) (src_argb src_stride_argb dst_rgb565
    dst_stride_rgb565 width height : Int) : Result :=
  if src_argb = 0 ∨ dst_rgb565 = 0 ∨ width ≤ 0 ∨ height = 0 then
    { status := -1, trace := [] }
  else
    let n := invert height src_argb src_stride_argb
    { status := 0,
      trace := rowLoop
        (Call.ARGBToRGB565Row (rgb16Kernel b.HAS_ARGBTORGB565ROW_SSE2 b.HAS_ARGBTORGB565ROW_NEON
          cpu n.2.1 n.2.2 width))
        n.2.1 n.2.2 dst_rgb565 dst_stride_rgb565 width n.1 }

/-- `ARGBToARGB1555` (lines 775-811). -/
def ARGBToARGB1555 (b : Build) (cpu : Cpu) (src_argb src_stride_argb dst_argb1555
    dst_stride_argb1555 width height : Int) : Result :=
  if src_argb = 0 ∨ dst_argb1555 = 0 ∨ width ≤ 0 ∨ height = 0 then
    { status := -1, trace := [] }
  else
    let n := invert height src_argb src_stride_argb
    { status := 0,
      trace := rowLoop
        (Call.ARGBToARGB1555Row (rgb16Kernel b.HAS_ARGBTOARGB1555ROW_SSE2
          b.HAS_ARGBTOARGB1555ROW_NEON cpu n.2.1 n.2.2 width))
        n.2.1 n.2.2 dst_argb1555 dst_stride_argb1555 width n.1 }

/-- `ARGBToARGB4444` (lines 815-851). -/
def ARGBToARGB4444 (b : Build) (cpu : Cpu) (src_argb src_stride_argb dst_argb4444
    dst_stride_argb4444 width height : Int) : Result :=
  if src_argb = 0 ∨ dst_argb4444 = 0 ∨ width ≤ 0 ∨ height = 0 then
    { status := -1, trace := [] }
  else
    let n := invert height src_argb src_stride_argb
    { status := 0,
      trace := rowLoop
        (Call.ARGBToARGB4444Row (rgb16Kernel b.HAS_ARGBTOARGB4444ROW_SSE2
          b.HAS_ARGBTOARGB4444ROW_NEON cpu n.2.1 n.2.2 width))
        n.2.1 n.2.2 dst_argb4444 dst_stride_argb4444 width n.1 }

/-! ## Uniform view of the fourteen entry points -/

/-- The conversion entry points of the file. -/
inductive EntryPoint
  | ARGBToI444
  | ARGBToI422
  | ARGBToI411
  | ARGBToNV12
  | ARGBToNV21
  | ARGBToYUY2
  | ARGBToUYVY
  | ARGBToI400
  | ARGBToRGBA
  | ARGBToRGB24
  | ARGBToRAW
  | ARGBToRGB565
  | ARGBToARGB1555
  | ARGBToARGB4444
deriving DecidableEq

/-- The arguments of a call.  `dst` is the first destination plane (luma or
the packed plane), `dst_u` the second (`dst_u`, or `dst_uv` of the semi-planar
formats), `dst_v` the third; an entry point ignores the planes it does not have. -/
structure Args where
  src_argb : Int
  src_stride_argb : Int
  dst : Int
  dst_stride : Int
  dst_u : Int
  dst_stride_u : Int
  dst_v : Int
  dst_stride_v : Int
  width : Int
  height : Int

/-- The pointer parameters of an entry point, all of which are required. -/
def EntryPoint.pointers : EntryPoint → Args → List Int
  | .ARGBToI444, a | .ARGBToI422, a | .ARGBToI411, a =>
    [a.src_argb, a.dst, a.dst_u, a.dst_v]
  | .ARGBToNV12, a | .ARGBToNV21, a => [a.src_argb, a.dst, a.dst_u]
  | _, a => [a.src_argb, a.dst]

/-- Formats whose argument check also bounds the width by `kMaxStride`. -/
def EntryPoint.scratch : EntryPoint → Bool
  | .ARGBToNV12 | .ARGBToNV21 | .ARGBToYUY2 | .ARGBToUYVY => true
  | _ => false

/-- Calling an entry point on an argument record. -/
def EntryPoint.run (b : Build) (cpu : Cpu) : EntryPoint → Args → Result
  | .ARGBToI444, a => Libyuv.ARGBToI444 b cpu a.src_argb a.src_stride_argb a.dst a.dst_stride
      a.dst_u a.dst_stride_u a.dst_v a.dst_stride_v a.width a.height
  | .ARGBToI422, a => Libyuv.ARGBToI422 b cpu a.src_argb a.src_stride_argb a.dst a.dst_stride
      a.dst_u a.dst_stride_u a.dst_v a.dst_stride_v a.width a.height
  | .ARGBToI411, a => Libyuv.ARGBToI411 b cpu a.src_argb a.src_stride_argb a.dst a.dst_stride
      a.dst_u a.dst_stride_u a.dst_v a.dst_stride_v a.width a.height
  | .ARGBToNV12, a => Libyuv.ARGBToNV12 b cpu a.src_argb a.src_stride_argb a.dst a.dst_stride
      a.dst_u a.dst_stride_u a.width a.height
  | .ARGBToNV21, a => Libyuv.ARGBToNV21 b cpu a.src_argb a.src_stride_argb a.dst a.dst_stride
      a.dst_u a.dst_stride_u a.width a.height
  | .ARGBToYUY2, a => Libyuv.ARGBToYUY2 b cpu a.src_argb a.src_stride_argb a.dst a.dst_stride
      a.width a.height
  | .ARGBToUYVY, a => Libyuv.ARGBToUYVY b cpu a.src_argb a.src_stride_argb a.dst a.dst_stride
      a.width a.height
  | .ARGBToI400, a => Libyuv.ARGBToI400 b cpu a.src_argb a.src_stride_argb a.dst a.dst_stride
      a.width a.height
  | .ARGBToRGBA, a => Libyuv.ARGBToRGBA b cpu a.src_argb a.src_stride_argb a.dst a.dst_stride
      a.width a.height
  | .ARGBToRGB24, a => Libyuv.ARGBToRGB24 b cpu a.src_argb a.src_stride_argb a.dst a.dst_stride
      a.width a.height
  | .ARGBToRAW, a => Libyuv.ARGBToRAW b cpu a.src_argb a.src_stride_argb a.dst a.dst_stride
      a.width a.height
  | .ARGBToRGB565, a => Libyuv.ARGBToRGB565 b cpu a.src_argb a.src_stride_argb a.dst
      a.dst_stride a.width a.height
  | .ARGBToARGB1555, a => Libyuv.ARGBToARGB1555 b cpu a.src_argb a.src_stride_argb a.dst
      a.dst_stride a.width a.height
  | .ARGBToARGB4444, a => Libyuv.ARGBToARGB4444 b cpu a.src_argb a.src_stride_argb a.dst
      a.dst_stride a.width a.height

/-! ## Auxiliary notions used in the statements -/

/-- Concatenation of the blocks `f 0, f 1, ..., f (n - 1)`. -/
def blocks (f : Nat → List Call) : Nat → List Call
  | 0 => []
  | n + 1 => f 0 ++ blocks (fun j => f (j + 1)) n

/-- An x86 build configuration: the SSE2 and SSSE3 ladders are compiled, the
AVX2 and NEON ladders are not. -/
def Build.ssse3 (kMaxStride : Int) : Build :=
  { kMaxStride := kMaxStride
    HAS_ARGBTOYROW_SSSE3 := true
    HAS_ARGBTOYROW_NEON := false
    HAS_ARGBTOUV422ROW_SSSE3 := true
    HAS_MERGEUV_SSE2 := true
    HAS_MERGEUV_AVX2 := false
    HAS_MERGEUV_NEON := false
    HAS_I422TOYUY2ROW_SSE2 := true
    HAS_I422TOYUY2ROW_NEON := false
    HAS_I422TOUYVYROW_SSE2 := true
    HAS_I422TOUYVYROW_NEON := false
    HAS_ARGBTORGBAROW_SSSE3 := true
    HAS_ARGBTORGBAROW_NEON := false
    HAS_ARGBTORGB24ROW_SSSE3 := true
    HAS_ARGBTORGB24ROW_NEON := false
    HAS_ARGBTORAWROW_SSSE3 := true
    HAS_ARGBTORAWROW_NEON := false
    HAS_ARGBTORGB565ROW_SSE2 := true
    HAS_ARGBTORGB565ROW_NEON := false
    HAS_ARGBTOARGB1555ROW_SSE2 := true
    HAS_ARGBTOARGB1555ROW_NEON := false
    HAS_ARGBTOARGB4444ROW_SSE2 := true
    HAS_ARGBTOARGB4444ROW_NEON := false }

/-- An ARM build configuration: only the NEON ladders are compiled. -/
def Build.neon (kMaxStride : Int) : Build :=
  { kMaxStride := kMaxStride
    HAS_ARGBTOYROW_SSSE3 := false
    HAS_ARGBTOYROW_NEON := true
    HAS_ARGBTOUV422ROW_SSSE3 := false
    HAS_MERGEUV_SSE2 := false
    HAS_MERGEUV_AVX2 := false
    HAS_MERGEUV_NEON := true
    HAS_I422TOYUY2ROW_SSE2 := false
    HAS_I422TOYUY2ROW_NEON := true
    HAS_I422TOUYVYROW_SSE2 := false
    HAS_I422TOUYVYROW_NEON := true
    HAS_ARGBTORGBAROW_SSSE3 := false
    HAS_ARGBTORGBAROW_NEON := true
    HAS_ARGBTORGB24ROW_SSSE3 := false
    HAS_ARGBTORGB24ROW_NEON := true
    HAS_ARGBTORAWROW_SSSE3 := false
    HAS_ARGBTORAWROW_NEON := true
    HAS_ARGBTORGB565ROW_SSE2 := false
    HAS_ARGBTORGB565ROW_NEON := true
    HAS_ARGBTOARGB1555ROW_SSE2 := false
    HAS_ARGBTOARGB1555ROW_NEON := true
    HAS_ARGBTOARGB4444ROW_SSE2 := false
    HAS_ARGBTOARGB4444ROW_NEON := true }

/-- The capability set in which every query answers true. -/
def Cpu.all : Cpu := fun _ => true

/-- A kernel semantics used in examples: a luma invocation fills the luma
scratch row with the low byte of its pixel count, whatever the variant, and
every other invocation leaves the memory as it is. -/
def Kernels.sample : Kernels := fun c m =>
  match c with
  | .ARGBToYRow _ _ _ n => { m with row_y := fun _ => UInt8.ofNat n.toNat }
  | _ => m

/-- The memory in which every byte is zero. -/
def Memory.zero : Memory :=
  { bytes := fun _ => 0, row_y := fun _ => 0, row_u := fun _ => 0, row_v := fun _ => 0 }

/-! ## Operations, tiers and the view of an invocation -/

/-- The logical row operations, one per function pointer name. -/
inductive RowOp
  | ARGBToYRow
  | ARGBToUV444Row
  | ARGBToUV422Row
  | ARGBToUV411Row
  | ARGBToUVRow
  | MergeUV
  | I422ToYUY2Row
  | I422ToUYVYRow
  | ARGBToRGBARow
  | ARGBToRGB24Row
  | ARGBToRAWRow
  | ARGBToRGB565Row
  | ARGBToARGB1555Row
  | ARGBToARGB4444Row
deriving DecidableEq

/-- The logical operation of an invocation. -/
def Call.op : Call → RowOp
  | .ARGBToYRow _ _ _ _ => .ARGBToYRow
  | .ARGBToUV444Row _ _ _ _ _ => .ARGBToUV444Row
  | .ARGBToUV422Row _ _ _ _ _ => .ARGBToUV422Row
  | .ARGBToUV411Row _ _ _ _ _ => .ARGBToUV411Row
  | .ARGBToUVRow _ _ _ _ _ _ => .ARGBToUVRow
  | .MergeUV _ _ _ _ _ => .MergeUV
  | .I422ToYUY2Row _ _ _ _ _ _ => .I422ToYUY2Row
  | .I422ToUYVYRow _ _ _ _ _ _ => .I422ToUYVYRow
  | .ARGBToRGBARow _ _ _ _ => .ARGBToRGBARow
  | .ARGBToRGB24Row _ _ _ _ => .ARGBToRGB24Row
  | .ARGBToRAWRow _ _ _ _ => .ARGBToRAWRow
  | .ARGBToRGB565Row _ _ _ _ => .ARGBToRGB565Row
  | .ARGBToARGB1555Row _ _ _ _ => .ARGBToARGB1555Row
  | .ARGBToARGB4444Row _ _ _ _ => .ARGBToARGB4444Row

/-- The implementation an invocation is bound to. -/
def Call.variant : Call → Variant
  | .ARGBToYRow f _ _ _ => f
  | .ARGBToUV444Row f _ _ _ _ => f
  | .ARGBToUV422Row f _ _ _ _ => f
  | .ARGBToUV411Row f _ _ _ _ => f
  | .ARGBToUVRow f _ _ _ _ _ => f
  | .MergeUV f _ _ _ _ => f
  | .I422ToYUY2Row f _ _ _ _ _ => f
  | .I422ToUYVYRow f _ _ _ _ _ => f
  | .ARGBToRGBARow f _ _ _ => f
  | .ARGBToRGB24Row f _ _ _ => f
  | .ARGBToRAWRow f _ _ _ => f
  | .ARGBToRGB565Row f _ _ _ => f
  | .ARGBToARGB1555Row f _ _ _ => f
  | .ARGBToARGB4444Row f _ _ _ => f

/-- The pixel count an invocation is made with: the width, or the half width
for `MergeUV`. -/
def Call.pix : Call → Int
  | .ARGBToYRow _ _ _ n => n
  | .ARGBToUV444Row _ _ _ _ n => n
  | .ARGBToUV422Row _ _ _ _ n => n
  | .ARGBToUV411Row _ _ _ _ n => n
  | .ARGBToUVRow _ _ _ _ _ n => n
  | .MergeUV _ _ _ _ n => n
  | .I422ToYUY2Row _ _ _ _ _ n => n
  | .I422ToUYVYRow _ _ _ _ _ n => n
  | .ARGBToRGBARow _ _ _ n => n
  | .ARGBToRGB24Row _ _ _ n => n
  | .ARGBToRAWRow _ _ _ n => n
  | .ARGBToRGB565Row _ _ _ n => n
  | .ARGBToARGB1555Row _ _ _ n => n
  | .ARGBToARGB4444Row _ _ _ n => n

/-- The tiers of the kernel selector. -/
inductive Tier
  | Reference
  | Any
  | Unaligned
  | Aligned
deriving DecidableEq

/-- The tier of an implementation, read off its name: `_C` is the reference,
`_Any_*` the any-width tier, `_Unaligned_*` the unaligned tier, and the bare
instruction-set name the most specialised variant of its ladder. -/
def Variant.tier : Variant → Tier
  | .C => .Reference
  | .Any_SSSE3 | .Any_SSE2 | .Any_AVX2 | .Any_NEON => .Any
  | .Unaligned_SSSE3 | .Unaligned_SSE2 | .Unaligned_AVX2 | .Unaligned_NEON => .Unaligned
  | .SSSE3 | .SSE2 | .AVX2 | .NEON => .Aligned

/-- Chroma-pair invocations over two distinct rows (non-zero cross-row stride). -/
def Call.isRowPair : Call → Bool
  | .ARGBToUVRow _ _ st _ _ _ => decide (st ≠ 0)
  | _ => false

/-- Chroma-pair invocations over a single row (zero cross-row stride). -/
def Call.isSingleRow : Call → Bool
  | .ARGBToUVRow _ _ st _ _ _ => decide (st = 0)
  | _ => false

/-- Merge invocations. -/
def Call.isMerge : Call → Bool
  | .MergeUV _ _ _ _ _ => true
  | _ => false

/-- The function pointers of a call after kernel resolution: the logical
operation, the variant bound to it and the pixel count it is invoked with. -/
def EntryPoint.resolved (b : Build) (cpu : Cpu) : EntryPoint → Args → List (RowOp × Variant × Int)
  | .ARGBToI444, a =>
    [(.ARGBToUV444Row, (ARGBToI444.kernels b cpu
        (invert a.height a.src_argb a.src_stride_argb).2.1
        (invert a.height a.src_argb a.src_stride_argb).2.2 a.dst a.dst_stride a.width).2,
      a.width),
     (.ARGBToYRow, (ARGBToI444.kernels b cpu
        (invert a.height a.src_argb a.src_stride_argb).2.1
        (invert a.height a.src_argb a.src_stride_argb).2.2 a.dst a.dst_stride a.width).1,
      a.width)]
  | .ARGBToI422, a =>
    [(.ARGBToUV422Row, (ARGBToI422.kernels b cpu
        (invert a.height a.src_argb a.src_stride_argb).2.1
        (invert a.height a.src_argb a.src_stride_argb).2.2 a.dst a.dst_stride a.width).2,
      a.width),
     (.ARGBToYRow, (ARGBToI422.kernels b cpu
        (invert a.height a.src_argb a.src_stride_argb).2.1
        (invert a.height a.src_argb a.src_stride_argb).2.2 a.dst a.dst_stride a.width).1,
      a.width)]
  | .ARGBToI411, a =>
    [(.ARGBToUV411Row, (ARGBToI411.kernels b cpu
        (invert a.height a.src_argb a.src_stride_argb).2.1
        (invert a.height a.src_argb a.src_stride_argb).2.2 a.dst a.dst_stride a.width).2,
      a.width),
     (.ARGBToYRow, (ARGBToI411.kernels b cpu
        (invert a.height a.src_argb a.src_stride_argb).2.1
        (invert a.height a.src_argb a.src_stride_argb).2.2 a.dst a.dst_stride a.width).1,
      a.width)]
  | .ARGBToNV12, a | .ARGBToNV21, a =>
    [(.ARGBToUVRow, (nvKernels b cpu
        (invert a.height a.src_argb a.src_stride_argb).2.1
        (invert a.height a.src_argb a.src_stride_argb).2.2 a.dst a.dst_stride a.width).1,
      a.width),
     (.MergeUV, mergeKernel b cpu a.dst_u a.dst_stride_u (halfwidth a.width),
      halfwidth a.width),
     (.ARGBToYRow, (nvKernels b cpu
        (invert a.height a.src_argb a.src_stride_argb).2.1
        (invert a.height a.src_argb a.src_stride_argb).2.2 a.dst a.dst_stride a.width).2,
      a.width)]
  | .ARGBToYUY2, a =>
    [(.ARGBToUVRow, (packedKernels b cpu a.src_argb a.src_stride_argb a.width).1, a.width),
     (.ARGBToYRow, (packedKernels b cpu a.src_argb a.src_stride_argb a.width).2, a.width),
     (.I422ToYUY2Row, repackKernel b.HAS_I422TOYUY2ROW_SSE2 b.HAS_I422TOYUY2ROW_NEON cpu
        (invert a.height a.dst a.dst_stride).2.1 (invert a.height a.dst a.dst_stride).2.2
        a.width, a.width)]
  | .ARGBToUYVY, a =>
    [(.ARGBToUVRow, (packedKernels b cpu a.src_argb a.src_stride_argb a.width).1, a.width),
     (.ARGBToYRow, (packedKernels b cpu a.src_argb a.src_stride_argb a.width).2, a.width),
     (.I422ToUYVYRow, repackKernel b.HAS_I422TOUYVYROW_SSE2 b.HAS_I422TOUYVYROW_NEON cpu
        (invert a.height a.dst a.dst_stride).2.1 (invert a.height a.dst a.dst_stride).2.2
        a.width, a.width)]
  | .ARGBToI400, a =>
    [(.ARGBToYRow, ARGBToI400.kernels b cpu
        (invert a.height a.src_argb a.src_stride_argb).2.1
        (invert a.height a.src_argb a.src_stride_argb).2.2 a.dst a.dst_stride a.width,
      a.width)]
  | .ARGBToRGBA, a =>
    [(.ARGBToRGBARow, ARGBToRGBA.kernels b cpu
        (invert a.height a.src_argb a.src_stride_argb).2.1
        (invert a.height a.src_argb a.src_stride_argb).2.2 a.dst a.dst_stride a.width,
      a.width)]
  | .ARGBToRGB24, a =>
    [(.ARGBToRGB24Row, rgb24Kernel b.HAS_ARGBTORGB24ROW_SSSE3 b.HAS_ARGBTORGB24ROW_NEON cpu
        (invert a.height a.src_argb a.src_stride_argb).2.1
        (invert a.height a.src_argb a.src_stride_argb).2.2 a.dst a.dst_stride a.width,
      a.width)]
  | .ARGBToRAW, a =>
    [(.ARGBToRAWRow, rgb24Kernel b.HAS_ARGBTORAWROW_SSSE3 b.HAS_ARGBTORAWROW_NEON cpu
        (invert a.height a.src_argb a.src_stride_argb).2.1
        (invert a.height a.src_argb a.src_stride_argb).2.2 a.dst a.dst_stride a.width,
      a.width)]
  | .ARGBToRGB565, a =>
    [(.ARGBToRGB565Row, rgb16Kernel b.HAS_ARGBTORGB565ROW_SSE2 b.HAS_ARGBTORGB565ROW_NEON cpu
        (invert a.height a.src_argb a.src_stride_argb).2.1
        (invert a.height a.src_argb a.src_stride_argb).2.2 a.width,
      a.width)]
  | .ARGBToARGB1555, a =>
    [(.ARGBToARGB1555Row, rgb16Kernel b.HAS_ARGBTOARGB1555ROW_SSE2
        b.HAS_ARGBTOARGB1555ROW_NEON cpu
        (invert a.height a.src_argb a.src_stride_argb).2.1
        (invert a.height a.src_argb a.src_stride_argb).2.2 a.width,
      a.width)]
  | .ARGBToARGB4444, a =>
    [(.ARGBToARGB4444Row, rgb16Kernel b.HAS_ARGBTOARGB4444ROW_SSE2
        b.HAS_ARGBTOARGB4444ROW_NEON cpu
        (invert a.height a.src_argb a.src_stride_argb).2.1
        (invert a.height a.src_argb a.src_stride_argb).2.2 a.width,
      a.width)]

/-- The SIMD block size of an operation in a build: the pixel count below
which no compiled ladder of the operation leaves the reference kernel.  It is
the `N` of the ladder's `width >= N` test, and for the ladders that only test
`IS_ALIGNED(width, N)` (`ARGBToRGBARow`, the NEON `ARGBToUVRow`) that `N`. -/
def minBlock (b : Build) : RowOp → Int
  | .ARGBToYRow => if b.HAS_ARGBTOYROW_SSSE3 then 16 else 8
  | .ARGBToUV444Row => 8
  | .ARGBToUV422Row => 16
  | .ARGBToUV411Row => 32
  | .ARGBToUVRow => 16
  | .MergeUV => if b.HAS_MERGEUV_SSE2 || b.HAS_MERGEUV_NEON then 16 else 32
  | .I422ToYUY2Row => 16
  | .I422ToUYVYRow => 16
  | .ARGBToRGBARow => if b.HAS_ARGBTORGBAROW_SSSE3 then 4 else 8
  | .ARGBToRGB24Row => if b.HAS_ARGBTORGB24ROW_SSSE3 then 16 else 8
  | .ARGBToRAWRow => if b.HAS_ARGBTORAWROW_SSSE3 then 16 else 8
  | .ARGBToRGB565Row => if b.HAS_ARGBTORGB565ROW_SSE2 then 4 else 8
  | .ARGBToARGB1555Row => if b.HAS_ARGBTOARGB1555ROW_SSE2 then 4 else 8
  | .ARGBToARGB4444Row => if b.HAS_ARGBTOARGB4444ROW_SSE2 then 4 else 8

/-- The two SIMD build configurations. -/
inductive Family
  | x86
  | neon
deriving DecidableEq

/-- The build of a family, for a given scratch-row capacity. -/
def Family.build : Family → Int → Build
  | .x86, kMaxStride => Build.ssse3 kMaxStride
  | .neon, kMaxStride => Build.neon kMaxStride

/-- The ladder an operation has in a family: the capability it queries and its
block size; `none` when the family has no SIMD variant of the operation. -/
def Family.ladder : Family → RowOp → Option (CpuFlag × Int)
  | .x86, .ARGBToYRow => some (.kCpuHasSSSE3, 16)
  | .x86, .ARGBToUV444Row => none
  | .x86, .ARGBToUV422Row => some (.kCpuHasSSSE3, 16)
  | .x86, .ARGBToUV411Row => none
  | .x86, .ARGBToUVRow => some (.kCpuHasSSSE3, 16)
  | .x86, .MergeUV => some (.kCpuHasSSE2, 16)
  | .x86, .I422ToYUY2Row => some (.kCpuHasSSE2, 16)
  | .x86, .I422ToUYVYRow => some (.kCpuHasSSE2, 16)
  | .x86, .ARGBToRGBARow => some (.kCpuHasSSSE3, 4)
  | .x86, .ARGBToRGB24Row => some (.kCpuHasSSSE3, 16)
  | .x86, .ARGBToRAWRow => some (.kCpuHasSSSE3, 16)
  | .x86, .ARGBToRGB565Row => some (.kCpuHasSSE2, 4)
  | .x86, .ARGBToARGB1555Row => some (.kCpuHasSSE2, 4)
  | .x86, .ARGBToARGB4444Row => some (.kCpuHasSSE2, 4)
  | .neon, .ARGBToYRow => some (.kCpuHasNEON, 8)
  | .neon, .ARGBToUV444Row => some (.kCpuHasNEON, 8)
  | .neon, .ARGBToUV422Row => some (.kCpuHasNEON, 16)
  | .neon, .ARGBToUV411Row => some (.kCpuHasNEON, 32)
  | .neon, .ARGBToUVRow => some (.kCpuHasNEON, 16)
  | .neon, .MergeUV => some (.kCpuHasNEON, 16)
  | .neon, .I422ToYUY2Row => some (.kCpuHasNEON, 16)
  | .neon, .I422ToUYVYRow => some (.kCpuHasNEON, 16)
  | .neon, .ARGBToRGBARow => some (.kCpuHasNEON, 8)
  | .neon, .ARGBToRGB24Row => some (.kCpuHasNEON, 8)
  | .neon, .ARGBToRAWRow => some (.kCpuHasNEON, 8)
  | .neon, .ARGBToRGB565Row => some (.kCpuHasNEON, 8)
  | .neon, .ARGBToARGB1555Row => some (.kCpuHasNEON, 8)
  | .neon, .ARGBToARGB4444Row => some (.kCpuHasNEON, 8)

/-- What the ladder of an operation tests, besides the capability and the
block size, before it leaves the reference kernel: on x86 the 16-byte
alignment of the (orientation-normalised) pointers and strides of the repack
and reshuffle kernels, and for the ladders without an any-width tier
(`ARGBToRGBARow`, the NEON `ARGBToUVRow`) that the width is a multiple of the
block. -/
def Family.gate : Family → Args → RowOp → Bool
  | .x86, a, .I422ToYUY2Row | .x86, a, .I422ToUYVYRow =>
    IS_ALIGNED (invert a.height a.dst a.dst_stride).2.1 16 &&
      IS_ALIGNED (invert a.height a.dst a.dst_stride).2.2 16
  | .x86, a, .ARGBToRGB24Row | .x86, a, .ARGBToRAWRow =>
    IS_ALIGNED (invert a.height a.src_argb a.src_stride_argb).2.1 16 &&
      IS_ALIGNED (invert a.height a.src_argb a.src_stride_argb).2.2 16 &&
      IS_ALIGNED a.dst 16 && IS_ALIGNED a.dst_stride 16
  | .x86, a, .ARGBToRGB565Row | .x86, a, .ARGBToARGB1555Row | .x86, a, .ARGBToARGB4444Row =>
    IS_ALIGNED (invert a.height a.src_argb a.src_stride_argb).2.1 16 &&
      IS_ALIGNED (invert a.height a.src_argb a.src_stride_argb).2.2 16
  | .x86, a, .ARGBToRGBARow =>
    IS_ALIGNED a.width 4 &&
      IS_ALIGNED (invert a.height a.src_argb a.src_stride_argb).2.1 16 &&
      IS_ALIGNED (invert a.height a.src_argb a.src_stride_argb).2.2 16 &&
      IS_ALIGNED a.dst 16 && IS_ALIGNED a.dst_stride 16
  | .x86, _, _ => true
  | .neon, a, .ARGBToUVRow => IS_ALIGNED a.width 16
  | .neon, a, .ARGBToRGBARow => IS_ALIGNED a.width 8
  | .neon, _, _ => true

/-- The number of invocations an entry point makes for `H` rows: one, two or
three per row for the row-wise formats, four per row pair (and four more for
an unpaired last row) for the semi-planar formats. -/
def EntryPoint.invocations : EntryPoint → Nat → Nat
  | .ARGBToI444, H | .ARGBToI422, H | .ARGBToI411, H => 2 * H
  | .ARGBToNV12, H | .ARGBToNV21, H => 4 * ((H + 1) / 2)
  | .ARGBToYUY2, H | .ARGBToUYVY, H => 3 * H
  | _, H => H

/-! ## Row contents -/

/-- Modelled from the spec: the row kernels of `row.h` are not part of the
embedded sources; each is a pure function of the contents of its source
row(s) and of the pixel count.  The content of a row is recorded as a term:
the content the row had before the call, or output number `out` of the
implementation `f` of a row operation applied to the contents of its source
rows. -/
inductive RowVal
  | init (p : Ptr)
  | app1 (op : RowOp) (f : Variant) (out : Nat) (pix : Int) (a : RowVal)
  | app2 (op : RowOp) (f : Variant) (out : Nat) (pix : Int) (a b : RowVal)
  | app3 (op : RowOp) (f : Variant) (out : Nat) (pix : Int) (a b c : RowVal)
deriving DecidableEq

/-- The contents of all rows, by the pointer to the start of the row. -/
abbrev Rows := Ptr → RowVal

/-- The rows before a call. -/
def Rows.initial : Rows := fun p => .init p

/-- The rows after one row has been written. -/
def Rows.set (r : Rows) (p : Ptr) (v : RowVal) : Rows := fun q => if q = p then v else r q

/-- The pointer `p + k` (the scratch rows are never offset). -/
def Ptr.offset : Ptr → Int → Ptr
  | .mem a, k => .mem (a + k)
  | p, _ => p

/-- Modelled from the spec: the effect of one invocation on the rows; the
kernel reads its source row(s) and writes its destination row(s).  The
chroma-pair kernel `ARGBToUVRow` reads the rows at `src_argb0` and at
`src_argb0 + src_stride_argb`. -/
def Call.apply : Call → Rows → Rows
  | .ARGBToYRow f s d n, r => r.set d (.app1 .ARGBToYRow f 0 n (r s))
  | .ARGBToUV444Row f s u v n, r =>
    (r.set u (.app1 .ARGBToUV444Row f 0 n (r s))).set v (.app1 .ARGBToUV444Row f 1 n (r s))
  | .ARGBToUV422Row f s u v n, r =>
    (r.set u (.app1 .ARGBToUV422Row f 0 n (r s))).set v (.app1 .ARGBToUV422Row f 1 n (r s))
  | .ARGBToUV411Row f s u v n, r =>
    (r.set u (.app1 .ARGBToUV411Row f 0 n (r s))).set v (.app1 .ARGBToUV411Row f 1 n (r s))
  | .ARGBToUVRow f s st u v n, r =>
    (r.set u (.app2 .ARGBToUVRow f 0 n (r s) (r (s.offset st)))).set v
      (.app2 .ARGBToUVRow f 1 n (r s) (r (s.offset st)))
  | .MergeUV f u v d n, r => r.set d (.app2 .MergeUV f 0 n (r u) (r v))
  | .I422ToYUY2Row f y u v d n, r => r.set d (.app3 .I422ToYUY2Row f 0 n (r y) (r u) (r v))
  | .I422ToUYVYRow f y u v d n, r => r.set d (.app3 .I422ToUYVYRow f 0 n (r y) (r u) (r v))
  | .ARGBToRGBARow f s d n, r => r.set d (.app1 .ARGBToRGBARow f 0 n (r s))
  | .ARGBToRGB24Row f s d n, r => r.set d (.app1 .ARGBToRGB24Row f 0 n (r s))
  | .ARGBToRAWRow f s d n, r => r.set d (.app1 .ARGBToRAWRow f 0 n (r s))
  | .ARGBToRGB565Row f s d n, r => r.set d (.app1 .ARGBToRGB565Row f 0 n (r s))
  | .ARGBToARGB1555Row f s d n, r => r.set d (.app1 .ARGBToARGB1555Row f 0 n (r s))
  | .ARGBToARGB4444Row f s d n, r => r.set d (.app1 .ARGBToARGB4444Row f 0 n (r s))

/-- The rows after a sequence of invocations performed in order. -/
def rowsAfter : List Call → Rows → Rows
  | [], r => r
  | c :: cs, r => rowsAfter cs (c.apply r)

/-- The rows of a call when it returns. -/
def Result.rows (r : Result) : Rows := rowsAfter r.trace Rows.initial

theorem blocks_length (k : Nat) :
    ∀ (n : Nat) (f : Nat → List Call), (∀ i, (f i).length = k) →
      (blocks f n).length = k * n := by
  intro n
  induction n with
  | zero => intro f _; simp [blocks]
  | succ n ih =>
    intro f hf
    simp only [blocks, List.length_append, hf 0]
    rw [ih (fun j => f (j + 1)) (fun i => hf (i + 1))]
    ring

theorem blocks_slice (k : Nat) :
    ∀ (n : Nat) (f : Nat → List Call) (j : Nat), (∀ i, (f i).length = k) → j < n →
      ((blocks f n).drop (k * j)).take k = f j := by
  intro n
  induction n with
  | zero => intro f j _ hj; omega
  | succ n ih =>
    intro f j hf hj
    cases j with
    | zero =>
      simp only [blocks, Nat.mul_zero, List.drop_zero]
      rw [← hf 0, List.take_left]
    | succ j =>
      have h1 : k * (j + 1) = (f 0).length + k * j := by rw [hf 0]; ring
      simp only [blocks]
      rw [h1, List.drop_append]
      exact ih (fun i => f (i + 1)) j (fun i => hf (i + 1)) (by omega)

theorem blocks_map (g : Call → Call) :
    ∀ (n : Nat) (f : Nat → List Call),
      (blocks f n).map g = blocks (fun j => (f j).map g) n := by
  intro n
  induction n with
  | zero => intro f; simp [blocks]
  | succ n ih => intro f; simp only [blocks, List.map_append]; rw [ih]

theorem blocks_append_slice (k : Nat) (n : Nat) (f : Nat → List Call) (t : List Call)
    (j : Nat) (hf : ∀ i, (f i).length = k) (hj : j < n) :
    ((blocks f n ++ t).drop (k * j)).take k = f j := by
  have hlen := blocks_length k n f hf
  have h1 : k * (j + 1) ≤ k * n := Nat.mul_le_mul_left k hj
  have h2 : k * j + k ≤ k * n := by rw [Nat.mul_succ] at h1; exact h1
  rw [List.drop_append_of_le_length (by omega),
    List.take_append_of_le_length (by rw [List.length_drop]; omega)]
  exact blocks_slice k n f j hf hj

/-- The loop runs exactly `n` iterations, whatever fuel at least `n` it is
given: it emits the bodies along the trajectory `st` and stops in `st n`. -/
theorem forLoop_eq_blocks {σ : Type} (body : σ → List Call × σ) (bound step : Int) :
    ∀ (n fuel : Nat) (y : Int) (st : Nat → σ),
      (∀ j, (body (st j)).2 = st (j + 1)) → n ≤ fuel →
      (∀ j : Nat, j < n → y + j * step < bound) → ¬ (y + n * step < bound) →
      forLoop body bound step fuel y (st 0) = (blocks (fun j => (body (st j)).1) n, st n) := by
  intro n
  induction n with
  | zero =>
    intro fuel y st _ _ _ hstop
    have hy : ¬ y < bound := by simpa using hstop
    cases fuel with
    | zero => rfl
    | succ f => simp [forLoop, blocks, hy]
  | succ n ih =>
    intro fuel y st hst hfuel hrun hstop
    cases fuel with
    | zero => omega
    | succ f =>
      have hy : y < bound := by simpa using hrun 0 (by omega)
      have hrec := ih f (y + step) (fun j => st (j + 1)) (fun j => hst (j + 1)) (by omega)
        (fun j hj => by
          have := hrun (j + 1) (by omega)
          push_cast at this
          linarith)
        (by
          intro hlt
          apply hstop
          push_cast
          linarith)
      simp only [forLoop, hy, if_true, blocks]
      rw [hst 0, hrec]

/-- Closed form of the row loop of the one-kernel formats: one invocation per
row `j < height`, on source row `j` and destination row `j`. -/
theorem rowLoop_eq (Row : Ptr → Ptr → Int → Call)
    (src_argb src_stride_argb dst dst_stride width height : Int) :
    rowLoop Row src_argb src_stride_argb dst dst_stride width height =
      blocks (fun j => [Row (.mem (src_argb + j * src_stride_argb))
        (.mem (dst + j * dst_stride)) width]) height.toNat := by
  have h := forLoop_eq_blocks (rowBody Row src_stride_argb dst_stride width) height 1
    height.toNat height.toNat 0
    (fun j => { src_argb := src_argb + j * src_stride_argb, dst := dst + j * dst_stride })
    (fun j => by simp only [rowBody, Regs1.mk.injEq]; constructor <;> (push_cast; ring))
    (le_refl _) (fun j hj => by omega) (by omega)
  simp only [Nat.cast_zero, zero_mul, add_zero] at h
  simp only [rowLoop, h, rowBody]

/-- Closed form of the row loop of the three-plane formats. -/
theorem planarLoop_eq (UVRow : Ptr → Ptr → Ptr → Int → Call) (YRow : Ptr → Ptr → Int → Call)
    (src_argb src_stride_argb dst_y dst_stride_y dst_u dst_stride_u dst_v dst_stride_v
      width height : Int) :
    planarLoop UVRow YRow src_argb src_stride_argb dst_y dst_stride_y dst_u dst_stride_u
        dst_v dst_stride_v width height =
      blocks (fun j =>
        [UVRow (.mem (src_argb + j * src_stride_argb)) (.mem (dst_u + j * dst_stride_u))
            (.mem (dst_v + j * dst_stride_v)) width,
         YRow (.mem (src_argb + j * src_stride_argb)) (.mem (dst_y + j * dst_stride_y)) width])
        height.toNat := by
  have h := forLoop_eq_blocks
    (planarBody UVRow YRow src_stride_argb dst_stride_y dst_stride_u dst_stride_v width)
    height 1 height.toNat height.toNat 0
    (fun j => { src_argb := src_argb + j * src_stride_argb, dst_y := dst_y + j * dst_stride_y,
                dst_u := dst_u + j * dst_stride_u, dst_v := dst_v + j * dst_stride_v })
    (fun j => by
      simp only [planarBody, Regs3.mk.injEq]
      refine ⟨?_, ?_, ?_, ?_⟩ <;> (push_cast; ring))
    (le_refl _) (fun j hj => by omega) (by omega)
  simp only [Nat.cast_zero, zero_mul, add_zero] at h
  simp only [planarLoop, h, planarBody]

/-- Closed form of the row loop of the packed 4:2:2 formats. -/
theorem packedLoop_eq (UVRow YRow : Variant) (Repack : Ptr → Ptr → Ptr → Ptr → Int → Call)
    (src_argb src_stride_argb dst dst_stride width height : Int) :
    (forLoop (packedBody UVRow YRow Repack src_stride_argb dst_stride width)
        height 1 height.toNat 0 { src_argb := src_argb, dst := dst }).1 =
      blocks (fun j =>
        [.ARGBToUVRow UVRow (.mem (src_argb + j * src_stride_argb)) 0 .row_u .row_v width,
         .ARGBToYRow YRow (.mem (src_argb + j * src_stride_argb)) .row_y width,
         Repack .row_y .row_u .row_v (.mem (dst + j * dst_stride)) width])
        height.toNat := by
  have h := forLoop_eq_blocks
    (packedBody UVRow YRow Repack src_stride_argb dst_stride width)
    height 1 height.toNat height.toNat 0
    (fun j => { src_argb := src_argb + j * src_stride_argb, dst := dst + j * dst_stride })
    (fun j => by simp only [packedBody, Regs1.mk.injEq]; constructor <;> (push_cast; ring))
    (le_refl _) (fun j hj => by omega) (by omega)
  simp only [Nat.cast_zero, zero_mul, add_zero] at h
  simp only [h, packedBody]

/-- Closed form of the row-pair loop of the semi-planar formats: `height / 2`
iterations, the `j`-th on source rows `2 j` and `2 j + 1`, ending with the
pointers advanced by that many row pairs. -/
theorem nvLoop_eq (UVRow YRow : Variant) (Merge : Ptr → Call)
    (src_argb src_stride_argb dst_y dst_stride_y dst_uv dst_stride_uv width height : Int) :
    forLoop (nvBody UVRow YRow Merge src_stride_argb dst_stride_y dst_stride_uv width)
        (height - 1) 2 height.toNat 0
        { src_argb := src_argb, dst_y := dst_y, dst_uv := dst_uv } =
      (blocks (fun j => nvCalls UVRow YRow Merge src_stride_argb dst_stride_y width
          { src_argb := src_argb + (2 * j) * src_stride_argb,
            dst_y := dst_y + (2 * j) * dst_stride_y,
            dst_uv := dst_uv + j * dst_stride_uv }) (height / 2).toNat,
       { src_argb := src_argb + (2 * (height / 2).toNat) * src_stride_argb,
         dst_y := dst_y + (2 * (height / 2).toNat) * dst_stride_y,
         dst_uv := dst_uv + (height / 2).toNat * dst_stride_uv }) := by
  have h := forLoop_eq_blocks
    (nvBody UVRow YRow Merge src_stride_argb dst_stride_y dst_stride_uv width)
    (height - 1) 2 (height / 2).toNat height.toNat 0
    (fun j => { src_argb := src_argb + (2 * j) * src_stride_argb,
                dst_y := dst_y + (2 * j) * dst_stride_y,
                dst_uv := dst_uv + j * dst_stride_uv })
    (fun j => by
      simp only [nvBody, Regs2.mk.injEq]
      refine ⟨?_, ?_, ?_⟩ <;> (push_cast; ring))
    (by omega) (fun j hj => by omega) (by omega)
  simp only [Nat.cast_zero, mul_zero, zero_mul, add_zero] at h
  simp only [h, nvBody]

/-! ### Argument check -/

/-- An entry point either rejects with status `-1` and no invocation, or
accepts with status `0`. -/
theorem run_cases (b : Build) (cpu : Cpu) (e : EntryPoint) (a : Args) :
    ((e.run b cpu a).status = -1 ∧ (e.run b cpu a).trace = []) ∨
      (e.run b cpu a).status = 0 := by
  cases e <;>
    simp only [EntryPoint.run, ARGBToI444, ARGBToI422, ARGBToI411, ARGBToNV12, ARGBToNV21,
      ARGBToYUY2, ARGBToUYVY, ARGBToI400, ARGBToRGBA, ARGBToRGB24, ARGBToRAW, ARGBToRGB565,
      ARGBToARGB1555, ARGBToARGB4444] <;>
    split <;> simp

/-- The status of a call is `0` exactly when the argument check passes: all
pointer parameters are non-null, the width is positive, the height is not
zero and, for the scratch-row formats, the width is at most `kMaxStride`. -/
theorem status_eq_zero_iff (b : Build) (cpu : Cpu) (e : EntryPoint) (a : Args) :
    (e.run b cpu a).status = 0 ↔
      ((0 : Int) ∉ e.pointers a ∧ 0 < a.width ∧ a.height ≠ 0 ∧
        (e.scratch = true → a.width ≤ b.kMaxStride)) := by
  cases e <;>
    simp only [EntryPoint.run, ARGBToI444, ARGBToI422, ARGBToI411, ARGBToNV12, ARGBToNV21,
      ARGBToYUY2, ARGBToUYVY, ARGBToI400, ARGBToRGBA, ARGBToRGB24, ARGBToRAW, ARGBToRGB565,
      ARGBToARGB1555, ARGBToARGB4444, EntryPoint.pointers, EntryPoint.scratch,
      List.mem_cons, List.mem_singleton, List.not_mem_nil, or_false] <;>
    split <;> simp <;> omega

/-- A call that returns `-1` has performed no invocation. -/
theorem trace_nil_of_rejected (b : Build) (cpu : Cpu) (e : EntryPoint) (a : Args)
    (h : (e.run b cpu a).status = -1) : (e.run b cpu a).trace = [] := by
  rcases run_cases b cpu e a with hr | hz
  · exact hr.2
  · rw [hz] at h; omega

/-- C1: each of the fourteen entry points returns `-1` whenever one of its
pointer parameters is null, or `width <= 0`, or `height == 0`. -/
theorem invalid_argument_rejected (b : Build) (cpu : Cpu) (e : EntryPoint) (a : Args)
    (h : (0 : Int) ∈ e.pointers a ∨ a.width ≤ 0 ∨ a.height = 0) :
    (e.run b cpu a).status = -1 := by
  rcases run_cases b cpu e a with hr | hz
  · exact hr.1
  · have := (status_eq_zero_iff b cpu e a).mp hz
    rcases h with h | h | h
    · exact absurd h this.1
    · omega
    · exact absurd h this.2.2.1

/-- C1, at a concrete call: `ARGBToNV12` with a null chroma plane. -/
theorem invalid_argument_rejected_witness :
    (EntryPoint.run (Build.ssse3 2048) Cpu.all .ARGBToNV12
      { src_argb := 4096, src_stride_argb := 64, dst := 8192, dst_stride := 16,
        dst_u := 0, dst_stride_u := 16, dst_v := 0, dst_stride_v := 0,
        width := 16, height := 2 }).status = -1 :=
  invalid_argument_rejected (Build.ssse3 2048) Cpu.all .ARGBToNV12
    { src_argb := 4096, src_stride_argb := 64, dst := 8192, dst_stride := 16,
      dst_u := 0, dst_stride_u := 16, dst_v := 0, dst_stride_v := 0,
      width := 16, height := 2 } (by decide)

/-- C2: a call that returns `-1` has invoked no row kernel, and the memory
after the call is the memory before it, whatever the kernels do. -/
theorem rejection_is_atomic (b : Build) (cpu : Cpu) (e : EntryPoint) (a : Args)
    (h : (e.run b cpu a).status = -1) :
    (e.run b cpu a).trace = [] ∧
      ∀ (K : Kernels) (m : Memory), exec K (e.run b cpu a).trace m = m := by
  have ht := trace_nil_of_rejected b cpu e a h
  exact ⟨ht, fun K m => by rw [ht]; rfl⟩

/-- C2, at a concrete call: `ARGBToYUY2` with height zero. -/
theorem rejection_is_atomic_witness :
    (EntryPoint.run (Build.ssse3 2048) Cpu.all .ARGBToYUY2
      { src_argb := 4096, src_stride_argb := 64, dst := 8192, dst_stride := 32,
        dst_u := 0, dst_stride_u := 0, dst_v := 0, dst_stride_v := 0,
        width := 16, height := 0 }).trace = [] ∧
      ∀ (K : Kernels) (m : Memory),
        exec K (EntryPoint.run (Build.ssse3 2048) Cpu.all .ARGBToYUY2
          { src_argb := 4096, src_stride_argb := 64, dst := 8192, dst_stride := 32,
            dst_u := 0, dst_stride_u := 0, dst_v := 0, dst_stride_v := 0,
            width := 16, height := 0 }).trace m = m :=
  rejection_is_atomic (Build.ssse3 2048) Cpu.all .ARGBToYUY2
    { src_argb := 4096, src_stride_argb := 64, dst := 8192, dst_stride := 32,
      dst_u := 0, dst_stride_u := 0, dst_v := 0, dst_stride_v := 0,
      width := 16, height := 0 } (by decide)

/-- C3: for `ARGBToNV12`, `ARGBToNV21`, `ARGBToYUY2` and `ARGBToUYVY` called
with non-null pointers and a non-zero height, in a build whose `kMaxStride` is
at least 2: the call returns `0` for `width == kMaxStride` and for
`width == kMaxStride - 1`, and for every `width > kMaxStride` it returns `-1`,
invokes no kernel and leaves the memory unchanged. -/
theorem scratch_width_bound (b : Build) (cpu : Cpu) (e : EntryPoint) (a : Args)
    (he : e.scratch = true) (hk : 2 ≤ b.kMaxStride)
    (hp : (0 : Int) ∉ e.pointers a) (hh : a.height ≠ 0) :
    (a.width = b.kMaxStride → (e.run b cpu a).status = 0) ∧
      (a.width = b.kMaxStride - 1 → (e.run b cpu a).status = 0) ∧
      (b.kMaxStride < a.width →
        (e.run b cpu a).status = -1 ∧ (e.run b cpu a).trace = [] ∧
          ∀ (K : Kernels) (m : Memory), exec K (e.run b cpu a).trace m = m) := by
  refine ⟨fun hw => ?_, fun hw => ?_, fun hw => ?_⟩
  · exact (status_eq_zero_iff b cpu e a).mpr ⟨hp, by omega, hh, fun _ => by omega⟩
  · exact (status_eq_zero_iff b cpu e a).mpr ⟨hp, by omega, hh, fun _ => by omega⟩
  · have hs : (e.run b cpu a).status = -1 := by
      rcases run_cases b cpu e a with hr | hz
      · exact hr.1
      · have := ((status_eq_zero_iff b cpu e a).mp hz).2.2.2 he
        omega
    have ht := trace_nil_of_rejected b cpu e a hs
    exact ⟨hs, ht, fun K m => by rw [ht]; rfl⟩

/-- C3, at concrete calls of `ARGBToUYVY` in a build with `kMaxStride = 2048`:
widths 2048 and 2047 are accepted, width 2049 is rejected. -/
theorem scratch_width_bound_witness :
    (EntryPoint.run (Build.ssse3 2048) Cpu.all .ARGBToUYVY
      { src_argb := 4096, src_stride_argb := 8192, dst := 65536, dst_stride := 4096,
        dst_u := 0, dst_stride_u := 0, dst_v := 0, dst_stride_v := 0,
        width := 2048, height := 2 }).status = 0 ∧
    (EntryPoint.run (Build.ssse3 2048) Cpu.all .ARGBToUYVY
      { src_argb := 4096, src_stride_argb := 8192, dst := 65536, dst_stride := 4096,
        dst_u := 0, dst_stride_u := 0, dst_v := 0, dst_stride_v := 0,
        width := 2047, height := 2 }).status = 0 ∧
    (EntryPoint.run (Build.ssse3 2048) Cpu.all .ARGBToUYVY
      { src_argb := 4096, src_stride_argb := 8192, dst := 65536, dst_stride := 4096,
        dst_u := 0, dst_stride_u := 0, dst_v := 0, dst_stride_v := 0,
        width := 2049, height := 2 }).status = -1 :=
  ⟨(scratch_width_bound (Build.ssse3 2048) Cpu.all .ARGBToUYVY
      { src_argb := 4096, src_stride_argb := 8192, dst := 65536, dst_stride := 4096,
        dst_u := 0, dst_stride_u := 0, dst_v := 0, dst_stride_v := 0,
        width := 2048, height := 2 } rfl (by decide) (by decide) (by decide)).1 rfl,
   (scratch_width_bound (Build.ssse3 2048) Cpu.all .ARGBToUYVY
      { src_argb := 4096, src_stride_argb := 8192, dst := 65536, dst_stride := 4096,
        dst_u := 0, dst_stride_u := 0, dst_v := 0, dst_stride_v := 0,
        width := 2047, height := 2 } rfl (by decide) (by decide) (by decide)).2.1 rfl,
   ((scratch_width_bound (Build.ssse3 2048) Cpu.all .ARGBToUYVY
      { src_argb := 4096, src_stride_argb := 8192, dst := 65536, dst_stride := 4096,
        dst_u := 0, dst_stride_u := 0, dst_v := 0, dst_stride_v := 0,
        width := 2049, height := 2 } rfl (by decide) (by decide) (by decide)).2.2
      (by decide)).1⟩

/-! ### Orientation normalisation -/

theorem neg32_neg_of_pos (x : Int) (h0 : 0 < x) (h1 : x < 2147483648) : neg32 (-x) = x := by
  simp only [neg32, wrap32, neg_neg]
  omega

theorem invert_of_pos (height p stride : Int) (h : 0 < height) :
    invert height p stride = (height, p, stride) := by
  simp only [invert]
  rw [if_neg (by omega)]

theorem invert_of_neg (H p stride : Int) (h0 : 0 < H) (h1 : H < 2147483648) :
    invert (-H) p stride = (H, p + (H - 1) * stride, -stride) := by
  simp only [invert]
  rw [if_pos (by omega), neg32_neg_of_pos H h0 h1]

/-- For a height of absolute value `H` in the `int` range, the working height
after the normalisation is `H`. -/
theorem invert_height (height p stride : Int) (H : Nat) (h0 : 0 < H)
    (h1 : (H : Int) < 2147483648) (hh : height = H ∨ height = -(H : Int)) :
    (invert height p stride).1 = H := by
  rcases hh with hh | hh
  · rw [hh, invert_of_pos _ _ _ (by omega)]
  · rw [hh, invert_of_neg _ _ _ (by omega) h1]

theorem halfwidth_eq (width : Int) (h0 : 0 ≤ width) (h1 : width < 2147483647) :
    halfwidth width = (width + 1) / 2 := by
  simp only [halfwidth, wrap32]
  have : (width + 1 + 2147483648) % 4294967296 - 2147483648 = width + 1 := by omega
  rw [this, Int.shiftRight_eq_div_pow]
  norm_num

/-! ### Semi-planar formats -/

/-- Closed form of the invocation sequence of the semi-planar formats: the
row pairs `j < height / 2` in order, then, for an odd height, the block of the
unpaired row with cross-row stride `0`. -/
theorem nvRows_eq (b : Build) (cpu : Cpu) (Merge : Variant → Ptr → Int → Call)
    (src_argb src_stride_argb dst_y dst_stride_y dst_uv dst_stride_uv width height : Int) :
    nvRows b cpu Merge src_argb src_stride_argb dst_y dst_stride_y dst_uv dst_stride_uv
        width height =
      blocks (fun j => nvCalls
          (nvKernels b cpu src_argb src_stride_argb dst_y dst_stride_y width).1
          (nvKernels b cpu src_argb src_stride_argb dst_y dst_stride_y width).2
          (fun d => Merge (mergeKernel b cpu dst_uv dst_stride_uv (halfwidth width)) d
            (halfwidth width))
          src_stride_argb dst_stride_y width
          { src_argb := src_argb + (2 * j) * src_stride_argb,
            dst_y := dst_y + (2 * j) * dst_stride_y,
            dst_uv := dst_uv + j * dst_stride_uv }) (height / 2).toNat ++
        (if height % 2 = 1 then nvCalls
          (nvKernels b cpu src_argb src_stride_argb dst_y dst_stride_y width).1
          (nvKernels b cpu src_argb src_stride_argb dst_y dst_stride_y width).2
          (fun d => Merge (mergeKernel b cpu dst_uv dst_stride_uv (halfwidth width)) d
            (halfwidth width))
          0 dst_stride_y width
          { src_argb := src_argb + (2 * (height / 2).toNat) * src_stride_argb,
            dst_y := dst_y + (2 * (height / 2).toNat) * dst_stride_y,
            dst_uv := dst_uv + (height / 2).toNat * dst_stride_uv }
         else []) := by
  simp only [nvRows, nvLoop_eq]

theorem nvCalls_length (UVRow YRow : Variant) (Merge : Ptr → Call)
    (cross dst_stride_y width : Int) (s : Regs2) :
    (nvCalls UVRow YRow Merge cross dst_stride_y width s).length = 4 := rfl

/-- The trace of an accepted `ARGBToNV12` call. -/
theorem ARGBToNV12_trace (b : Build) (cpu : Cpu) (src_argb src_stride_argb dst_y
    dst_stride_y dst_uv dst_stride_uv width height : Int)
    (hp : src_argb ≠ 0 ∧ dst_y ≠ 0 ∧ dst_uv ≠ 0) (hw : 0 < width ∧ width ≤ b.kMaxStride)
    (hh : height ≠ 0) :
    (ARGBToNV12 b cpu src_argb src_stride_argb dst_y dst_stride_y dst_uv dst_stride_uv
        width height).trace =
      nvRows b cpu (fun m d hw => Call.MergeUV m .row_u .row_v d hw)
        (invert height src_argb src_stride_argb).2.1
        (invert height src_argb src_stride_argb).2.2
        dst_y dst_stride_y dst_uv dst_stride_uv width
        (invert height src_argb src_stride_argb).1 := by
  simp only [ARGBToNV12]
  rw [if_neg (by omega)]

/-- The trace of an accepted `ARGBToNV21` call. -/
theorem ARGBToNV21_trace (b : Build) (cpu : Cpu) (src_argb src_stride_argb dst_y
    dst_stride_y dst_uv dst_stride_uv width height : Int)
    (hp : src_argb ≠ 0 ∧ dst_y ≠ 0 ∧ dst_uv ≠ 0) (hw : 0 < width ∧ width ≤ b.kMaxStride)
    (hh : height ≠ 0) :
    (ARGBToNV21 b cpu src_argb src_stride_argb dst_y dst_stride_y dst_uv dst_stride_uv
        width height).trace =
      nvRows b cpu (fun m d hw => Call.MergeUV m .row_v .row_u d hw)
        (invert height src_argb src_stride_argb).2.1
        (invert height src_argb src_stride_argb).2.2
        dst_y dst_stride_y dst_uv dst_stride_uv width
        (invert height src_argb src_stride_argb).1 := by
  simp only [ARGBToNV21]
  rw [if_neg (by omega)]

/-- For an odd working height `H`, the invocation sequence of the semi-planar
formats ends with the block of the unpaired row `H - 1`: chroma kernel on that
row with cross-row stride `0`, merge into chroma row `(H - 1) / 2`, luma of the
row into luma row `H - 1`, and a second luma invocation into luma row `H`. -/
theorem nvRows_odd (b : Build) (cpu : Cpu) (Merge : Variant → Ptr → Int → Call)
    (src_argb src_stride_argb dst_y dst_stride_y dst_uv dst_stride_uv width : Int)
    (H : Nat) (hH : H % 2 = 1) :
    (nvRows b cpu Merge src_argb src_stride_argb dst_y dst_stride_y dst_uv dst_stride_uv
        width H).drop (4 * (H / 2)) =
      [Call.ARGBToUVRow (nvKernels b cpu src_argb src_stride_argb dst_y dst_stride_y width).1
          (.mem (src_argb + ((H : Int) - 1) * src_stride_argb)) 0 .row_u .row_v width,
       Merge (mergeKernel b cpu dst_uv dst_stride_uv (halfwidth width))
          (.mem (dst_uv + (((H - 1) / 2 : Nat) : Int) * dst_stride_uv)) (halfwidth width),
       Call.ARGBToYRow (nvKernels b cpu src_argb src_stride_argb dst_y dst_stride_y width).2
          (.mem (src_argb + ((H : Int) - 1) * src_stride_argb))
          (.mem (dst_y + ((H : Int) - 1) * dst_stride_y)) width,
       Call.ARGBToYRow (nvKernels b cpu src_argb src_stride_argb dst_y dst_stride_y width).2
          (.mem (src_argb + ((H : Int) - 1) * src_stride_argb))
          (.mem (dst_y + (H : Int) * dst_stride_y)) width] := by
  have hn : ((H : Int) / 2).toNat = H / 2 := by omega
  have hodd : (H : Int) % 2 = 1 := by omega
  rw [nvRows_eq, hn, if_pos hodd]
  have hlen := blocks_length 4 (H / 2) (fun j => nvCalls
      (nvKernels b cpu src_argb src_stride_argb dst_y dst_stride_y width).1
      (nvKernels b cpu src_argb src_stride_argb dst_y dst_stride_y width).2
      (fun d => Merge (mergeKernel b cpu dst_uv dst_stride_uv (halfwidth width)) d
        (halfwidth width))
      src_stride_argb dst_stride_y width
      { src_argb := src_argb + (2 * j) * src_stride_argb,
        dst_y := dst_y + (2 * j) * dst_stride_y,
        dst_uv := dst_uv + j * dst_stride_uv }) (fun _ => rfl)
  rw [← hlen, List.drop_left]
  have e1 : (2 : Int) * ((H / 2 : Nat) : Int) = (H : Int) - 1 := by omega
  have e2 : (H - 1) / 2 = H / 2 := by omega
  simp only [nvCalls, e1, e2, add_zero]
  have e3 : dst_y + ((H : Int) - 1) * dst_stride_y + dst_stride_y
      = dst_y + (H : Int) * dst_stride_y := by ring
  rw [e3]

/-- C4 (failing input): `ARGBToNV12` and `ARGBToNV21` called with width 1 and
height 1 return `0`, and their last invocation is the luma kernel writing to
`dst_y + dst_stride_y = 8192 + 16`, which is luma row 1 of an image whose only
row is row 0. -/
theorem nv_height_one_writes_luma_row_one :
    ARGBToNV12 (Build.ssse3 2048) Cpu.all 4096 4 8192 16 12288 16 1 1 =
      { status := 0,
        trace := [.ARGBToUVRow .C (.mem 4096) 0 .row_u .row_v 1,
                  .MergeUV .C .row_u .row_v (.mem 12288) 1,
                  .ARGBToYRow .C (.mem 4096) (.mem 8192) 1,
                  .ARGBToYRow .C (.mem 4096) (.mem (8192 + 16)) 1] } ∧
    ARGBToNV21 (Build.ssse3 2048) Cpu.all 4096 4 8192 16 12288 16 1 1 =
      { status := 0,
        trace := [.ARGBToUVRow .C (.mem 4096) 0 .row_u .row_v 1,
                  .MergeUV .C .row_v .row_u (.mem 12288) 1,
                  .ARGBToYRow .C (.mem 4096) (.mem 8192) 1,
                  .ARGBToYRow .C (.mem 4096) (.mem (8192 + 16)) 1] } := by
  decide

/-- The invocations of the unpaired row: in `ARGBToNV12` and `ARGBToNV21` with
an odd effective height `H` (`height = H` or `height = -H`), everything after
the `H / 2` row pairs is the block of the unpaired row: the chroma-pair kernel
is invoked on source row `H - 1` (of the orientation-normalised source) with
cross-row stride `0`, and its two scratch rows are merged into chroma row
`(H - 1) / 2`, as `(row_u, row_v)` for NV12 and as `(row_v, row_u)` for NV21;
two luma invocations follow, the first into luma row `H - 1` and the second
into the row at `dst_y + H * dst_stride_y`.  This is a statement about the
order of the invocations only; what the rows hold when the call returns is
the subject of `nvRows_rows`. -/
theorem odd_height_last_chroma_row (b : Build) (cpu : Cpu) (src_argb src_stride_argb dst_y
    dst_stride_y dst_uv dst_stride_uv width height : Int) (H : Nat)
    (hp : src_argb ≠ 0 ∧ dst_y ≠ 0 ∧ dst_uv ≠ 0) (hw : 0 < width ∧ width ≤ b.kMaxStride)
    (hH : H % 2 = 1) (h1 : (H : Int) < 2147483648)
    (hh : height = H ∨ height = -(H : Int)) :
    (ARGBToNV12 b cpu src_argb src_stride_argb dst_y dst_stride_y dst_uv dst_stride_uv
        width height).trace.drop (4 * (H / 2)) =
      [Call.ARGBToUVRow
          (nvKernels b cpu (invert height src_argb src_stride_argb).2.1
            (invert height src_argb src_stride_argb).2.2 dst_y dst_stride_y width).1
          (.mem ((invert height src_argb src_stride_argb).2.1 +
            ((H : Int) - 1) * (invert height src_argb src_stride_argb).2.2))
          0 .row_u .row_v width,
       Call.MergeUV (mergeKernel b cpu dst_uv dst_stride_uv (halfwidth width))
          .row_u .row_v
          (.mem (dst_uv + (((H - 1) / 2 : Nat) : Int) * dst_stride_uv)) (halfwidth width),
       Call.ARGBToYRow
          (nvKernels b cpu (invert height src_argb src_stride_argb).2.1
            (invert height src_argb src_stride_argb).2.2 dst_y dst_stride_y width).2
          (.mem ((invert height src_argb src_stride_argb).2.1 +
            ((H : Int) - 1) * (invert height src_argb src_stride_argb).2.2))
          (.mem (dst_y + ((H : Int) - 1) * dst_stride_y)) width,
       Call.ARGBToYRow
          (nvKernels b cpu (invert height src_argb src_stride_argb).2.1
            (invert height src_argb src_stride_argb).2.2 dst_y dst_stride_y width).2
          (.mem ((invert height src_argb src_stride_argb).2.1 +
            ((H : Int) - 1) * (invert height src_argb src_stride_argb).2.2))
          (.mem (dst_y + (H : Int) * dst_stride_y)) width] ∧
    (ARGBToNV21 b cpu src_argb src_stride_argb dst_y dst_stride_y dst_uv dst_stride_uv
        width height).trace.drop (4 * (H / 2)) =
      [Call.ARGBToUVRow
          (nvKernels b cpu (invert height src_argb src_stride_argb).2.1
            (invert height src_argb src_stride_argb).2.2 dst_y dst_stride_y width).1
          (.mem ((invert height src_argb src_stride_argb).2.1 +
            ((H : Int) - 1) * (invert height src_argb src_stride_argb).2.2))
          0 .row_u .row_v width,
       Call.MergeUV (mergeKernel b cpu dst_uv dst_stride_uv (halfwidth width))
          .row_v .row_u
          (.mem (dst_uv + (((H - 1) / 2 : Nat) : Int) * dst_stride_uv)) (halfwidth width),
       Call.ARGBToYRow
          (nvKernels b cpu (invert height src_argb src_stride_argb).2.1
            (invert height src_argb src_stride_argb).2.2 dst_y dst_stride_y width).2
          (.mem ((invert height src_argb src_stride_argb).2.1 +
            ((H : Int) - 1) * (invert height src_argb src_stride_argb).2.2))
          (.mem (dst_y + ((H : Int) - 1) * dst_stride_y)) width,
       Call.ARGBToYRow
          (nvKernels b cpu (invert height src_argb src_stride_argb).2.1
            (invert height src_argb src_stride_argb).2.2 dst_y dst_stride_y width).2
          (.mem ((invert height src_argb src_stride_argb).2.1 +
            ((H : Int) - 1) * (invert height src_argb src_stride_argb).2.2))
          (.mem (dst_y + (H : Int) * dst_stride_y)) width] ∧
    (invert height src_argb src_stride_argb).2.1 +
        ((H : Int) - 1) * (invert height src_argb src_stride_argb).2.2 =
      (if height < 0 then src_argb else src_argb + ((H : Int) - 1) * src_stride_argb) := by
  have h0 : 0 < H := by omega
  have hne : height ≠ 0 := by rcases hh with h | h <;> omega
  have hn := invert_height height src_argb src_stride_argb H h0 h1 hh
  refine ⟨?_, ?_, ?_⟩
  · rw [ARGBToNV12_trace b cpu _ _ _ _ _ _ _ _ hp hw hne, hn]
    exact nvRows_odd b cpu _ _ _ _ _ _ _ _ H hH
  · rw [ARGBToNV21_trace b cpu _ _ _ _ _ _ _ _ hp hw hne, hn]
    exact nvRows_odd b cpu _ _ _ _ _ _ _ _ H hH
  · rcases hh with hh | hh
    · rw [hh, invert_of_pos _ _ _ (by omega), if_neg (by omega)]
    · rw [hh, invert_of_neg _ _ _ (by omega) h1, if_pos (by omega)]
      ring

/-- The invocations of the unpaired row at a concrete call: width 17, height -3
(so `H = 3`) in an SSSE3 build.  The unpaired row is row 0 of the caller's
bottom-up source, at address 4096; its chroma is merged into chroma row 1. -/
theorem odd_height_last_chroma_row_witness :
    (ARGBToNV12 (Build.ssse3 2048) Cpu.all 4096 68 8192 32 12288 32 17 (-3)).trace.drop 4 =
      [.ARGBToUVRow .Any_SSSE3 (.mem 4096) 0 .row_u .row_v 17,
       .MergeUV .C .row_u .row_v (.mem (12288 + 32)) 9,
       .ARGBToYRow .Any_SSSE3 (.mem 4096) (.mem (8192 + 64)) 17,
       .ARGBToYRow .Any_SSSE3 (.mem 4096) (.mem (8192 + 96)) 17] ∧
    (ARGBToNV21 (Build.ssse3 2048) Cpu.all 4096 68 8192 32 12288 32 17 (-3)).trace.drop 4 =
      [.ARGBToUVRow .Any_SSSE3 (.mem 4096) 0 .row_u .row_v 17,
       .MergeUV .C .row_v .row_u (.mem (12288 + 32)) 9,
       .ARGBToYRow .Any_SSSE3 (.mem 4096) (.mem (8192 + 64)) 17,
       .ARGBToYRow .Any_SSSE3 (.mem 4096) (.mem (8192 + 96)) 17] :=
  ⟨(odd_height_last_chroma_row (Build.ssse3 2048) Cpu.all 4096 68 8192 32 12288 32 17 (-3) 3
      (by decide) (by decide) (by decide) (by decide) (by decide)).1,
   (odd_height_last_chroma_row (Build.ssse3 2048) Cpu.all 4096 68 8192 32 12288 32 17 (-3) 3
      (by decide) (by decide) (by decide) (by decide) (by decide)).2.1⟩

/-- The invocations of a row pair: in an accepted `ARGBToNV12` call with
positive height, the `j`-th row pair (`j < height / 2`) is processed by exactly
these four invocations, in this order: the chroma-pair kernel on source row
`2 j` with the source stride as cross-row stride (so on rows `2 j` and
`2 j + 1`), `MergeUV(row_u, row_v)` of `(width + 1) / 2` samples into chroma
row `j`, and the luma kernel on source row `2 j` into luma row `2 j` and on
source row `2 j + 1` into luma row `2 j + 1`.  This is a statement about the
order of the invocations only; what the rows hold when the call returns is
the subject of `nvRows_rows`. -/
theorem ARGBToNV12_row_pair (b : Build) (cpu : Cpu) (src_argb src_stride_argb dst_y
    dst_stride_y dst_uv dst_stride_uv width height : Int) (j : Nat)
    (hp : src_argb ≠ 0 ∧ dst_y ≠ 0 ∧ dst_uv ≠ 0) (hw : 0 < width ∧ width ≤ b.kMaxStride)
    (hmax : width < 2147483647) (hh : 0 < height) (hj : (j : Int) < height / 2) :
    ((ARGBToNV12 b cpu src_argb src_stride_argb dst_y dst_stride_y dst_uv dst_stride_uv
        width height).trace.drop (4 * j)).take 4 =
      [Call.ARGBToUVRow (nvKernels b cpu src_argb src_stride_argb dst_y dst_stride_y width).1
          (.mem (src_argb + (2 * j) * src_stride_argb)) src_stride_argb .row_u .row_v width,
       Call.MergeUV (mergeKernel b cpu dst_uv dst_stride_uv ((width + 1) / 2)) .row_u .row_v
          (.mem (dst_uv + j * dst_stride_uv)) ((width + 1) / 2),
       Call.ARGBToYRow (nvKernels b cpu src_argb src_stride_argb dst_y dst_stride_y width).2
          (.mem (src_argb + (2 * j) * src_stride_argb))
          (.mem (dst_y + (2 * j) * dst_stride_y)) width,
       Call.ARGBToYRow (nvKernels b cpu src_argb src_stride_argb dst_y dst_stride_y width).2
          (.mem (src_argb + (2 * j + 1) * src_stride_argb))
          (.mem (dst_y + (2 * j + 1) * dst_stride_y)) width] := by
  rw [ARGBToNV12_trace b cpu _ _ _ _ _ _ _ _ hp hw (by omega), invert_of_pos _ _ _ hh,
    nvRows_eq, blocks_append_slice 4 _ _ _ j (fun _ => nvCalls_length _ _ _ _ _ _ _) (by omega),
    halfwidth_eq width (by omega) hmax]
  simp only [nvCalls]
  have e1 : src_argb + 2 * (j : Int) * src_stride_argb + src_stride_argb
      = src_argb + (2 * j + 1) * src_stride_argb := by ring
  have e2 : dst_y + 2 * (j : Int) * dst_stride_y + dst_stride_y
      = dst_y + (2 * j + 1) * dst_stride_y := by ring
  rw [e1, e2]

/-- The invocations of a row pair at a concrete call: width 17, height 4,
second row pair (`j = 1`). -/
theorem ARGBToNV12_row_pair_witness :
    ((ARGBToNV12 (Build.ssse3 2048) Cpu.all 4096 68 8192 32 12288 32 17 4).trace.drop 4).take 4 =
      [.ARGBToUVRow .Any_SSSE3 (.mem (4096 + 2 * 68)) 68 .row_u .row_v 17,
       .MergeUV .C .row_u .row_v (.mem (12288 + 32)) 9,
       .ARGBToYRow .Any_SSSE3 (.mem (4096 + 2 * 68)) (.mem (8192 + 2 * 32)) 17,
       .ARGBToYRow .Any_SSSE3 (.mem (4096 + 3 * 68)) (.mem (8192 + 3 * 32)) 17] :=
  ARGBToNV12_row_pair (Build.ssse3 2048) Cpu.all 4096 68 8192 32 12288 32 17 4 1
    (by decide) (by decide) (by decide) (by decide) (by decide)

/-! ### Planar and packed formats -/

/-- One row of the three-plane loop: the slice of the invocation sequence
belonging to row `y`, and the total number of invocations. -/
theorem planarLoop_row (UVRow : Ptr → Ptr → Ptr → Int → Call) (YRow : Ptr → Ptr → Int → Call)
    (src_argb src_stride_argb dst_y dst_stride_y dst_u dst_stride_u dst_v dst_stride_v
      width height : Int) (y : Nat) (hy : (y : Int) < height) :
    ((planarLoop UVRow YRow src_argb src_stride_argb dst_y dst_stride_y dst_u dst_stride_u
        dst_v dst_stride_v width height).drop (2 * y)).take 2 =
      [UVRow (.mem (src_argb + y * src_stride_argb)) (.mem (dst_u + y * dst_stride_u))
          (.mem (dst_v + y * dst_stride_v)) width,
       YRow (.mem (src_argb + y * src_stride_argb)) (.mem (dst_y + y * dst_stride_y)) width] ∧
    (planarLoop UVRow YRow src_argb src_stride_argb dst_y dst_stride_y dst_u dst_stride_u
        dst_v dst_stride_v width height).length = 2 * height.toNat := by
  rw [planarLoop_eq]
  exact ⟨blocks_slice 2 _ _ y (fun _ => rfl) (by omega), blocks_length 2 _ _ (fun _ => rfl)⟩

/-- C7: in accepted `ARGBToI444`, `ARGBToI422` and `ARGBToI411` calls with
positive height, row `y < height` is processed by exactly two invocations: the
chroma kernel of the format (`ARGBToUV444Row`, `ARGBToUV422Row`,
`ARGBToUV411Row`) on source row `y` into row `y` of the U and V planes, then
the luma kernel on source row `y` into luma row `y`; there are `2 * height`
invocations in all, so each row has its own pair and reads one source row. -/
theorem planar_single_pass (b : Build) (cpu : Cpu) (src_argb src_stride_argb dst_y
    dst_stride_y dst_u dst_stride_u dst_v dst_stride_v width height : Int) (y : Nat)
    (hp : src_argb ≠ 0 ∧ dst_y ≠ 0 ∧ dst_u ≠ 0 ∧ dst_v ≠ 0) (hw : 0 < width)
    (hh : 0 < height) (hy : (y : Int) < height) :
    (((ARGBToI444 b cpu src_argb src_stride_argb dst_y dst_stride_y dst_u dst_stride_u
          dst_v dst_stride_v width height).trace.drop (2 * y)).take 2 =
        [Call.ARGBToUV444Row
            (ARGBToI444.kernels b cpu src_argb src_stride_argb dst_y dst_stride_y width).2
            (.mem (src_argb + y * src_stride_argb)) (.mem (dst_u + y * dst_stride_u))
            (.mem (dst_v + y * dst_stride_v)) width,
         Call.ARGBToYRow
            (ARGBToI444.kernels b cpu src_argb src_stride_argb dst_y dst_stride_y width).1
            (.mem (src_argb + y * src_stride_argb)) (.mem (dst_y + y * dst_stride_y)) width] ∧
      (ARGBToI444 b cpu src_argb src_stride_argb dst_y dst_stride_y dst_u dst_stride_u
          dst_v dst_stride_v width height).trace.length = 2 * height.toNat) ∧
    (((ARGBToI422 b cpu src_argb src_stride_argb dst_y dst_stride_y dst_u dst_stride_u
          dst_v dst_stride_v width height).trace.drop (2 * y)).take 2 =
        [Call.ARGBToUV422Row
            (ARGBToI422.kernels b cpu src_argb src_stride_argb dst_y dst_stride_y width).2
            (.mem (src_argb + y * src_stride_argb)) (.mem (dst_u + y * dst_stride_u))
            (.mem (dst_v + y * dst_stride_v)) width,
         Call.ARGBToYRow
            (ARGBToI422.kernels b cpu src_argb src_stride_argb dst_y dst_stride_y width).1
            (.mem (src_argb + y * src_stride_argb)) (.mem (dst_y + y * dst_stride_y)) width] ∧
      (ARGBToI422 b cpu src_argb src_stride_argb dst_y dst_stride_y dst_u dst_stride_u
          dst_v dst_stride_v width height).trace.length = 2 * height.toNat) ∧
    (((ARGBToI411 b cpu src_argb src_stride_argb dst_y dst_stride_y dst_u dst_stride_u
          dst_v dst_stride_v width height).trace.drop (2 * y)).take 2 =
        [Call.ARGBToUV411Row
            (ARGBToI411.kernels b cpu src_argb src_stride_argb dst_y dst_stride_y width).2
            (.mem (src_argb + y * src_stride_argb)) (.mem (dst_u + y * dst_stride_u))
            (.mem (dst_v + y * dst_stride_v)) width,
         Call.ARGBToYRow
            (ARGBToI411.kernels b cpu src_argb src_stride_argb dst_y dst_stride_y width).1
            (.mem (src_argb + y * src_stride_argb)) (.mem (dst_y + y * dst_stride_y)) width] ∧
      (ARGBToI411 b cpu src_argb src_stride_argb dst_y dst_stride_y dst_u dst_stride_u
          dst_v dst_stride_v width height).trace.length = 2 * height.toNat) := by
  refine ⟨?_, ?_, ?_⟩
  · simp only [ARGBToI444]
    rw [if_neg (by omega)]
    simp only [invert_of_pos _ _ _ hh]
    exact planarLoop_row _ _ _ _ _ _ _ _ _ _ _ _ y hy
  · simp only [ARGBToI422]
    rw [if_neg (by omega)]
    simp only [invert_of_pos _ _ _ hh]
    exact planarLoop_row _ _ _ _ _ _ _ _ _ _ _ _ y hy
  · simp only [ARGBToI411]
    rw [if_neg (by omega)]
    simp only [invert_of_pos _ _ _ hh]
    exact planarLoop_row _ _ _ _ _ _ _ _ _ _ _ _ y hy

/-- C7, at a concrete call of `ARGBToI422`: width 16, height 3, last row, with
every pointer and stride 16-byte aligned. -/
theorem planar_single_pass_witness :
    ((ARGBToI422 (Build.ssse3 2048) Cpu.all 4096 64 8192 16 12288 16 16384 16 16 3).trace.drop
        4).take 2 =
      [.ARGBToUV422Row .SSSE3 (.mem (4096 + 2 * 64)) (.mem (12288 + 2 * 16))
          (.mem (16384 + 2 * 16)) 16,
       .ARGBToYRow .SSSE3 (.mem (4096 + 2 * 64)) (.mem (8192 + 2 * 16)) 16] :=
  (planar_single_pass (Build.ssse3 2048) Cpu.all 4096 64 8192 16 12288 16 16384 16 16 3 2
    (by decide) (by decide) (by decide) (by decide)).2.1.1

/-- One row of the packed 4:2:2 loop, and the total number of invocations. -/
theorem packedRows_row (b : Build) (cpu : Cpu) (sse2 neon : Bool)
    (Repack : Variant → Ptr → Ptr → Ptr → Ptr → Int → Call)
    (src_argb src_stride_argb dst dst_stride width height : Int) (y : Nat)
    (hy : (y : Int) < height) :
    ((packedRows b cpu sse2 neon Repack src_argb src_stride_argb dst dst_stride width
        height).drop (3 * y)).take 3 =
      [Call.ARGBToUVRow (packedKernels b cpu src_argb src_stride_argb width).1
          (.mem (src_argb + y * src_stride_argb)) 0 .row_u .row_v width,
       Call.ARGBToYRow (packedKernels b cpu src_argb src_stride_argb width).2
          (.mem (src_argb + y * src_stride_argb)) .row_y width,
       Repack (repackKernel sse2 neon cpu dst dst_stride width) .row_y .row_u .row_v
          (.mem (dst + y * dst_stride)) width] ∧
    (packedRows b cpu sse2 neon Repack src_argb src_stride_argb dst dst_stride width
        height).length = 3 * height.toNat := by
  simp only [packedRows]
  rw [packedLoop_eq]
  exact ⟨blocks_slice 3 _ _ y (fun _ => rfl) (by omega), blocks_length 3 _ _ (fun _ => rfl)⟩

/-- C8: in accepted `ARGBToYUY2` and `ARGBToUYVY` calls with positive height,
row `y < height` is processed by exactly three invocations: the chroma-pair
kernel on source row `y` with cross-row stride `0` into the scratch rows
`row_u`, `row_v`, the luma kernel on source row `y` into the scratch row
`row_y`, and the repack kernel (`I422ToYUY2Row`, `I422ToUYVYRow`) of the three
scratch rows into destination row `y`, all at the given width; there are
`3 * height` invocations in all. -/
theorem packed_single_pass (b : Build) (cpu : Cpu) (src_argb src_stride_argb dst
    dst_stride width height : Int) (y : Nat)
    (hp : src_argb ≠ 0 ∧ dst ≠ 0) (hw : 0 < width ∧ width ≤ b.kMaxStride)
    (hh : 0 < height) (hy : (y : Int) < height) :
    (((ARGBToYUY2 b cpu src_argb src_stride_argb dst dst_stride width height).trace.drop
          (3 * y)).take 3 =
        [Call.ARGBToUVRow (packedKernels b cpu src_argb src_stride_argb width).1
            (.mem (src_argb + y * src_stride_argb)) 0 .row_u .row_v width,
         Call.ARGBToYRow (packedKernels b cpu src_argb src_stride_argb width).2
            (.mem (src_argb + y * src_stride_argb)) .row_y width,
         Call.I422ToYUY2Row
            (repackKernel b.HAS_I422TOYUY2ROW_SSE2 b.HAS_I422TOYUY2ROW_NEON cpu dst dst_stride
              width)
            .row_y .row_u .row_v (.mem (dst + y * dst_stride)) width] ∧
      (ARGBToYUY2 b cpu src_argb src_stride_argb dst dst_stride width height).trace.length =
        3 * height.toNat) ∧
    (((ARGBToUYVY b cpu src_argb src_stride_argb dst dst_stride width height).trace.drop
          (3 * y)).take 3 =
        [Call.ARGBToUVRow (packedKernels b cpu src_argb src_stride_argb width).1
            (.mem (src_argb + y * src_stride_argb)) 0 .row_u .row_v width,
         Call.ARGBToYRow (packedKernels b cpu src_argb src_stride_argb width).2
            (.mem (src_argb + y * src_stride_argb)) .row_y width,
         Call.I422ToUYVYRow
            (repackKernel b.HAS_I422TOUYVYROW_SSE2 b.HAS_I422TOUYVYROW_NEON cpu dst dst_stride
              width)
            .row_y .row_u .row_v (.mem (dst + y * dst_stride)) width] ∧
      (ARGBToUYVY b cpu src_argb src_stride_argb dst dst_stride width height).trace.length =
        3 * height.toNat) := by
  refine ⟨?_, ?_⟩
  · simp only [ARGBToYUY2]
    rw [if_neg (by omega)]
    simp only [invert_of_pos _ _ _ hh]
    exact packedRows_row b cpu _ _ _ _ _ _ _ _ _ y hy
  · simp only [ARGBToUYVY]
    rw [if_neg (by omega)]
    simp only [invert_of_pos _ _ _ hh]
    exact packedRows_row b cpu _ _ _ _ _ _ _ _ _ y hy

/-- C8, at a concrete call of `ARGBToUYVY`: width 17, height 2, second row. -/
theorem packed_single_pass_witness :
    ((ARGBToUYVY (Build.ssse3 2048) Cpu.all 4096 68 8192 48 17 2).trace.drop 3).take 3 =
      [.ARGBToUVRow .Any_SSSE3 (.mem (4096 + 68)) 0 .row_u .row_v 17,
       .ARGBToYRow .Any_SSSE3 (.mem (4096 + 68)) .row_y 17,
       .I422ToUYVYRow .Any_SSE2 .row_y .row_u .row_v (.mem (8192 + 48)) 17] :=
  (packed_single_pass (Build.ssse3 2048) Cpu.all 4096 68 8192 48 17 2 1
    (by decide) (by decide) (by decide) (by decide)).2.1

/-! ### `ARGBToNV21` against `ARGBToNV12` -/

theorem exec_map_reference (K : Kernels) (hK : VariantsAgree K) (l : List Call) :
    ∀ m : Memory, exec K (l.map Call.reference) m = exec K l m := by
  induction l with
  | nil => intro m; rfl
  | cons c cs ih =>
    intro m
    simp only [List.map_cons, exec]
    rw [ih, ← hK c]

theorem ladderSSSE3_none (src_argb src_stride_argb dst_y dst_stride_y width : Int) :
    ladderSSSE3 Cpu.none src_argb src_stride_argb dst_y dst_stride_y width .C = .C := by
  simp [ladderSSSE3, TestCpuFlag, Cpu.none]

theorem ARGBToI444_kernels_none (b : Build)
    (src_argb src_stride_argb dst_y dst_stride_y width : Int) :
    ARGBToI444.kernels b Cpu.none src_argb src_stride_argb dst_y dst_stride_y width =
      (.C, .C) := by
  simp [ARGBToI444.kernels, ladderSSSE3_none, TestCpuFlag, Cpu.none]

theorem ARGBToI422_kernels_none (b : Build)
    (src_argb src_stride_argb dst_y dst_stride_y width : Int) :
    ARGBToI422.kernels b Cpu.none src_argb src_stride_argb dst_y dst_stride_y width =
      (.C, .C) := by
  simp [ARGBToI422.kernels, ladderSSSE3_none, TestCpuFlag, Cpu.none]

theorem ARGBToI411_kernels_none (b : Build)
    (src_argb src_stride_argb dst_y dst_stride_y width : Int) :
    ARGBToI411.kernels b Cpu.none src_argb src_stride_argb dst_y dst_stride_y width =
      (.C, .C) := by
  simp [ARGBToI411.kernels, ladderSSSE3_none, TestCpuFlag, Cpu.none]

theorem ARGBToI400_kernels_none (b : Build)
    (src_argb src_stride_argb dst_y dst_stride_y width : Int) :
    ARGBToI400.kernels b Cpu.none src_argb src_stride_argb dst_y dst_stride_y width = .C := by
  simp [ARGBToI400.kernels, ladderSSSE3_none, TestCpuFlag, Cpu.none]

theorem nvKernels_none (b : Build)
    (src_argb src_stride_argb dst_y dst_stride_y width : Int) :
    nvKernels b Cpu.none src_argb src_stride_argb dst_y dst_stride_y width = (.C, .C) := by
  simp [nvKernels, ladderUVYNEON, TestCpuFlag, Cpu.none]

theorem mergeKernel_none (b : Build) (dst_uv dst_stride_uv halfwidth : Int) :
    mergeKernel b Cpu.none dst_uv dst_stride_uv halfwidth = .C := by
  simp [mergeKernel, mergeBlock, TestCpuFlag, Cpu.none]

theorem packedKernels_none (b : Build) (src_argb src_stride_argb width : Int) :
    packedKernels b Cpu.none src_argb src_stride_argb width = (.C, .C) := by
  simp [packedKernels, ladderUVYNEON, TestCpuFlag, Cpu.none]

theorem repackKernel_none (sse2 neon : Bool) (dst dst_stride width : Int) :
    repackKernel sse2 neon Cpu.none dst dst_stride width = .C := by
  simp [repackKernel, TestCpuFlag, Cpu.none]

theorem ARGBToRGBA_kernels_none (b : Build)
    (src_argb src_stride_argb dst_rgba dst_stride_rgba width : Int) :
    ARGBToRGBA.kernels b Cpu.none src_argb src_stride_argb dst_rgba dst_stride_rgba width =
      .C := by
  simp [ARGBToRGBA.kernels, TestCpuFlag, Cpu.none]

theorem rgb24Kernel_none (ssse3 neon : Bool)
    (src_argb src_stride_argb dst dst_stride width : Int) :
    rgb24Kernel ssse3 neon Cpu.none src_argb src_stride_argb dst dst_stride width = .C := by
  simp [rgb24Kernel, TestCpuFlag, Cpu.none]

theorem rgb16Kernel_none (sse2 neon : Bool) (src_argb src_stride_argb width : Int) :
    rgb16Kernel sse2 neon Cpu.none src_argb src_stride_argb width = .C := by
  simp [rgb16Kernel, TestCpuFlag, Cpu.none]

theorem rowLoop_map_reference (Row : Ptr → Ptr → Int → Call)
    (src_argb src_stride_argb dst dst_stride width height : Int) :
    (rowLoop Row src_argb src_stride_argb dst dst_stride width height).map Call.reference =
      rowLoop (fun s d n => (Row s d n).reference) src_argb src_stride_argb dst dst_stride
        width height := by
  rw [rowLoop_eq, rowLoop_eq, blocks_map]
  rfl

theorem planarLoop_map_reference (UVRow : Ptr → Ptr → Ptr → Int → Call)
    (YRow : Ptr → Ptr → Int → Call)
    (src_argb src_stride_argb dst_y dst_stride_y dst_u dst_stride_u dst_v dst_stride_v
      width height : Int) :
    (planarLoop UVRow YRow src_argb src_stride_argb dst_y dst_stride_y dst_u dst_stride_u
        dst_v dst_stride_v width height).map Call.reference =
      planarLoop (fun s u v n => (UVRow s u v n).reference) (fun s d n => (YRow s d n).reference)
        src_argb src_stride_argb dst_y dst_stride_y dst_u dst_stride_u dst_v dst_stride_v
        width height := by
  rw [planarLoop_eq, planarLoop_eq, blocks_map]
  rfl

theorem reference_ARGBToYRow (f : Variant) (s d : Ptr) (n : Int) :
    (Call.ARGBToYRow f s d n).reference = Call.ARGBToYRow .C s d n := rfl

theorem reference_ARGBToUVRow (f : Variant) (s : Ptr) (st : Int) (u v : Ptr) (n : Int) :
    (Call.ARGBToUVRow f s st u v n).reference = Call.ARGBToUVRow .C s st u v n := rfl

theorem packedRows_map_reference (b : Build) (cpu : Cpu) (sse2 neon : Bool)
    (Repack : Variant → Ptr → Ptr → Ptr → Ptr → Int → Call)
    (hR : ∀ f y u v d n, (Repack f y u v d n).reference = Repack .C y u v d n)
    (src_argb src_stride_argb dst dst_stride width height : Int) :
    (packedRows b cpu sse2 neon Repack src_argb src_stride_argb dst dst_stride width
        height).map Call.reference =
      packedRows b Cpu.none sse2 neon Repack src_argb src_stride_argb dst dst_stride width
        height := by
  simp only [packedRows, packedLoop_eq, blocks_map, packedKernels_none, repackKernel_none,
    List.map_cons, List.map_nil, reference_ARGBToYRow, reference_ARGBToUVRow, hR]

theorem nvRows_map_reference (b : Build) (cpu : Cpu) (Merge : Variant → Ptr → Int → Call)
    (hM : ∀ f d n, (Merge f d n).reference = Merge .C d n)
    (src_argb src_stride_argb dst_y dst_stride_y dst_uv dst_stride_uv width height : Int) :
    (nvRows b cpu Merge src_argb src_stride_argb dst_y dst_stride_y dst_uv dst_stride_uv
        width height).map Call.reference =
      nvRows b Cpu.none Merge src_argb src_stride_argb dst_y dst_stride_y dst_uv dst_stride_uv
        width height := by
  simp only [nvRows_eq, List.map_append, blocks_map, nvKernels_none, mergeKernel_none]
  congr 1
  · simp only [nvCalls, List.map_cons, List.map_nil, reference_ARGBToYRow,
      reference_ARGBToUVRow, hM]
  · split
    · simp only [nvCalls, List.map_cons, List.map_nil, reference_ARGBToYRow,
        reference_ARGBToUVRow, hM]
    · rfl

/-- With every capability query answering false, an entry point returns the
same status and performs the same invocations, each bound to the reference
implementation. -/
theorem run_none (b : Build) (cpu : Cpu) (e : EntryPoint) (a : Args) :
    (e.run b Cpu.none a).status = (e.run b cpu a).status ∧
      (e.run b Cpu.none a).trace = (e.run b cpu a).trace.map Call.reference := by
  cases e <;>
    simp only [EntryPoint.run, ARGBToI444, ARGBToI422, ARGBToI411, ARGBToNV12, ARGBToNV21,
      ARGBToYUY2, ARGBToUYVY, ARGBToI400, ARGBToRGBA, ARGBToRGB24, ARGBToRAW, ARGBToRGB565,
      ARGBToARGB1555, ARGBToARGB4444] <;>
    split <;>
    simp only [List.map_nil, true_and, and_self, rowLoop_map_reference,
      planarLoop_map_reference, ARGBToI444_kernels_none, ARGBToI422_kernels_none,
      ARGBToI411_kernels_none, ARGBToI400_kernels_none, ARGBToRGBA_kernels_none,
      rgb24Kernel_none, rgb16Kernel_none, Call.reference] <;>
    first
      | rfl
      | exact (nvRows_map_reference b cpu _ (fun _ _ _ => rfl) _ _ _ _ _ _ _ _).symm
      | exact (packedRows_map_reference b cpu _ _ _ (fun _ _ _ _ _ _ => rfl) _ _ _ _ _ _).symm

/-- C10: if all variants of each logical row kernel compute the same function,
then for every entry point, every build, every capability set and every
argument record (so every pointer and stride alignment) the status and the
memory after the call are those of the same call made with every capability
query answering false. -/
theorem tier_equivalence (b : Build) (cpu : Cpu) (e : EntryPoint) (a : Args) (K : Kernels)
    (hK : VariantsAgree K) (m : Memory) :
    (e.run b cpu a).status = (e.run b Cpu.none a).status ∧
      exec K (e.run b cpu a).trace m = exec K (e.run b Cpu.none a).trace m := by
  have h := run_none b cpu e a
  refine ⟨h.1.symm, ?_⟩
  rw [h.2, exec_map_reference K hK]

/-- C10, at a concrete call: `ARGBToNV12` on a 17x3 image in an SSSE3 build
with every capability present, against the forced-reference run. -/
theorem tier_equivalence_witness :
    (EntryPoint.run (Build.ssse3 2048) Cpu.all .ARGBToNV12
        { src_argb := 4096, src_stride_argb := 68, dst := 8192, dst_stride := 32,
          dst_u := 12288, dst_stride_u := 32, dst_v := 0, dst_stride_v := 0,
          width := 17, height := 3 }).status =
      (EntryPoint.run (Build.ssse3 2048) Cpu.none .ARGBToNV12
        { src_argb := 4096, src_stride_argb := 68, dst := 8192, dst_stride := 32,
          dst_u := 12288, dst_stride_u := 32, dst_v := 0, dst_stride_v := 0,
          width := 17, height := 3 }).status ∧
    exec Kernels.sample (EntryPoint.run (Build.ssse3 2048) Cpu.all .ARGBToNV12
        { src_argb := 4096, src_stride_argb := 68, dst := 8192, dst_stride := 32,
          dst_u := 12288, dst_stride_u := 32, dst_v := 0, dst_stride_v := 0,
          width := 17, height := 3 }).trace Memory.zero =
      exec Kernels.sample (EntryPoint.run (Build.ssse3 2048) Cpu.none .ARGBToNV12
        { src_argb := 4096, src_stride_argb := 68, dst := 8192, dst_stride := 32,
          dst_u := 12288, dst_stride_u := 32, dst_v := 0, dst_stride_v := 0,
          width := 17, height := 3 }).trace Memory.zero :=
  tier_equivalence (Build.ssse3 2048) Cpu.all .ARGBToNV12
    { src_argb := 4096, src_stride_argb := 68, dst := 8192, dst_stride := 32,
      dst_u := 12288, dst_stride_u := 32, dst_v := 0, dst_stride_v := 0,
      width := 17, height := 3 } Kernels.sample (fun c => by cases c <;> rfl) Memory.zero


/-! ### Destination flip of the packed formats -/

/-- C14: for every entry point, build, capability set and argument record: if
all pointer parameters are non-null, `width > 0`, `height != 0` and, for
`ARGBToNV12`, `ARGBToNV21`, `ARGBToYUY2` and `ARGBToUYVY` only,
`width <= kMaxStride`, the call returns `0`; the status is always `0` or `-1`;
and `ARGBToI400`, `ARGBToRGBA`, `ARGBToRGB24`, `ARGBToRAW`, `ARGBToRGB565`,
`ARGBToARGB1555` and `ARGBToARGB4444` return `0` also for widths above
`kMaxStride`. -/
theorem success_when_preconditions_pass (b : Build) (cpu : Cpu) (e : EntryPoint) (a : Args) :
    ((0 : Int) ∉ e.pointers a → 0 < a.width → a.height ≠ 0 →
        (e.scratch = true → a.width ≤ b.kMaxStride) → (e.run b cpu a).status = 0) ∧
      ((e.run b cpu a).status = 0 ∨ (e.run b cpu a).status = -1) ∧
      (e ∈ [EntryPoint.ARGBToI400, .ARGBToRGBA, .ARGBToRGB24, .ARGBToRAW, .ARGBToRGB565,
          .ARGBToARGB1555, .ARGBToARGB4444] →
        (0 : Int) ∉ e.pointers a → 0 < a.width → a.height ≠ 0 → b.kMaxStride < a.width →
        (e.run b cpu a).status = 0) := by
  refine ⟨fun hp hw hh hk => (status_eq_zero_iff b cpu e a).mpr ⟨hp, hw, hh, hk⟩, ?_,
    fun he hp hw hh _ => (status_eq_zero_iff b cpu e a).mpr ⟨hp, hw, hh, fun hs => ?_⟩⟩
  · rcases run_cases b cpu e a with h | h
    · exact Or.inr h.1
    · exact Or.inl h
  · exfalso
    revert hs
    simp only [List.mem_cons, List.mem_singleton, List.not_mem_nil, or_false] at he
    rcases he with h | h | h | h | h | h | h <;> subst h <;> simp [EntryPoint.scratch]

/-- C14, at concrete calls: `ARGBToNV21` at width `kMaxStride`, and
`ARGBToRGB565` at a width above `kMaxStride`, with unaligned pointers. -/
theorem success_when_preconditions_pass_witness :
    (EntryPoint.run (Build.ssse3 2048) Cpu.all .ARGBToNV21
      { src_argb := 4097, src_stride_argb := 8192, dst := 65537, dst_stride := 2048,
        dst_u := 131073, dst_stride_u := 2048, dst_v := 0, dst_stride_v := 0,
        width := 2048, height := -2 }).status = 0 ∧
    (EntryPoint.run (Build.ssse3 2048) Cpu.all .ARGBToRGB565
      { src_argb := 4097, src_stride_argb := 16384, dst := 65537, dst_stride := 8192,
        dst_u := 0, dst_stride_u := 0, dst_v := 0, dst_stride_v := 0,
        width := 4000, height := 2 }).status = 0 :=
  ⟨(success_when_preconditions_pass (Build.ssse3 2048) Cpu.all .ARGBToNV21
      { src_argb := 4097, src_stride_argb := 8192, dst := 65537, dst_stride := 2048,
        dst_u := 131073, dst_stride_u := 2048, dst_v := 0, dst_stride_v := 0,
        width := 2048, height := -2 }).1 (by decide) (by decide) (by decide)
      (fun _ => by decide),
   (success_when_preconditions_pass (Build.ssse3 2048) Cpu.all .ARGBToRGB565
      { src_argb := 4097, src_stride_argb := 16384, dst := 65537, dst_stride := 8192,
        dst_u := 0, dst_stride_u := 0, dst_v := 0, dst_stride_v := 0,
        width := 4000, height := 2 }).2.2 (by decide) (by decide) (by decide) (by decide)
      (by decide)⟩

/-- C15 (counterexample): in a build with `kMaxStride = 2048`, `ARGBToI444`,
`ARGBToI422` and `ARGBToI411` called with width 2049 return `0`, not `-1`. -/
theorem planar_accepts_width_above_kMaxStride :
    (ARGBToI444 (Build.ssse3 2048) Cpu.all 4096 8196 65536 2049 131072 2049 196608 2049
        2049 1).status = 0 ∧
    (ARGBToI422 (Build.ssse3 2048) Cpu.all 4096 8196 65536 2049 131072 1025 196608 1025
        2049 1).status = 0 ∧
    (ARGBToI411 (Build.ssse3 2048) Cpu.all 4096 8196 65536 2049 131072 513 196608 513
        2049 1).status = 0 := by
  decide

/-- C15 (amended): the entry points that use scratch rows, `ARGBToNV12`,
`ARGBToNV21`, `ARGBToYUY2` and `ARGBToUYVY`, return `-1` for every width above
`kMaxStride` and invoke no kernel; `ARGBToI444`, `ARGBToI422` and `ARGBToI411`,
which write their chroma straight to the destination planes, do not test
`kMaxStride`: with non-null pointers, positive width and non-zero height they
return `0` for every width, also above `kMaxStride`. -/
theorem width_bound_only_with_scratch_rows (b : Build) (cpu : Cpu) (e : EntryPoint)
    (a : Args) (hk : b.kMaxStride < a.width) :
    (e ∈ [EntryPoint.ARGBToNV12, .ARGBToNV21, .ARGBToYUY2, .ARGBToUYVY] →
        (e.run b cpu a).status = -1 ∧ (e.run b cpu a).trace = []) ∧
      (e ∈ [EntryPoint.ARGBToI444, .ARGBToI422, .ARGBToI411] →
        (0 : Int) ∉ e.pointers a → 0 < a.width → a.height ≠ 0 →
        (e.run b cpu a).status = 0) := by
  constructor
  · intro he
    have hs : e.scratch = true := by
      simp only [List.mem_cons, List.mem_singleton, List.not_mem_nil, or_false] at he
      rcases he with h | h | h | h <;> subst h <;> rfl
    rcases run_cases b cpu e a with h | h
    · exact h
    · have := ((status_eq_zero_iff b cpu e a).mp h).2.2.2 hs
      omega
  · intro he hp hw hh
    have hs : e.scratch = false := by
      simp only [List.mem_cons, List.mem_singleton, List.not_mem_nil, or_false] at he
      rcases he with h | h | h <;> subst h <;> rfl
    exact (status_eq_zero_iff b cpu e a).mpr ⟨hp, hw, hh, fun h => by rw [hs] at h; cases h⟩

/-- C15 (amended), at concrete calls with `kMaxStride = 2048` and width 2049:
`ARGBToNV12` rejects, `ARGBToI422` accepts. -/
theorem width_bound_only_with_scratch_rows_witness :
    (EntryPoint.run (Build.ssse3 2048) Cpu.all .ARGBToNV12
      { src_argb := 4096, src_stride_argb := 8196, dst := 65536, dst_stride := 2049,
        dst_u := 131072, dst_stride_u := 2050, dst_v := 0, dst_stride_v := 0,
        width := 2049, height := 2 }).status = -1 ∧
    (EntryPoint.run (Build.ssse3 2048) Cpu.all .ARGBToI422
      { src_argb := 4096, src_stride_argb := 8196, dst := 65536, dst_stride := 2049,
        dst_u := 131072, dst_stride_u := 1025, dst_v := 196608, dst_stride_v := 1025,
        width := 2049, height := 2 }).status = 0 :=
  ⟨((width_bound_only_with_scratch_rows (Build.ssse3 2048) Cpu.all .ARGBToNV12
      { src_argb := 4096, src_stride_argb := 8196, dst := 65536, dst_stride := 2049,
        dst_u := 131072, dst_stride_u := 2050, dst_v := 0, dst_stride_v := 0,
        width := 2049, height := 2 } (by decide)).1 (by decide)).1,
   (width_bound_only_with_scratch_rows (Build.ssse3 2048) Cpu.all .ARGBToI422
      { src_argb := 4096, src_stride_argb := 8196, dst := 65536, dst_stride := 2049,
        dst_u := 131072, dst_stride_u := 1025, dst_v := 196608, dst_stride_v := 1025,
        width := 2049, height := 2 } (by decide)).2 (by decide) (by decide) (by decide)
      (by decide)⟩


/-! ### Function pointers and invocations -/

theorem mem_blocks (c : Call) :
    ∀ (n : Nat) (f : Nat → List Call), c ∈ blocks f n ↔ ∃ j, j < n ∧ c ∈ f j := by
  intro n
  induction n with
  | zero => intro f; simp [blocks]
  | succ n ih =>
    intro f
    simp only [blocks, List.mem_append, ih]
    constructor
    · rintro (h | ⟨j, hj, h⟩)
      · exact ⟨0, by omega, h⟩
      · exact ⟨j + 1, by omega, h⟩
    · rintro ⟨j, hj, h⟩
      cases j with
      | zero => exact Or.inl h
      | succ j => exact Or.inr ⟨j, by omega, h⟩

theorem mem_rowLoop (Row : Ptr → Ptr → Int → Call)
    (src_argb src_stride_argb dst dst_stride width height : Int) (c : Call)
    (hc : c ∈ rowLoop Row src_argb src_stride_argb dst dst_stride width height) :
    ∃ s d, c = Row s d width := by
  rw [rowLoop_eq, mem_blocks] at hc
  obtain ⟨j, _, h⟩ := hc
  simp only [List.mem_singleton] at h
  exact ⟨_, _, h⟩

theorem mem_planarLoop (UVRow : Ptr → Ptr → Ptr → Int → Call) (YRow : Ptr → Ptr → Int → Call)
    (src_argb src_stride_argb dst_y dst_stride_y dst_u dst_stride_u dst_v dst_stride_v
      width height : Int) (c : Call)
    (hc : c ∈ planarLoop UVRow YRow src_argb src_stride_argb dst_y dst_stride_y dst_u
      dst_stride_u dst_v dst_stride_v width height) :
    (∃ s u v, c = UVRow s u v width) ∨ (∃ s d, c = YRow s d width) := by
  rw [planarLoop_eq, mem_blocks] at hc
  obtain ⟨j, _, h⟩ := hc
  simp only [List.mem_cons, List.mem_singleton, List.not_mem_nil, or_false] at h
  rcases h with h | h
  · exact Or.inl ⟨_, _, _, h⟩
  · exact Or.inr ⟨_, _, h⟩

theorem mem_packedRows (b : Build) (cpu : Cpu) (sse2 neon : Bool)
    (Repack : Variant → Ptr → Ptr → Ptr → Ptr → Int → Call)
    (src_argb src_stride_argb dst dst_stride width height : Int) (c : Call)
    (hc : c ∈ packedRows b cpu sse2 neon Repack src_argb src_stride_argb dst dst_stride
      width height) :
    (∃ s, c = Call.ARGBToUVRow (packedKernels b cpu src_argb src_stride_argb width).1 s 0
        .row_u .row_v width) ∨
      (∃ s, c = Call.ARGBToYRow (packedKernels b cpu src_argb src_stride_argb width).2 s
        .row_y width) ∨
      (∃ d, c = Repack (repackKernel sse2 neon cpu dst dst_stride width) .row_y .row_u .row_v
        d width) := by
  simp only [packedRows] at hc
  rw [packedLoop_eq, mem_blocks] at hc
  obtain ⟨j, _, h⟩ := hc
  simp only [List.mem_cons, List.mem_singleton, List.not_mem_nil, or_false] at h
  rcases h with h | h | h
  · exact Or.inl ⟨_, h⟩
  · exact Or.inr (Or.inl ⟨_, h⟩)
  · exact Or.inr (Or.inr ⟨_, h⟩)

theorem mem_nvCalls (UVRow YRow : Variant) (Merge : Ptr → Call)
    (cross dst_stride_y width : Int) (s : Regs2) (c : Call)
    (hc : c ∈ nvCalls UVRow YRow Merge cross dst_stride_y width s) :
    (∃ p, c = Call.ARGBToUVRow UVRow p cross .row_u .row_v width) ∨
      (∃ d, c = Merge d) ∨ (∃ p d, c = Call.ARGBToYRow YRow p d width) := by
  simp only [nvCalls, List.mem_cons, List.mem_singleton, List.not_mem_nil, or_false] at hc
  rcases hc with h | h | h | h
  · exact Or.inl ⟨_, h⟩
  · exact Or.inr (Or.inl ⟨_, h⟩)
  · exact Or.inr (Or.inr ⟨_, _, h⟩)
  · exact Or.inr (Or.inr ⟨_, _, h⟩)

theorem mem_nvRows (b : Build) (cpu : Cpu) (Merge : Variant → Ptr → Int → Call)
    (src_argb src_stride_argb dst_y dst_stride_y dst_uv dst_stride_uv width height : Int)
    (c : Call)
    (hc : c ∈ nvRows b cpu Merge src_argb src_stride_argb dst_y dst_stride_y dst_uv
      dst_stride_uv width height) :
    (∃ p st, c = Call.ARGBToUVRow
        (nvKernels b cpu src_argb src_stride_argb dst_y dst_stride_y width).1 p st
        .row_u .row_v width) ∨
      (∃ d, c = Merge (mergeKernel b cpu dst_uv dst_stride_uv (halfwidth width)) d
        (halfwidth width)) ∨
      (∃ p d, c = Call.ARGBToYRow
        (nvKernels b cpu src_argb src_stride_argb dst_y dst_stride_y width).2 p d width) := by
  rw [nvRows_eq, List.mem_append, mem_blocks] at hc
  have key : ∀ (cross : Int) (s : Regs2),
      c ∈ nvCalls (nvKernels b cpu src_argb src_stride_argb dst_y dst_stride_y width).1
        (nvKernels b cpu src_argb src_stride_argb dst_y dst_stride_y width).2
        (fun d => Merge (mergeKernel b cpu dst_uv dst_stride_uv (halfwidth width)) d
          (halfwidth width)) cross dst_stride_y width s →
      (∃ p st, c = Call.ARGBToUVRow
          (nvKernels b cpu src_argb src_stride_argb dst_y dst_stride_y width).1 p st
          .row_u .row_v width) ∨
        (∃ d, c = Merge (mergeKernel b cpu dst_uv dst_stride_uv (halfwidth width)) d
          (halfwidth width)) ∨
        (∃ p d, c = Call.ARGBToYRow
          (nvKernels b cpu src_argb src_stride_argb dst_y dst_stride_y width).2 p d width) := by
    intro cross s h
    rcases mem_nvCalls _ _ _ _ _ _ _ _ h with ⟨p, h⟩ | ⟨d, h⟩ | ⟨p, d, h⟩
    · exact Or.inl ⟨p, cross, h⟩
    · exact Or.inr (Or.inl ⟨d, h⟩)
    · exact Or.inr (Or.inr ⟨p, d, h⟩)
  rcases hc with ⟨j, _, h⟩ | h
  · exact key _ _ h
  · split at h
    · exact key _ _ h
    · simp at h

/-- Every invocation of a call is made through one of its resolved function
pointers: its operation, variant and pixel count are listed by `resolved`. -/
theorem trace_resolved (b : Build) (cpu : Cpu) (e : EntryPoint) (a : Args) (c : Call)
    (hc : c ∈ (e.run b cpu a).trace) :
    (c.op, c.variant, c.pix) ∈ e.resolved b cpu a := by
  cases e <;>
    simp only [EntryPoint.run, ARGBToI444, ARGBToI422, ARGBToI411, ARGBToNV12, ARGBToNV21,
      ARGBToYUY2, ARGBToUYVY, ARGBToI400, ARGBToRGBA, ARGBToRGB24, ARGBToRAW, ARGBToRGB565,
      ARGBToARGB1555, ARGBToARGB4444] at hc <;>
    split at hc <;>
    (try dsimp only at hc) <;>
    first
      | (simp at hc)
      | (rcases mem_rowLoop _ _ _ _ _ _ _ c hc with ⟨s, d, rfl⟩
         simp [EntryPoint.resolved, Call.op, Call.variant, Call.pix])
      | (rcases mem_planarLoop _ _ _ _ _ _ _ _ _ _ _ _ c hc with ⟨s, u, v, rfl⟩ | ⟨s, d, rfl⟩ <;>
         simp [EntryPoint.resolved, Call.op, Call.variant, Call.pix])
      | (rcases mem_packedRows _ _ _ _ _ _ _ _ _ _ _ c hc with ⟨s, rfl⟩ | ⟨s, rfl⟩ | ⟨d, rfl⟩ <;>
         simp [EntryPoint.resolved, Call.op, Call.variant, Call.pix])
      | (rcases mem_nvRows _ _ _ _ _ _ _ _ _ _ _ c hc with ⟨p, st, rfl⟩ | ⟨d, rfl⟩ | ⟨p, d, rfl⟩ <;>
         simp [EntryPoint.resolved, Call.op, Call.variant, Call.pix])


theorem IS_ALIGNED_iff (p a : Int) : IS_ALIGNED p a = true ↔ p % a = 0 := by
  simp [IS_ALIGNED]

theorem ARGBToI444_kernels_narrow (b : Build) (cpu : Cpu)
    (src_argb src_stride_argb dst_y dst_stride_y width : Int) :
    (width < minBlock b .ARGBToYRow →
        (ARGBToI444.kernels b cpu src_argb src_stride_argb dst_y dst_stride_y width).1 = .C) ∧
      (width < minBlock b .ARGBToUV444Row →
        (ARGBToI444.kernels b cpu src_argb src_stride_argb dst_y dst_stride_y width).2 = .C) := by
  simp only [minBlock, ARGBToI444.kernels, ladderSSSE3, ladderYNEON, Bool.and_eq_true,
    decide_eq_true_eq, IS_ALIGNED_iff]
  constructor <;> intro h <;> split_ifs at h ⊢ <;>
    first | rfl | omega

theorem ARGBToI422_kernels_narrow (b : Build) (cpu : Cpu)
    (src_argb src_stride_argb dst_y dst_stride_y width : Int) :
    (width < minBlock b .ARGBToYRow →
        (ARGBToI422.kernels b cpu src_argb src_stride_argb dst_y dst_stride_y width).1 = .C) ∧
      (width < minBlock b .ARGBToUV422Row →
        (ARGBToI422.kernels b cpu src_argb src_stride_argb dst_y dst_stride_y width).2 = .C) := by
  simp only [minBlock, ARGBToI422.kernels, ladderSSSE3, ladderYNEON, Bool.and_eq_true,
    decide_eq_true_eq, IS_ALIGNED_iff]
  constructor <;> intro h <;> split_ifs at h ⊢ <;>
    first | rfl | omega

theorem ARGBToI411_kernels_narrow (b : Build) (cpu : Cpu)
    (src_argb src_stride_argb dst_y dst_stride_y width : Int) :
    (width < minBlock b .ARGBToYRow →
        (ARGBToI411.kernels b cpu src_argb src_stride_argb dst_y dst_stride_y width).1 = .C) ∧
      (width < minBlock b .ARGBToUV411Row →
        (ARGBToI411.kernels b cpu src_argb src_stride_argb dst_y dst_stride_y width).2 = .C) := by
  simp only [minBlock, ARGBToI411.kernels, ladderSSSE3, ladderYNEON, Bool.and_eq_true,
    decide_eq_true_eq, IS_ALIGNED_iff]
  constructor <;> intro h <;> split_ifs at h ⊢ <;>
    first | rfl | omega

theorem ARGBToI400_kernels_narrow (b : Build) (cpu : Cpu)
    (src_argb src_stride_argb dst_y dst_stride_y width : Int)
    (h : width < minBlock b .ARGBToYRow) :
    ARGBToI400.kernels b cpu src_argb src_stride_argb dst_y dst_stride_y width = .C := by
  simp only [minBlock, ARGBToI400.kernels, ladderSSSE3, ladderYNEON, Bool.and_eq_true,
    decide_eq_true_eq, IS_ALIGNED_iff] at h ⊢
  split_ifs at h ⊢ <;> first | rfl | omega

theorem nvKernels_narrow (b : Build) (cpu : Cpu)
    (src_argb src_stride_argb dst_y dst_stride_y width : Int) (hw : 0 < width) :
    (width < minBlock b .ARGBToUVRow →
        (nvKernels b cpu src_argb src_stride_argb dst_y dst_stride_y width).1 = .C) ∧
      (width < minBlock b .ARGBToYRow →
        (nvKernels b cpu src_argb src_stride_argb dst_y dst_stride_y width).2 = .C) := by
  simp only [minBlock, nvKernels, ladderUVYNEON, Bool.and_eq_true,
    decide_eq_true_eq, IS_ALIGNED_iff]
  constructor <;> intro h <;> split_ifs at h ⊢ <;>
    first | rfl | omega

theorem packedKernels_narrow (b : Build) (cpu : Cpu)
    (src_argb src_stride_argb width : Int) (hw : 0 < width) :
    (width < minBlock b .ARGBToUVRow →
        (packedKernels b cpu src_argb src_stride_argb width).1 = .C) ∧
      (width < minBlock b .ARGBToYRow →
        (packedKernels b cpu src_argb src_stride_argb width).2 = .C) := by
  simp only [minBlock, packedKernels, ladderUVYNEON, Bool.and_eq_true,
    decide_eq_true_eq, IS_ALIGNED_iff]
  constructor <;> intro h <;> split_ifs at h ⊢ <;>
    first | rfl | omega

theorem mergeKernel_narrow (b : Build) (cpu : Cpu) (dst_uv dst_stride_uv hw : Int)
    (h : hw < minBlock b .MergeUV) : mergeKernel b cpu dst_uv dst_stride_uv hw = .C := by
  simp only [minBlock, mergeKernel, mergeBlock, Bool.and_eq_true, Bool.or_eq_true,
    decide_eq_true_eq, IS_ALIGNED_iff] at h ⊢
  split_ifs at h ⊢ <;> first | rfl | omega | (exfalso; simp_all)

theorem repackKernel_narrow (sse2 neon : Bool) (cpu : Cpu) (dst dst_stride width : Int)
    (h : width < 16) : repackKernel sse2 neon cpu dst dst_stride width = .C := by
  simp only [repackKernel, Bool.and_eq_true, decide_eq_true_eq, IS_ALIGNED_iff]
  split_ifs <;> first | rfl | omega

theorem ARGBToRGBA_kernels_narrow (b : Build) (cpu : Cpu)
    (src_argb src_stride_argb dst_rgba dst_stride_rgba width : Int) (hw : 0 < width)
    (h : width < minBlock b .ARGBToRGBARow) :
    ARGBToRGBA.kernels b cpu src_argb src_stride_argb dst_rgba dst_stride_rgba width = .C := by
  simp only [minBlock, ARGBToRGBA.kernels, Bool.and_eq_true, decide_eq_true_eq,
    IS_ALIGNED_iff] at h ⊢
  split_ifs at h ⊢ <;> first | rfl | omega

theorem rgb24Kernel_narrow (ssse3 neon : Bool) (cpu : Cpu)
    (src_argb src_stride_argb dst dst_stride width : Int)
    (h : width < (if ssse3 then 16 else 8)) :
    rgb24Kernel ssse3 neon cpu src_argb src_stride_argb dst dst_stride width = .C := by
  simp only [rgb24Kernel, Bool.and_eq_true, decide_eq_true_eq, IS_ALIGNED_iff] at h ⊢
  split_ifs at h ⊢ <;> first | rfl | omega

theorem rgb16Kernel_narrow (sse2 neon : Bool) (cpu : Cpu)
    (src_argb src_stride_argb width : Int)
    (h : width < (if sse2 then 4 else 8)) :
    rgb16Kernel sse2 neon cpu src_argb src_stride_argb width = .C := by
  simp only [rgb16Kernel, Bool.and_eq_true, decide_eq_true_eq, IS_ALIGNED_iff] at h ⊢
  split_ifs at h ⊢ <;> first | rfl | omega


/-- Below its block size a resolved function pointer is still the reference
kernel. -/
theorem resolved_narrow (b : Build) (cpu : Cpu) (e : EntryPoint) (a : Args)
    (hw : 0 < a.width) (r : RowOp × Variant × Int) (hr : r ∈ e.resolved b cpu a)
    (h : r.2.2 < minBlock b r.1) : r.2.1 = .C := by
  cases e <;>
    simp only [EntryPoint.resolved, List.mem_cons, List.mem_singleton, List.not_mem_nil,
      or_false] at hr
  · rcases hr with rfl | rfl
    · exact (ARGBToI444_kernels_narrow b cpu _ _ _ _ _).2 h
    · exact (ARGBToI444_kernels_narrow b cpu _ _ _ _ _).1 h
  · rcases hr with rfl | rfl
    · exact (ARGBToI422_kernels_narrow b cpu _ _ _ _ _).2 h
    · exact (ARGBToI422_kernels_narrow b cpu _ _ _ _ _).1 h
  · rcases hr with rfl | rfl
    · exact (ARGBToI411_kernels_narrow b cpu _ _ _ _ _).2 h
    · exact (ARGBToI411_kernels_narrow b cpu _ _ _ _ _).1 h
  · rcases hr with rfl | rfl | rfl
    · exact (nvKernels_narrow b cpu _ _ _ _ _ hw).1 h
    · exact mergeKernel_narrow b cpu _ _ _ h
    · exact (nvKernels_narrow b cpu _ _ _ _ _ hw).2 h
  · rcases hr with rfl | rfl | rfl
    · exact (nvKernels_narrow b cpu _ _ _ _ _ hw).1 h
    · exact mergeKernel_narrow b cpu _ _ _ h
    · exact (nvKernels_narrow b cpu _ _ _ _ _ hw).2 h
  · rcases hr with rfl | rfl | rfl
    · exact (packedKernels_narrow b cpu _ _ _ hw).1 h
    · exact (packedKernels_narrow b cpu _ _ _ hw).2 h
    · exact repackKernel_narrow _ _ cpu _ _ _ h
  · rcases hr with rfl | rfl | rfl
    · exact (packedKernels_narrow b cpu _ _ _ hw).1 h
    · exact (packedKernels_narrow b cpu _ _ _ hw).2 h
    · exact repackKernel_narrow _ _ cpu _ _ _ h
  · subst hr
    exact ARGBToI400_kernels_narrow b cpu _ _ _ _ _ h
  · subst hr
    exact ARGBToRGBA_kernels_narrow b cpu _ _ _ _ _ hw h
  · subst hr
    exact rgb24Kernel_narrow _ _ cpu _ _ _ _ _ h
  · subst hr
    exact rgb24Kernel_narrow _ _ cpu _ _ _ _ _ h
  · subst hr
    exact rgb16Kernel_narrow _ _ cpu _ _ _ h
  · subst hr
    exact rgb16Kernel_narrow _ _ cpu _ _ _ h
  · subst hr
    exact rgb16Kernel_narrow _ _ cpu _ _ _ h

/-- An entry point that performs an invocation has accepted its arguments. -/
theorem accepted_of_mem_trace (b : Build) (cpu : Cpu) (e : EntryPoint) (a : Args) (c : Call)
    (hc : c ∈ (e.run b cpu a).trace) :
    (0 : Int) ∉ e.pointers a ∧ 0 < a.width ∧ a.height ≠ 0 ∧
      (e.scratch = true → a.width ≤ b.kMaxStride) := by
  rcases run_cases b cpu e a with h | h
  · rw [h.2] at hc
    simp at hc
  · exact (status_eq_zero_iff b cpu e a).mp h

theorem reference_variant (c : Call) : c.reference.variant = .C := by
  cases c <;> rfl

/-- C17: for every invocation made by any entry point, in any build: if every
capability query answers false (capability absent or forced reference), the
invocation is bound to the reference (`_C`) kernel; and if its pixel count
(the width, the half width for `MergeUV`) is below the SIMD block size of its
operation, it is bound to the reference kernel whatever the capabilities. -/
theorem reference_when_absent_or_narrow (b : Build) (cpu : Cpu) (e : EntryPoint) (a : Args)
    (c : Call) (hc : c ∈ (e.run b cpu a).trace) :
    ((∀ flag, TestCpuFlag cpu flag = false) → c.variant = .C) ∧
      (c.pix < minBlock b c.op → c.variant = .C) := by
  constructor
  · intro hcpu
    have hnone : cpu = Cpu.none := funext hcpu
    subst hnone
    have h := (run_none b Cpu.none e a).2
    rw [h, List.mem_map] at hc
    obtain ⟨c', _, rfl⟩ := hc
    exact reference_variant c'
  · intro h
    have hacc := accepted_of_mem_trace b cpu e a c hc
    exact resolved_narrow b cpu e a hacc.2.1 _ (trace_resolved b cpu e a c hc) h

/-- C17, at concrete calls: the luma invocation of `ARGBToI444` at width 15
with SSSE3 present, and the merge invocation of `ARGBToNV12` at width 30 (half
width 15) with SSE2 present, are bound to the reference kernels. -/
theorem reference_when_absent_or_narrow_witness :
    (Call.ARGBToYRow .C (.mem 4096) (.mem 8192) 15 ∈
        (EntryPoint.run (Build.ssse3 2048) Cpu.all .ARGBToI444
          { src_argb := 4096, src_stride_argb := 64, dst := 8192, dst_stride := 16,
            dst_u := 12288, dst_stride_u := 16, dst_v := 16384, dst_stride_v := 16,
            width := 15, height := 1 }).trace ∧
      (Call.ARGBToYRow .C (.mem 4096) (.mem 8192) 15).variant = .C) ∧
    (Call.MergeUV .C .row_u .row_v (.mem 12288) 15 ∈
        (EntryPoint.run (Build.ssse3 2048) Cpu.all .ARGBToNV12
          { src_argb := 4096, src_stride_argb := 128, dst := 8192, dst_stride := 32,
            dst_u := 12288, dst_stride_u := 32, dst_v := 0, dst_stride_v := 0,
            width := 30, height := 2 }).trace ∧
      (Call.MergeUV .C .row_u .row_v (.mem 12288) 15).variant = .C) :=
  ⟨⟨by decide, (reference_when_absent_or_narrow (Build.ssse3 2048) Cpu.all .ARGBToI444
      { src_argb := 4096, src_stride_argb := 64, dst := 8192, dst_stride := 16,
        dst_u := 12288, dst_stride_u := 16, dst_v := 16384, dst_stride_v := 16,
        width := 15, height := 1 }
      (Call.ARGBToYRow .C (.mem 4096) (.mem 8192) 15) (by decide)).2 (by decide)⟩,
   ⟨by decide, (reference_when_absent_or_narrow (Build.ssse3 2048) Cpu.all .ARGBToNV12
      { src_argb := 4096, src_stride_argb := 128, dst := 8192, dst_stride := 32,
        dst_u := 12288, dst_stride_u := 32, dst_v := 0, dst_stride_v := 0,
        width := 30, height := 2 }
      (Call.MergeUV .C .row_u .row_v (.mem 12288) 15) (by decide)).2 (by decide)⟩⟩


/-! ### Aligned chroma tier of `ARGBToI422` -/

/-- C20 (failing input): in the SSSE3 build with SSSE3 present, `ARGBToI422`
called with 16-byte aligned source and luma plane but with `dst_u = 12289`,
`dst_stride_u = 9`, `dst_v = 16387`, `dst_stride_v = 9` (none of them a
multiple of 16) binds the chroma pointer to the aligned variant
`ARGBToUV422Row_SSSE3` and invokes it on the unaligned U and V rows. -/
theorem ARGBToI422_aligned_chroma_on_unaligned_planes :
    ARGBToI422 (Build.ssse3 2048) Cpu.all 4096 64 8192 16 12289 9 16387 9 16 2 =
      { status := 0,
        trace := [.ARGBToUV422Row .SSSE3 (.mem 4096) (.mem 12289) (.mem 16387) 16,
                  .ARGBToYRow .SSSE3 (.mem 4096) (.mem 8192) 16,
                  .ARGBToUV422Row .SSSE3 (.mem (4096 + 64)) (.mem (12289 + 9))
                    (.mem (16387 + 9)) 16,
                  .ARGBToYRow .SSSE3 (.mem (4096 + 64)) (.mem (8192 + 16)) 16] } ∧
    IS_ALIGNED 12289 16 = false ∧ IS_ALIGNED 9 16 = false ∧ IS_ALIGNED 16387 16 = false := by
  decide

/-! ### The 17x3 example -/

/-- C19 (counterexample): `ARGBToNV12` and `ARGBToNV21` on a 17x3 source with
non-zero source stride make one chroma-pair invocation over two rows, not two,
followed by one over a single row. -/
theorem nv_17x3_has_one_row_pair :
    ((ARGBToNV12 (Build.ssse3 2048) Cpu.all 4096 68 8192 32 12288 32 17 3).trace.filter
        Call.isRowPair).length = 1 ∧
    ((ARGBToNV21 (Build.ssse3 2048) Cpu.all 4096 68 8192 32 12288 32 17 3).trace.filter
        Call.isRowPair).length = 1 ∧
    ¬ ((ARGBToNV12 (Build.ssse3 2048) Cpu.all 4096 68 8192 32 12288 32 17 3).trace.filter
        Call.isRowPair).length = 2 := by
  decide

/-- C19 (amended): an accepted `ARGBToNV12` (and `ARGBToNV21`) call on a source
of width 17 and height 3 makes exactly eight invocations: one chroma-pair
computation over rows 0 and 1 merged with half width 9 into chroma row 0 and
followed by the luma of rows 0 and 1, then one chroma computation over row 2
alone (cross-row stride `0`) merged with half width 9 into chroma row 1 and
followed by the two luma invocations of the odd-height block. -/
theorem nv_17x3 (b : Build) (cpu : Cpu) (src_argb src_stride_argb dst_y dst_stride_y dst_uv
    dst_stride_uv : Int)
    (hp : src_argb ≠ 0 ∧ dst_y ≠ 0 ∧ dst_uv ≠ 0) (hk : 17 ≤ b.kMaxStride) :
    (ARGBToNV12 b cpu src_argb src_stride_argb dst_y dst_stride_y dst_uv dst_stride_uv
        17 3).trace =
      [.ARGBToUVRow (nvKernels b cpu src_argb src_stride_argb dst_y dst_stride_y 17).1
          (.mem src_argb) src_stride_argb .row_u .row_v 17,
       .MergeUV (mergeKernel b cpu dst_uv dst_stride_uv 9) .row_u .row_v (.mem dst_uv) 9,
       .ARGBToYRow (nvKernels b cpu src_argb src_stride_argb dst_y dst_stride_y 17).2
          (.mem src_argb) (.mem dst_y) 17,
       .ARGBToYRow (nvKernels b cpu src_argb src_stride_argb dst_y dst_stride_y 17).2
          (.mem (src_argb + src_stride_argb)) (.mem (dst_y + dst_stride_y)) 17,
       .ARGBToUVRow (nvKernels b cpu src_argb src_stride_argb dst_y dst_stride_y 17).1
          (.mem (src_argb + src_stride_argb * 2)) 0 .row_u .row_v 17,
       .MergeUV (mergeKernel b cpu dst_uv dst_stride_uv 9) .row_u .row_v
          (.mem (dst_uv + dst_stride_uv)) 9,
       .ARGBToYRow (nvKernels b cpu src_argb src_stride_argb dst_y dst_stride_y 17).2
          (.mem (src_argb + src_stride_argb * 2)) (.mem (dst_y + dst_stride_y * 2)) 17,
       .ARGBToYRow (nvKernels b cpu src_argb src_stride_argb dst_y dst_stride_y 17).2
          (.mem (src_argb + src_stride_argb * 2 + 0))
          (.mem (dst_y + dst_stride_y * 2 + dst_stride_y)) 17] ∧
    (ARGBToNV21 b cpu src_argb src_stride_argb dst_y dst_stride_y dst_uv dst_stride_uv
        17 3).trace =
      [.ARGBToUVRow (nvKernels b cpu src_argb src_stride_argb dst_y dst_stride_y 17).1
          (.mem src_argb) src_stride_argb .row_u .row_v 17,
       .MergeUV (mergeKernel b cpu dst_uv dst_stride_uv 9) .row_v .row_u (.mem dst_uv) 9,
       .ARGBToYRow (nvKernels b cpu src_argb src_stride_argb dst_y dst_stride_y 17).2
          (.mem src_argb) (.mem dst_y) 17,
       .ARGBToYRow (nvKernels b cpu src_argb src_stride_argb dst_y dst_stride_y 17).2
          (.mem (src_argb + src_stride_argb)) (.mem (dst_y + dst_stride_y)) 17,
       .ARGBToUVRow (nvKernels b cpu src_argb src_stride_argb dst_y dst_stride_y 17).1
          (.mem (src_argb + src_stride_argb * 2)) 0 .row_u .row_v 17,
       .MergeUV (mergeKernel b cpu dst_uv dst_stride_uv 9) .row_v .row_u
          (.mem (dst_uv + dst_stride_uv)) 9,
       .ARGBToYRow (nvKernels b cpu src_argb src_stride_argb dst_y dst_stride_y 17).2
          (.mem (src_argb + src_stride_argb * 2)) (.mem (dst_y + dst_stride_y * 2)) 17,
       .ARGBToYRow (nvKernels b cpu src_argb src_stride_argb dst_y dst_stride_y 17).2
          (.mem (src_argb + src_stride_argb * 2 + 0))
          (.mem (dst_y + dst_stride_y * 2 + dst_stride_y)) 17] := by
  have h9 : halfwidth 17 = 9 := by decide
  constructor
  · simp only [ARGBToNV12]
    rw [if_neg (by omega)]
    simp only [invert_of_pos _ _ _ (show (0 : Int) < 3 by decide), nvRows, h9]
    rfl
  · simp only [ARGBToNV21]
    rw [if_neg (by omega)]
    simp only [invert_of_pos _ _ _ (show (0 : Int) < 3 by decide), nvRows, h9]
    rfl

/-- C19 (amended), at a concrete call in the SSSE3 build. -/
theorem nv_17x3_witness :
    (ARGBToNV12 (Build.ssse3 2048) Cpu.all 4096 68 8192 32 12288 32 17 3).trace =
      [.ARGBToUVRow .Any_SSSE3 (.mem 4096) 68 .row_u .row_v 17,
       .MergeUV .C .row_u .row_v (.mem 12288) 9,
       .ARGBToYRow .Any_SSSE3 (.mem 4096) (.mem 8192) 17,
       .ARGBToYRow .Any_SSSE3 (.mem (4096 + 68)) (.mem (8192 + 32)) 17,
       .ARGBToUVRow .Any_SSSE3 (.mem (4096 + 68 * 2)) 0 .row_u .row_v 17,
       .MergeUV .C .row_u .row_v (.mem (12288 + 32)) 9,
       .ARGBToYRow .Any_SSSE3 (.mem (4096 + 68 * 2)) (.mem (8192 + 32 * 2)) 17,
       .ARGBToYRow .Any_SSSE3 (.mem (4096 + 68 * 2 + 0)) (.mem (8192 + 32 * 2 + 32)) 17] :=
  (nv_17x3 (Build.ssse3 2048) Cpu.all 4096 68 8192 32 12288 32 (by decide) (by decide)).1


/-! ### The ladder of `ARGBToNV12` -/

/-- The SSSE3 ladder of the semi-planar formats, tier by tier. -/
theorem nvKernels_ssse3 (b : Build) (cpu : Cpu)
    (src_argb src_stride_argb dst_y dst_stride_y width : Int)
    (hb : b.HAS_ARGBTOYROW_SSSE3 = true) (hcpu : TestCpuFlag cpu .kCpuHasSSSE3 = true) :
    (((nvKernels b cpu src_argb src_stride_argb dst_y dst_stride_y width).1.tier = .Reference ↔
        width < 16) ∧
      ((nvKernels b cpu src_argb src_stride_argb dst_y dst_stride_y width).1.tier = .Any ↔
        16 ≤ width ∧ width % 16 ≠ 0) ∧
      ((nvKernels b cpu src_argb src_stride_argb dst_y dst_stride_y width).1.tier = .Aligned ↔
        16 ≤ width ∧ width % 16 = 0 ∧ src_argb % 16 = 0 ∧ src_stride_argb % 16 = 0) ∧
      ((nvKernels b cpu src_argb src_stride_argb dst_y dst_stride_y width).1.tier = .Unaligned ↔
        16 ≤ width ∧ width % 16 = 0 ∧ ¬ (src_argb % 16 = 0 ∧ src_stride_argb % 16 = 0))) ∧
    (((nvKernels b cpu src_argb src_stride_argb dst_y dst_stride_y width).2.tier = .Reference ↔
        width < 16) ∧
      ((nvKernels b cpu src_argb src_stride_argb dst_y dst_stride_y width).2.tier = .Any ↔
        16 ≤ width ∧ width % 16 ≠ 0) ∧
      ((nvKernels b cpu src_argb src_stride_argb dst_y dst_stride_y width).2.tier = .Aligned ↔
        16 ≤ width ∧ width % 16 = 0 ∧ src_argb % 16 = 0 ∧ src_stride_argb % 16 = 0 ∧
          dst_y % 16 = 0 ∧ dst_stride_y % 16 = 0) ∧
      ((nvKernels b cpu src_argb src_stride_argb dst_y dst_stride_y width).2.tier = .Unaligned ↔
        16 ≤ width ∧ width % 16 = 0 ∧
          ¬ (src_argb % 16 = 0 ∧ src_stride_argb % 16 = 0 ∧
            dst_y % 16 = 0 ∧ dst_stride_y % 16 = 0))) := by
  simp only [nvKernels, hb, hcpu, if_true, Bool.true_and, decide_eq_true_eq, Bool.and_eq_true,
    IS_ALIGNED_iff]
  split_ifs <;> simp [Variant.tier] <;> omega

/-- C18: in a build with the SSSE3 luma/chroma ladder and with SSSE3 present,
every chroma-pair and every luma invocation of `ARGBToNV12` is bound to a
variant whose tier is: Reference iff `width < 16`; Any iff `width >= 16` and
`width` is not a multiple of 16; and, when `width >= 16` is a multiple of 16,
for the chroma-pair kernel Aligned iff the orientation-normalised source
pointer and stride are multiples of 16 and Unaligned otherwise, for the luma
kernel Aligned iff in addition the luma destination pointer and stride are
multiples of 16 and Unaligned otherwise. -/
theorem ARGBToNV12_ladder (b : Build) (cpu : Cpu) (src_argb src_stride_argb dst_y
    dst_stride_y dst_uv dst_stride_uv width height : Int)
    (hb : b.HAS_ARGBTOYROW_SSSE3 = true) (hcpu : TestCpuFlag cpu .kCpuHasSSSE3 = true)
    (c : Call)
    (hc : c ∈ (ARGBToNV12 b cpu src_argb src_stride_argb dst_y dst_stride_y dst_uv
      dst_stride_uv width height).trace) :
    (c.op = .ARGBToUVRow →
      (c.variant.tier = .Reference ↔ width < 16) ∧
      (c.variant.tier = .Any ↔ 16 ≤ width ∧ width % 16 ≠ 0) ∧
      (c.variant.tier = .Aligned ↔ 16 ≤ width ∧ width % 16 = 0 ∧
        (invert height src_argb src_stride_argb).2.1 % 16 = 0 ∧
        (invert height src_argb src_stride_argb).2.2 % 16 = 0) ∧
      (c.variant.tier = .Unaligned ↔ 16 ≤ width ∧ width % 16 = 0 ∧
        ¬ ((invert height src_argb src_stride_argb).2.1 % 16 = 0 ∧
          (invert height src_argb src_stride_argb).2.2 % 16 = 0))) ∧
    (c.op = .ARGBToYRow →
      (c.variant.tier = .Reference ↔ width < 16) ∧
      (c.variant.tier = .Any ↔ 16 ≤ width ∧ width % 16 ≠ 0) ∧
      (c.variant.tier = .Aligned ↔ 16 ≤ width ∧ width % 16 = 0 ∧
        (invert height src_argb src_stride_argb).2.1 % 16 = 0 ∧
        (invert height src_argb src_stride_argb).2.2 % 16 = 0 ∧
        dst_y % 16 = 0 ∧ dst_stride_y % 16 = 0) ∧
      (c.variant.tier = .Unaligned ↔ 16 ≤ width ∧ width % 16 = 0 ∧
        ¬ ((invert height src_argb src_stride_argb).2.1 % 16 = 0 ∧
          (invert height src_argb src_stride_argb).2.2 % 16 = 0 ∧
          dst_y % 16 = 0 ∧ dst_stride_y % 16 = 0))) := by
  have hr := trace_resolved b cpu .ARGBToNV12
    { src_argb := src_argb, src_stride_argb := src_stride_argb, dst := dst_y,
      dst_stride := dst_stride_y, dst_u := dst_uv, dst_stride_u := dst_stride_uv,
      dst_v := 0, dst_stride_v := 0, width := width, height := height } c hc
  have hk := nvKernels_ssse3 b cpu (invert height src_argb src_stride_argb).2.1
    (invert height src_argb src_stride_argb).2.2 dst_y dst_stride_y width hb hcpu
  simp only [EntryPoint.resolved, List.mem_cons, List.mem_singleton, List.not_mem_nil,
    or_false, Prod.mk.injEq] at hr
  rcases hr with ⟨ho, hv, _⟩ | ⟨ho, hv, _⟩ | ⟨ho, hv, _⟩
  · rw [ho, hv]
    constructor
    · intro _; exact hk.1
    · intro h; cases h
  · rw [ho]
    constructor
    · intro h; cases h
    · intro h; cases h
  · rw [ho, hv]
    constructor
    · intro h; cases h
    · intro _; exact hk.2

/-- C18, at a concrete call: width 17 with SSSE3 present; the chroma-pair
invocation of the first row pair is in the Any tier. -/
theorem ARGBToNV12_ladder_witness :
    (Call.ARGBToUVRow .Any_SSSE3 (.mem 4096) 68 .row_u .row_v 17).variant.tier = .Any ↔
      (16 : Int) ≤ 17 ∧ (17 : Int) % 16 ≠ 0 :=
  ((ARGBToNV12_ladder (Build.ssse3 2048) Cpu.all 4096 68 8192 32 12288 32 17 3 rfl rfl
    (Call.ARGBToUVRow .Any_SSSE3 (.mem 4096) 68 .row_u .row_v 17) (by decide)).1 rfl).2.1


/-! ### Scratch rows and the working height -/

/-- C22: in a build whose `kMaxStride` is a positive even `int`, every call of
`ARGBToNV12`, `ARGBToNV21`, `ARGBToYUY2` or `ARGBToUYVY` that passes the
argument check has `width <= kMaxStride` (the capacity of `row_y`), its
`width + 1` does not wrap in 32-bit arithmetic, and its half width
`(width + 1) >> 1` equals `(width + 1) / 2` and is at most `kMaxStride / 2`
(the capacity of `row_u` and `row_v`). -/
theorem scratch_rows_fit (b : Build) (cpu : Cpu) (e : EntryPoint) (a : Args)
    (hpos : 0 < b.kMaxStride) (heven : b.kMaxStride % 2 = 0)
    (hint : b.kMaxStride ≤ 2147483647)
    (he : e.scratch = true) (hs : (e.run b cpu a).status = 0) :
    0 < a.width ∧ a.width ≤ b.kMaxStride ∧
      wrap32 (a.width + 1) = a.width + 1 ∧
      halfwidth a.width = (a.width + 1) / 2 ∧
      0 < halfwidth a.width ∧ halfwidth a.width ≤ b.kMaxStride / 2 := by
  have h := (status_eq_zero_iff b cpu e a).mp hs
  have hw := h.2.1
  have hk := h.2.2.2 he
  have hhalf := halfwidth_eq a.width (by omega) (by omega)
  refine ⟨hw, hk, ?_, hhalf, ?_, ?_⟩
  · simp only [wrap32]
    omega
  · rw [hhalf]; omega
  · rw [hhalf]; omega

/-- C22, at a concrete call: `ARGBToNV21` at width `kMaxStride = 2048`. -/
theorem scratch_rows_fit_witness :
    (0 : Int) < 2048 ∧ (2048 : Int) ≤ 2048 ∧ wrap32 (2048 + 1) = 2048 + 1 ∧
      halfwidth 2048 = (2048 + 1) / 2 ∧ 0 < halfwidth 2048 ∧ halfwidth 2048 ≤ 2048 / 2 :=
  scratch_rows_fit (Build.ssse3 2048) Cpu.all .ARGBToNV21
    { src_argb := 4096, src_stride_argb := 8192, dst := 65536, dst_stride := 2048,
      dst_u := 131072, dst_stride_u := 2048, dst_v := 0, dst_stride_v := 0,
      width := 2048, height := 3 } (by decide) (by decide) (by decide) rfl (by decide)


theorem invert_fst (height p stride : Int) :
    (invert height p stride).1 = if height < 0 then neg32 height else height := by
  simp only [invert]
  split <;> rfl

/-- The working height of a non-zero height in the open `int` range is its
absolute value. -/
theorem invert_fst_natAbs (height p stride : Int)
    (hlo : -2147483648 < height) (hhi : height < 2147483648) :
    (invert height p stride).1 = (height.natAbs : Int) := by
  rw [invert_fst]
  split
  · simp only [neg32, wrap32]
    omega
  · omega

theorem rowLoop_length (Row : Ptr → Ptr → Int → Call)
    (src_argb src_stride_argb dst dst_stride width height : Int) :
    (rowLoop Row src_argb src_stride_argb dst dst_stride width height).length =
      height.toNat := by
  rw [rowLoop_eq]
  have h := blocks_length 1 height.toNat
    (fun j => [Row (.mem (src_argb + j * src_stride_argb)) (.mem (dst + j * dst_stride)) width])
    (fun _ => rfl)
  omega

theorem planarLoop_length (UVRow : Ptr → Ptr → Ptr → Int → Call)
    (YRow : Ptr → Ptr → Int → Call)
    (src_argb src_stride_argb dst_y dst_stride_y dst_u dst_stride_u dst_v dst_stride_v
      width height : Int) :
    (planarLoop UVRow YRow src_argb src_stride_argb dst_y dst_stride_y dst_u dst_stride_u
        dst_v dst_stride_v width height).length = 2 * height.toNat := by
  rw [planarLoop_eq]
  exact blocks_length 2 height.toNat
    (fun j => [UVRow (.mem (src_argb + j * src_stride_argb)) (.mem (dst_u + j * dst_stride_u))
        (.mem (dst_v + j * dst_stride_v)) width,
      YRow (.mem (src_argb + j * src_stride_argb)) (.mem (dst_y + j * dst_stride_y)) width])
    (fun _ => rfl)

theorem packedRows_length (b : Build) (cpu : Cpu) (sse2 neon : Bool)
    (Repack : Variant → Ptr → Ptr → Ptr → Ptr → Int → Call)
    (src_argb src_stride_argb dst dst_stride width height : Int) :
    (packedRows b cpu sse2 neon Repack src_argb src_stride_argb dst dst_stride width
        height).length = 3 * height.toNat := by
  simp only [packedRows]
  rw [packedLoop_eq]
  exact blocks_length 3 height.toNat
    (fun j => [.ARGBToUVRow (packedKernels b cpu src_argb src_stride_argb width).1
        (.mem (src_argb + j * src_stride_argb)) 0 .row_u .row_v width,
      .ARGBToYRow (packedKernels b cpu src_argb src_stride_argb width).2
        (.mem (src_argb + j * src_stride_argb)) .row_y width,
      Repack (repackKernel sse2 neon cpu dst dst_stride width) .row_y .row_u .row_v
        (.mem (dst + j * dst_stride)) width])
    (fun _ => rfl)

theorem nvRows_length (b : Build) (cpu : Cpu) (Merge : Variant → Ptr → Int → Call)
    (src_argb src_stride_argb dst_y dst_stride_y dst_uv dst_stride_uv width height : Int)
    (hh : 0 ≤ height) :
    (nvRows b cpu Merge src_argb src_stride_argb dst_y dst_stride_y dst_uv dst_stride_uv
        width height).length = 4 * ((height.toNat + 1) / 2) := by
  rw [nvRows_eq, List.length_append,
    blocks_length 4 _ _ (fun _ => nvCalls_length _ _ _ _ _ _ _)]
  split
  · rw [nvCalls_length]; omega
  · simp only [List.length_nil]; omega

/-- The number of invocations of an accepted call, in terms of the working
height. -/
theorem run_length (b : Build) (cpu : Cpu) (e : EntryPoint) (a : Args)
    (hs : (e.run b cpu a).status = 0)
    (hW : 0 ≤ (invert a.height a.src_argb a.src_stride_argb).1) :
    (e.run b cpu a).trace.length =
      e.invocations (invert a.height a.src_argb a.src_stride_argb).1.toNat := by
  have hfst : ∀ p s, (invert a.height p s).1 =
      (invert a.height a.src_argb a.src_stride_argb).1 := by
    intro p s; rw [invert_fst, invert_fst]
  revert hs
  cases e <;>
    simp only [EntryPoint.run, ARGBToI444, ARGBToI422, ARGBToI411, ARGBToNV12, ARGBToNV21,
      ARGBToYUY2, ARGBToUYVY, ARGBToI400, ARGBToRGBA, ARGBToRGB24, ARGBToRAW, ARGBToRGB565,
      ARGBToARGB1555, ARGBToARGB4444, EntryPoint.invocations] <;>
    split <;> intro hs <;> (try dsimp only) <;>
    first
      | (simp at hs; done)
      | exact rowLoop_length _ _ _ _ _ _ _
      | exact planarLoop_length _ _ _ _ _ _ _ _ _ _ _ _
      | exact nvRows_length _ _ _ _ _ _ _ _ _ _ _ hW
      | (rw [hfst]; exact packedRows_length _ _ _ _ _ _ _ _ _ _ _)

/-- C24 (counterexample): at `height = -2^31` the 32-bit negation returns
`-2^31`, so the working height is negative, not `2^31`; `ARGBToI400` then
returns `0` without a single invocation. -/
theorem working_height_at_int_min :
    (invert (-2147483648) 4096 64).1 = -2147483648 ∧
      ¬ (0 < (invert (-2147483648) 4096 64).1 ∧
        (invert (-2147483648) 4096 64).1 = 2147483648) ∧
      ARGBToI400 (Build.ssse3 2048) Cpu.all 4096 64 8192 16 16 (-2147483648) =
        { status := 0, trace := [] } := by
  decide

/-- C24 (amended): for every entry point and every height with
`-2^31 < height < 2^31`, a call that returns `0` has a working height, after
the normalisation with 32-bit negation, that is strictly positive and equal to
`|height|`, and it makes the invocations of exactly `|height|` rows: one, two
or three per row for the row-wise formats, and for `ARGBToNV12`/`ARGBToNV21`
four per row pair plus four for an unpaired last row. -/
theorem working_height_is_abs (b : Build) (cpu : Cpu) (e : EntryPoint) (a : Args)
    (hlo : -2147483648 < a.height) (hhi : a.height < 2147483648)
    (hs : (e.run b cpu a).status = 0) :
    (∀ p stride : Int, (invert a.height p stride).1 = (a.height.natAbs : Int)) ∧
      0 < a.height.natAbs ∧
      (e.run b cpu a).trace.length = e.invocations a.height.natAbs := by
  have hne : a.height ≠ 0 := ((status_eq_zero_iff b cpu e a).mp hs).2.2.1
  have hW := invert_fst_natAbs a.height a.src_argb a.src_stride_argb hlo hhi
  refine ⟨fun p s => invert_fst_natAbs a.height p s hlo hhi, by omega, ?_⟩
  have h := run_length b cpu e a hs (by rw [hW]; omega)
  rw [hW, Int.toNat_ofNat] at h
  exact h

/-- C24 (amended), at a concrete call: `ARGBToNV12` with `height = -3`. -/
theorem working_height_is_abs_witness :
    (invert (-3) 4096 68).1 = 3 ∧
      (ARGBToNV12 (Build.ssse3 2048) Cpu.all 4096 68 8192 32 12288 32 17 (-3)).trace.length = 8 :=
  ⟨(working_height_is_abs (Build.ssse3 2048) Cpu.all .ARGBToNV12
      { src_argb := 4096, src_stride_argb := 68, dst := 8192, dst_stride := 32,
        dst_u := 12288, dst_stride_u := 32, dst_v := 0, dst_stride_v := 0,
        width := 17, height := -3 } (by decide) (by decide) (by decide)).1 4096 68,
   (working_height_is_abs (Build.ssse3 2048) Cpu.all .ARGBToNV12
      { src_argb := 4096, src_stride_argb := 68, dst := 8192, dst_stride := 32,
        dst_u := 12288, dst_stride_u := 32, dst_v := 0, dst_stride_v := 0,
        width := 17, height := -3 } (by decide) (by decide) (by decide)).2.2⟩


/-! ### Alignment of the rows handed to the aligned luma kernel -/

theorem aligned_row (p stride j : Int) (hp : p % 16 = 0) (hs : stride % 16 = 0) :
    (p + j * stride) % 16 = 0 := by
  obtain ⟨k, rfl⟩ := Int.dvd_of_emod_eq_zero hs
  have e : p + j * (16 * k) = p + 16 * (j * k) := by ring
  rw [e]
  omega

theorem ladderSSSE3_aligned (cpu : Cpu) (src_argb src_stride_argb dst_y dst_stride_y width : Int)
    (h : ladderSSSE3 cpu src_argb src_stride_argb dst_y dst_stride_y width .C = .SSSE3) :
    src_argb % 16 = 0 ∧ src_stride_argb % 16 = 0 ∧ dst_y % 16 = 0 ∧ dst_stride_y % 16 = 0 := by
  simp only [ladderSSSE3, Bool.and_eq_true, decide_eq_true_eq, IS_ALIGNED_iff] at h
  split_ifs at h with h1 h2 h3
  exact ⟨h3.1.1.1, h3.1.1.2, h3.1.2, h3.2⟩

theorem nvKernels_aligned (b : Build) (cpu : Cpu)
    (src_argb src_stride_argb dst_y dst_stride_y width : Int)
    (h : (nvKernels b cpu src_argb src_stride_argb dst_y dst_stride_y width).2 = .SSSE3) :
    src_argb % 16 = 0 ∧ src_stride_argb % 16 = 0 ∧ dst_y % 16 = 0 ∧ dst_stride_y % 16 = 0 := by
  simp only [nvKernels, ladderUVYNEON, Bool.and_eq_true, decide_eq_true_eq,
    IS_ALIGNED_iff] at h
  split_ifs at h with h1 h2 h3 h4 h5
  exact ⟨h4.1, h4.2, h5.1, h5.2⟩

theorem planarY_aligned (b : Build) (cpu : Cpu)
    (src_argb src_stride_argb dst_y dst_stride_y width : Int) :
    ((ARGBToI444.kernels b cpu src_argb src_stride_argb dst_y dst_stride_y width).1 = .SSSE3 →
      src_argb % 16 = 0 ∧ src_stride_argb % 16 = 0 ∧ dst_y % 16 = 0 ∧ dst_stride_y % 16 = 0) ∧
    ((ARGBToI422.kernels b cpu src_argb src_stride_argb dst_y dst_stride_y width).1 = .SSSE3 →
      src_argb % 16 = 0 ∧ src_stride_argb % 16 = 0 ∧ dst_y % 16 = 0 ∧ dst_stride_y % 16 = 0) ∧
    ((ARGBToI411.kernels b cpu src_argb src_stride_argb dst_y dst_stride_y width).1 = .SSSE3 →
      src_argb % 16 = 0 ∧ src_stride_argb % 16 = 0 ∧ dst_y % 16 = 0 ∧ dst_stride_y % 16 = 0) ∧
    (ARGBToI400.kernels b cpu src_argb src_stride_argb dst_y dst_stride_y width = .SSSE3 →
      src_argb % 16 = 0 ∧ src_stride_argb % 16 = 0 ∧ dst_y % 16 = 0 ∧ dst_stride_y % 16 = 0) := by
  refine ⟨?_, ?_, ?_, ?_⟩ <;> intro h <;>
    simp only [ARGBToI444.kernels, ARGBToI422.kernels, ARGBToI411.kernels, ARGBToI400.kernels,
      ladderYNEON] at h <;>
    split_ifs at h <;>
    exact ladderSSSE3_aligned _ _ _ _ _ _ h

theorem mem_rowLoop_at (Row : Ptr → Ptr → Int → Call)
    (src_argb src_stride_argb dst dst_stride width height : Int) (c : Call)
    (hc : c ∈ rowLoop Row src_argb src_stride_argb dst dst_stride width height) :
    ∃ j : Nat, (j : Int) < height ∧
      c = Row (.mem (src_argb + j * src_stride_argb)) (.mem (dst + j * dst_stride)) width := by
  rw [rowLoop_eq, mem_blocks] at hc
  obtain ⟨j, hj, h⟩ := hc
  simp only [List.mem_singleton] at h
  exact ⟨j, by omega, h⟩

theorem mem_planarLoop_at (UVRow : Ptr → Ptr → Ptr → Int → Call)
    (YRow : Ptr → Ptr → Int → Call)
    (src_argb src_stride_argb dst_y dst_stride_y dst_u dst_stride_u dst_v dst_stride_v
      width height : Int) (c : Call)
    (hc : c ∈ planarLoop UVRow YRow src_argb src_stride_argb dst_y dst_stride_y dst_u
      dst_stride_u dst_v dst_stride_v width height) :
    ∃ j : Nat, (j : Int) < height ∧
      (c = UVRow (.mem (src_argb + j * src_stride_argb)) (.mem (dst_u + j * dst_stride_u))
          (.mem (dst_v + j * dst_stride_v)) width ∨
        c = YRow (.mem (src_argb + j * src_stride_argb)) (.mem (dst_y + j * dst_stride_y))
          width) := by
  rw [planarLoop_eq, mem_blocks] at hc
  obtain ⟨j, hj, h⟩ := hc
  simp only [List.mem_cons, List.mem_singleton, List.not_mem_nil, or_false] at h
  exact ⟨j, by omega, h⟩

/-- Every luma invocation of the semi-planar formats reads a row of the source
family and writes a row of the luma family. -/
theorem mem_nvRows_luma (b : Build) (cpu : Cpu) (Merge : Variant → Ptr → Int → Call)
    (hM : ∀ m d n, (Merge m d n).op ≠ .ARGBToYRow)
    (src_argb src_stride_argb dst_y dst_stride_y dst_uv dst_stride_uv width height : Int)
    (c : Call)
    (hc : c ∈ nvRows b cpu Merge src_argb src_stride_argb dst_y dst_stride_y dst_uv
      dst_stride_uv width height) (hop : c.op = .ARGBToYRow) :
    ∃ i j : Int, c = Call.ARGBToYRow
      (nvKernels b cpu src_argb src_stride_argb dst_y dst_stride_y width).2
      (.mem (src_argb + i * src_stride_argb)) (.mem (dst_y + j * dst_stride_y)) width := by
  rw [nvRows_eq, List.mem_append, mem_blocks] at hc
  rcases hc with ⟨n, _, h⟩ | h
  · simp only [nvCalls, List.mem_cons, List.mem_singleton, List.not_mem_nil, or_false] at h
    rcases h with h | h | h | h
    · rw [h] at hop; cases hop
    · rw [h] at hop; exact absurd hop (hM _ _ _)
    · exact ⟨2 * n, 2 * n, h⟩
    · refine ⟨2 * n + 1, 2 * n + 1, ?_⟩
      rw [h]
      congr 2 <;> ring
  · split at h
    · simp only [nvCalls, List.mem_cons, List.mem_singleton, List.not_mem_nil, or_false] at h
      rcases h with h | h | h | h
      · rw [h] at hop; cases hop
      · rw [h] at hop; exact absurd hop (hM _ _ _)
      · exact ⟨2 * (height / 2).toNat, 2 * (height / 2).toNat, h⟩
      · refine ⟨2 * (height / 2).toNat, 2 * (height / 2).toNat + 1, ?_⟩
        rw [h]
        congr 2 <;> ring
    · simp at h

theorem luma_row_aligned (v : Variant) (p ps d ds w s t n : Int)
    (hv : v = .SSSE3 → p % 16 = 0 ∧ ps % 16 = 0 ∧ d % 16 = 0 ∧ ds % 16 = 0)
    (h : ∃ i j : Int, Call.ARGBToYRow .SSSE3 (.mem s) (.mem t) n =
      Call.ARGBToYRow v (.mem (p + i * ps)) (.mem (d + j * ds)) w) :
    IS_ALIGNED s 16 = true ∧ IS_ALIGNED t 16 = true := by
  obtain ⟨i, j, h⟩ := h
  injection h with h1 h2 h3 h4
  injection h2 with h2
  injection h3 with h3
  obtain ⟨a1, a2, a3, a4⟩ := hv h1.symm
  rw [IS_ALIGNED_iff, IS_ALIGNED_iff, h2, h3]
  exact ⟨aligned_row _ _ _ a1 a2, aligned_row _ _ _ a3 a4⟩

/-- C21: in `ARGBToI444`, `ARGBToI422`, `ARGBToI411`, `ARGBToI400`, `ARGBToNV12`
and `ARGBToNV21`, in every build and for every height (positive or negative),
each invocation of `ARGBToYRow_SSSE3` during the row loop -- every row, both
rows of a row pair and the call after the pair loop -- receives a source row
pointer and a luma destination row pointer that are multiples of 16. -/
theorem aligned_luma_pointers (b : Build) (cpu : Cpu) (e : EntryPoint) (a : Args)
    (he : e ∈ [EntryPoint.ARGBToI444, .ARGBToI422, .ARGBToI411, .ARGBToI400, .ARGBToNV12,
      .ARGBToNV21])
    (s d n : Int)
    (hc : Call.ARGBToYRow .SSSE3 (.mem s) (.mem d) n ∈ (e.run b cpu a).trace) :
    IS_ALIGNED s 16 = true ∧ IS_ALIGNED d 16 = true := by
  have hp := planarY_aligned b cpu (invert a.height a.src_argb a.src_stride_argb).2.1
    (invert a.height a.src_argb a.src_stride_argb).2.2 a.dst a.dst_stride a.width
  have hn := nvKernels_aligned b cpu (invert a.height a.src_argb a.src_stride_argb).2.1
    (invert a.height a.src_argb a.src_stride_argb).2.2 a.dst a.dst_stride a.width
  simp only [List.mem_cons, List.mem_singleton, List.not_mem_nil, or_false] at he
  rcases he with rfl | rfl | rfl | rfl | rfl | rfl <;>
    simp only [EntryPoint.run, ARGBToI444, ARGBToI422, ARGBToI411, ARGBToI400, ARGBToNV12,
      ARGBToNV21] at hc <;>
    split at hc <;>
    (try simp only [List.not_mem_nil] at hc)
  · obtain ⟨j, -, h | h⟩ := mem_planarLoop_at _ _ _ _ _ _ _ _ _ _ _ _ _ hc
    · cases h
    · exact luma_row_aligned _ _ _ _ _ _ _ _ _ hp.1 ⟨j, j, h⟩
  · obtain ⟨j, -, h | h⟩ := mem_planarLoop_at _ _ _ _ _ _ _ _ _ _ _ _ _ hc
    · cases h
    · exact luma_row_aligned _ _ _ _ _ _ _ _ _ hp.2.1 ⟨j, j, h⟩
  · obtain ⟨j, -, h | h⟩ := mem_planarLoop_at _ _ _ _ _ _ _ _ _ _ _ _ _ hc
    · cases h
    · exact luma_row_aligned _ _ _ _ _ _ _ _ _ hp.2.2.1 ⟨j, j, h⟩
  · obtain ⟨j, -, h⟩ := mem_rowLoop_at _ _ _ _ _ _ _ _ hc
    exact luma_row_aligned _ _ _ _ _ _ _ _ _ hp.2.2.2 ⟨j, j, h⟩
  · exact luma_row_aligned _ _ _ _ _ _ _ _ _ hn
      (mem_nvRows_luma b cpu _ (fun _ _ _ => by simp [Call.op]) _ _ _ _ _ _ _ _ _ hc rfl)
  · exact luma_row_aligned _ _ _ _ _ _ _ _ _ hn
      (mem_nvRows_luma b cpu _ (fun _ _ _ => by simp [Call.op]) _ _ _ _ _ _ _ _ _ hc rfl)

/-- C21, at a concrete call: `ARGBToNV12` of a 16 x 3 image stored bottom-up
(height `-3`) with all pointers and strides multiples of 16; the last luma
invocation, the one after the pair loop, receives aligned pointers. -/
theorem aligned_luma_pointers_witness :
    Call.ARGBToYRow .SSSE3 (.mem 4096) (.mem 8240) 16 ∈
        (EntryPoint.ARGBToNV12.run (Build.ssse3 2048) Cpu.all
          ⟨4096, 64, 8192, 16, 12288, 16, 0, 0, 16, -3⟩).trace ∧
      IS_ALIGNED 4096 16 = true ∧ IS_ALIGNED 8240 16 = true :=
  ⟨by decide, aligned_luma_pointers (Build.ssse3 2048) Cpu.all .ARGBToNV12
    ⟨4096, 64, 8192, 16, 12288, 16, 0, 0, 16, -3⟩ (by decide) 4096 8240 16 (by decide)⟩


/-! ### The luma rows of the planar and semi-planar formats -/

theorem tier_ne_reference_iff (v : Variant) : v.tier ≠ .Reference ↔ v ≠ .C := by
  cases v <;> simp [Variant.tier]

theorem ladderSSSE3_wide (cpu : Cpu) (src_argb src_stride_argb dst_y dst_stride_y width : Int)
    (cur : Variant) (hcap : TestCpuFlag cpu .kCpuHasSSSE3 = true) (hblk : 16 ≤ width) :
    ladderSSSE3 cpu src_argb src_stride_argb dst_y dst_stride_y width cur ≠ .C := by
  simp only [ladderSSSE3, hcap, Bool.true_and, decide_eq_true_eq, if_pos hblk]
  split_ifs <;> simp

theorem nvKernels_wide (k : Int) (cpu : Cpu)
    (src_argb src_stride_argb dst_y dst_stride_y width : Int)
    (hcap : TestCpuFlag cpu .kCpuHasSSSE3 = true) (hblk : 16 ≤ width) :
    (nvKernels (Build.ssse3 k) cpu src_argb src_stride_argb dst_y dst_stride_y width).1 ≠ .C ∧
      (nvKernels (Build.ssse3 k) cpu src_argb src_stride_argb dst_y dst_stride_y width).2 ≠
        .C := by
  simp only [nvKernels, Build.ssse3, hcap, Bool.true_and, decide_eq_true_eq, if_pos hblk,
    if_true]
  split_ifs <;> simp

theorem packedKernels_wide (k : Int) (cpu : Cpu) (src_argb src_stride_argb width : Int)
    (hcap : TestCpuFlag cpu .kCpuHasSSSE3 = true) (hblk : 16 ≤ width) :
    (packedKernels (Build.ssse3 k) cpu src_argb src_stride_argb width).1 ≠ .C ∧
      (packedKernels (Build.ssse3 k) cpu src_argb src_stride_argb width).2 ≠ .C := by
  simp only [packedKernels, Build.ssse3, hcap, Bool.true_and, decide_eq_true_eq, if_pos hblk,
    if_true]
  split_ifs <;> simp

theorem ladderUVYNEON_wide (cpu : Cpu) (width : Int)
    (hcap : TestCpuFlag cpu .kCpuHasNEON = true) :
    (8 ≤ width → (ladderUVYNEON cpu width).2 ≠ .C) ∧
      (16 ≤ width →
        (IS_ALIGNED width 16 = true → (ladderUVYNEON cpu width).1 ≠ .C) ∧
        (IS_ALIGNED width 16 = false → (ladderUVYNEON cpu width).1 = .C)) := by
  constructor
  · intro hblk
    have h8 : (8 : Int) ≤ width := hblk
    simp only [ladderUVYNEON, hcap, Bool.true_and, decide_eq_true_eq, if_pos h8]
    split_ifs <;> simp
  · intro hblk
    have h8 : (8 : Int) ≤ width := by omega
    simp only [ladderUVYNEON, hcap, Bool.true_and, decide_eq_true_eq, if_pos h8]
    constructor
    · intro h16
      have ha : IS_ALIGNED width 8 = true := by
        rw [IS_ALIGNED_iff] at h16 ⊢
        omega
      simp [ha, h16]
    · intro h16
      split_ifs <;> simp_all

theorem mergeKernel_wide_x86 (k : Int) (cpu : Cpu) (dst_uv dst_stride_uv hw : Int)
    (hcap : TestCpuFlag cpu .kCpuHasSSE2 = true) (hblk : 16 ≤ hw) :
    mergeKernel (Build.ssse3 k) cpu dst_uv dst_stride_uv hw ≠ .C := by
  simp only [mergeKernel, mergeBlock, Build.ssse3, hcap, Bool.true_and, decide_eq_true_eq,
    if_pos hblk, if_true, if_false, Bool.false_eq_true]
  split_ifs <;> simp

theorem mergeKernel_wide_neon (k : Int) (cpu : Cpu) (dst_uv dst_stride_uv hw : Int)
    (hcap : TestCpuFlag cpu .kCpuHasNEON = true) (hblk : 16 ≤ hw) :
    mergeKernel (Build.neon k) cpu dst_uv dst_stride_uv hw ≠ .C := by
  simp only [mergeKernel, mergeBlock, Build.neon, hcap, Bool.true_and, decide_eq_true_eq,
    if_pos hblk, if_true, if_false, Bool.false_eq_true]
  split_ifs <;> simp

theorem repackKernel_wide_x86 (cpu : Cpu) (dst dst_stride width : Int)
    (hcap : TestCpuFlag cpu .kCpuHasSSE2 = true) (hblk : 16 ≤ width) :
    ((IS_ALIGNED dst 16 && IS_ALIGNED dst_stride 16) = true →
        repackKernel true false cpu dst dst_stride width ≠ .C) ∧
      ((IS_ALIGNED dst 16 && IS_ALIGNED dst_stride 16) = false →
        repackKernel true false cpu dst dst_stride width = .C) := by
  simp only [repackKernel, hcap, Bool.true_and, decide_eq_true hblk, if_true]
  constructor <;> intro hg <;> simp only [Bool.and_assoc, hg] <;> split_ifs <;> simp_all

theorem repackKernel_wide_neon (cpu : Cpu) (dst dst_stride width : Int)
    (hcap : TestCpuFlag cpu .kCpuHasNEON = true) (hblk : 16 ≤ width) :
    repackKernel false true cpu dst dst_stride width ≠ .C := by
  simp only [repackKernel, hcap, Bool.true_and, decide_eq_true hblk, if_true, if_false,
    Bool.false_eq_true]
  split_ifs <;> simp

theorem ARGBToRGBA_kernels_wide_x86 (k : Int) (cpu : Cpu)
    (src_argb src_stride_argb dst dst_stride width : Int)
    (hcap : TestCpuFlag cpu .kCpuHasSSSE3 = true) :
    ((IS_ALIGNED width 4 && IS_ALIGNED src_argb 16 && IS_ALIGNED src_stride_argb 16 &&
          IS_ALIGNED dst 16 && IS_ALIGNED dst_stride 16) = true →
        ARGBToRGBA.kernels (Build.ssse3 k) cpu src_argb src_stride_argb dst dst_stride width ≠
          .C) ∧
      ((IS_ALIGNED width 4 && IS_ALIGNED src_argb 16 && IS_ALIGNED src_stride_argb 16 &&
          IS_ALIGNED dst 16 && IS_ALIGNED dst_stride 16) = false →
        ARGBToRGBA.kernels (Build.ssse3 k) cpu src_argb src_stride_argb dst dst_stride width =
          .C) := by
  simp only [ARGBToRGBA.kernels, Build.ssse3, hcap, Bool.true_and, if_true]
  constructor <;> intro hg <;> simp only [hg] <;> simp

theorem ARGBToRGBA_kernels_wide_neon (k : Int) (cpu : Cpu)
    (src_argb src_stride_argb dst dst_stride width : Int)
    (hcap : TestCpuFlag cpu .kCpuHasNEON = true) :
    (IS_ALIGNED width 8 = true →
        ARGBToRGBA.kernels (Build.neon k) cpu src_argb src_stride_argb dst dst_stride width ≠
          .C) ∧
      (IS_ALIGNED width 8 = false →
        ARGBToRGBA.kernels (Build.neon k) cpu src_argb src_stride_argb dst dst_stride width =
          .C) := by
  simp only [ARGBToRGBA.kernels, Build.neon, hcap, Bool.true_and, if_true, if_false,
    Bool.false_eq_true]
  constructor <;> intro hg <;> simp only [hg] <;> simp

theorem rgb24Kernel_wide_x86 (cpu : Cpu) (src_argb src_stride_argb dst dst_stride width : Int)
    (hcap : TestCpuFlag cpu .kCpuHasSSSE3 = true) (hblk : 16 ≤ width) :
    ((IS_ALIGNED src_argb 16 && IS_ALIGNED src_stride_argb 16 && IS_ALIGNED dst 16 &&
          IS_ALIGNED dst_stride 16) = true →
        rgb24Kernel true false cpu src_argb src_stride_argb dst dst_stride width ≠ .C) ∧
      ((IS_ALIGNED src_argb 16 && IS_ALIGNED src_stride_argb 16 && IS_ALIGNED dst 16 &&
          IS_ALIGNED dst_stride 16) = false →
        rgb24Kernel true false cpu src_argb src_stride_argb dst dst_stride width = .C) := by
  simp only [rgb24Kernel, hcap, Bool.true_and, decide_eq_true hblk, if_true]
  constructor <;> intro hg <;> simp only [hg] <;> split_ifs <;> simp_all

theorem rgb24Kernel_wide_neon (cpu : Cpu) (src_argb src_stride_argb dst dst_stride width : Int)
    (hcap : TestCpuFlag cpu .kCpuHasNEON = true) (hblk : 8 ≤ width) :
    rgb24Kernel false true cpu src_argb src_stride_argb dst dst_stride width ≠ .C := by
  simp only [rgb24Kernel, hcap, Bool.true_and, decide_eq_true hblk, if_true, if_false,
    Bool.false_eq_true]
  split_ifs <;> simp

theorem rgb16Kernel_wide_x86 (cpu : Cpu) (src_argb src_stride_argb width : Int)
    (hcap : TestCpuFlag cpu .kCpuHasSSE2 = true) (hblk : 4 ≤ width) :
    ((IS_ALIGNED src_argb 16 && IS_ALIGNED src_stride_argb 16) = true →
        rgb16Kernel true false cpu src_argb src_stride_argb width ≠ .C) ∧
      ((IS_ALIGNED src_argb 16 && IS_ALIGNED src_stride_argb 16) = false →
        rgb16Kernel true false cpu src_argb src_stride_argb width = .C) := by
  simp only [rgb16Kernel, hcap, Bool.true_and, decide_eq_true hblk, if_true]
  constructor <;> intro hg <;> simp only [Bool.and_assoc, hg] <;> split_ifs <;> simp_all

theorem rgb16Kernel_wide_neon (cpu : Cpu) (src_argb src_stride_argb width : Int)
    (hcap : TestCpuFlag cpu .kCpuHasNEON = true) (hblk : 8 ≤ width) :
    rgb16Kernel false true cpu src_argb src_stride_argb width ≠ .C := by
  simp only [rgb16Kernel, hcap, Bool.true_and, decide_eq_true hblk, if_true, if_false,
    Bool.false_eq_true]
  split_ifs <;> simp

theorem planar_wide_x86 (k : Int) (cpu : Cpu)
    (src_argb src_stride_argb dst_y dst_stride_y width : Int)
    (hcap : TestCpuFlag cpu .kCpuHasSSSE3 = true) (hblk : 16 ≤ width) :
    (ARGBToI444.kernels (Build.ssse3 k) cpu src_argb src_stride_argb dst_y dst_stride_y
        width).1 ≠ .C ∧
      (ARGBToI422.kernels (Build.ssse3 k) cpu src_argb src_stride_argb dst_y dst_stride_y
        width).1 ≠ .C ∧
      (ARGBToI422.kernels (Build.ssse3 k) cpu src_argb src_stride_argb dst_y dst_stride_y
        width).2 ≠ .C ∧
      (ARGBToI411.kernels (Build.ssse3 k) cpu src_argb src_stride_argb dst_y dst_stride_y
        width).1 ≠ .C ∧
      ARGBToI400.kernels (Build.ssse3 k) cpu src_argb src_stride_argb dst_y dst_stride_y
        width ≠ .C := by
  have h := ladderSSSE3_wide cpu src_argb src_stride_argb dst_y dst_stride_y width .C hcap hblk
  simp only [ARGBToI444.kernels, ARGBToI422.kernels, ARGBToI411.kernels, ARGBToI400.kernels,
    Build.ssse3, if_true]
  exact ⟨h, h, h, h, h⟩

theorem planar_wide_neon (k : Int) (cpu : Cpu)
    (src_argb src_stride_argb dst_y dst_stride_y width : Int)
    (hcap : TestCpuFlag cpu .kCpuHasNEON = true) :
    (8 ≤ width →
      (ARGBToI444.kernels (Build.neon k) cpu src_argb src_stride_argb dst_y dst_stride_y
          width).1 ≠ .C ∧
        (ARGBToI444.kernels (Build.neon k) cpu src_argb src_stride_argb dst_y dst_stride_y
          width).2 ≠ .C ∧
        (ARGBToI422.kernels (Build.neon k) cpu src_argb src_stride_argb dst_y dst_stride_y
          width).1 ≠ .C ∧
        (ARGBToI411.kernels (Build.neon k) cpu src_argb src_stride_argb dst_y dst_stride_y
          width).1 ≠ .C ∧
        ARGBToI400.kernels (Build.neon k) cpu src_argb src_stride_argb dst_y dst_stride_y
          width ≠ .C) ∧
      (16 ≤ width →
        (ARGBToI422.kernels (Build.neon k) cpu src_argb src_stride_argb dst_y dst_stride_y
          width).2 ≠ .C) ∧
      (32 ≤ width →
        (ARGBToI411.kernels (Build.neon k) cpu src_argb src_stride_argb dst_y dst_stride_y
          width).2 ≠ .C) := by
  refine ⟨fun h8 => ?_, fun h16 => ?_, fun h32 => ?_⟩
  · simp only [ARGBToI444.kernels, ARGBToI422.kernels, ARGBToI411.kernels,
      ARGBToI400.kernels, ladderYNEON, Build.neon, hcap, Bool.true_and, decide_eq_true h8,
      if_true, if_false, Bool.false_eq_true]
    refine ⟨?_, ?_, ?_, ?_, ?_⟩ <;> split_ifs <;> simp
  · have h8 : (8 : Int) ≤ width := by omega
    simp only [ARGBToI422.kernels, ladderYNEON, Build.neon, hcap, Bool.true_and,
      decide_eq_true h8, if_true, if_false, Bool.false_eq_true, if_pos h16]
    split_ifs <;> simp
  · have h8 : (8 : Int) ≤ width := by omega
    simp only [ARGBToI411.kernels, ladderYNEON, Build.neon, hcap, Bool.true_and,
      decide_eq_true h8, if_true, if_false, Bool.false_eq_true, if_pos h32]
    split_ifs <;> simp

theorem nvKernels_neon (k : Int) (cpu : Cpu)
    (src_argb src_stride_argb dst_y dst_stride_y width : Int) :
    nvKernels (Build.neon k) cpu src_argb src_stride_argb dst_y dst_stride_y width =
        ladderUVYNEON cpu width ∧
      packedKernels (Build.neon k) cpu src_argb src_stride_argb width =
        ladderUVYNEON cpu width := by
  simp [nvKernels, packedKernels, Build.neon]

/-- In the x86 build, a resolved function pointer whose capability is present
and whose pixel count reaches the block size is the reference kernel exactly
when the remaining test of its ladder fails. -/
theorem resolved_gate_x86 (k : Int) (cpu : Cpu) (e : EntryPoint) (a : Args)
    (r : RowOp × Variant × Int) (hr : r ∈ e.resolved (Build.ssse3 k) cpu a)
    (flag : CpuFlag) (blk : Int) (hl : Family.x86.ladder r.1 = some (flag, blk))
    (hcap : TestCpuFlag cpu flag = true) (hblk : blk ≤ r.2.2) :
    (Family.x86.gate a r.1 = true → r.2.1 ≠ .C) ∧
      (Family.x86.gate a r.1 = false → r.2.1 = .C) := by
  have triv : ∀ v : Variant, v ≠ .C → (true = true → v ≠ .C) ∧ (true = false → v = .C) :=
    fun v h => ⟨fun _ => h, fun h' => by cases h'⟩
  cases e <;>
    simp only [EntryPoint.resolved, List.mem_cons, List.mem_singleton, List.not_mem_nil,
      or_false] at hr
  · rcases hr with rfl | rfl <;>
      simp only [Family.ladder, Option.some.injEq, Prod.mk.injEq, reduceCtorEq] at hl
    obtain ⟨rfl, rfl⟩ := hl
    exact triv _ (planar_wide_x86 k cpu _ _ _ _ _ hcap hblk).1
  · rcases hr with rfl | rfl <;>
      simp only [Family.ladder, Option.some.injEq, Prod.mk.injEq, reduceCtorEq] at hl <;>
      obtain ⟨rfl, rfl⟩ := hl
    · exact triv _ (planar_wide_x86 k cpu _ _ _ _ _ hcap hblk).2.2.1
    · exact triv _ (planar_wide_x86 k cpu _ _ _ _ _ hcap hblk).2.1
  · rcases hr with rfl | rfl <;>
      simp only [Family.ladder, Option.some.injEq, Prod.mk.injEq, reduceCtorEq] at hl
    obtain ⟨rfl, rfl⟩ := hl
    exact triv _ (planar_wide_x86 k cpu _ _ _ _ _ hcap hblk).2.2.2.1
  · rcases hr with rfl | rfl | rfl <;>
      simp only [Family.ladder, Option.some.injEq, Prod.mk.injEq, reduceCtorEq] at hl <;>
      obtain ⟨rfl, rfl⟩ := hl
    · exact triv _ (nvKernels_wide k cpu _ _ _ _ _ hcap hblk).1
    · exact triv _ (mergeKernel_wide_x86 k cpu _ _ _ hcap hblk)
    · exact triv _ (nvKernels_wide k cpu _ _ _ _ _ hcap hblk).2
  · rcases hr with rfl | rfl | rfl <;>
      simp only [Family.ladder, Option.some.injEq, Prod.mk.injEq, reduceCtorEq] at hl <;>
      obtain ⟨rfl, rfl⟩ := hl
    · exact triv _ (nvKernels_wide k cpu _ _ _ _ _ hcap hblk).1
    · exact triv _ (mergeKernel_wide_x86 k cpu _ _ _ hcap hblk)
    · exact triv _ (nvKernels_wide k cpu _ _ _ _ _ hcap hblk).2
  · rcases hr with rfl | rfl | rfl <;>
      simp only [Family.ladder, Option.some.injEq, Prod.mk.injEq, reduceCtorEq] at hl <;>
      obtain ⟨rfl, rfl⟩ := hl
    · exact triv _ (packedKernels_wide k cpu _ _ _ hcap hblk).1
    · exact triv _ (packedKernels_wide k cpu _ _ _ hcap hblk).2
    · exact repackKernel_wide_x86 cpu _ _ _ hcap hblk
  · rcases hr with rfl | rfl | rfl <;>
      simp only [Family.ladder, Option.some.injEq, Prod.mk.injEq, reduceCtorEq] at hl <;>
      obtain ⟨rfl, rfl⟩ := hl
    · exact triv _ (packedKernels_wide k cpu _ _ _ hcap hblk).1
    · exact triv _ (packedKernels_wide k cpu _ _ _ hcap hblk).2
    · exact repackKernel_wide_x86 cpu _ _ _ hcap hblk
  · subst hr
    simp only [Family.ladder, Option.some.injEq, Prod.mk.injEq] at hl
    obtain ⟨rfl, rfl⟩ := hl
    exact triv _ (planar_wide_x86 k cpu _ _ _ _ _ hcap hblk).2.2.2.2
  · subst hr
    simp only [Family.ladder, Option.some.injEq, Prod.mk.injEq] at hl
    obtain ⟨rfl, rfl⟩ := hl
    exact ARGBToRGBA_kernels_wide_x86 k cpu _ _ _ _ _ hcap
  · subst hr
    simp only [Family.ladder, Option.some.injEq, Prod.mk.injEq] at hl
    obtain ⟨rfl, rfl⟩ := hl
    exact rgb24Kernel_wide_x86 cpu _ _ _ _ _ hcap hblk
  · subst hr
    simp only [Family.ladder, Option.some.injEq, Prod.mk.injEq] at hl
    obtain ⟨rfl, rfl⟩ := hl
    exact rgb24Kernel_wide_x86 cpu _ _ _ _ _ hcap hblk
  · subst hr
    simp only [Family.ladder, Option.some.injEq, Prod.mk.injEq] at hl
    obtain ⟨rfl, rfl⟩ := hl
    exact rgb16Kernel_wide_x86 cpu _ _ _ hcap hblk
  · subst hr
    simp only [Family.ladder, Option.some.injEq, Prod.mk.injEq] at hl
    obtain ⟨rfl, rfl⟩ := hl
    exact rgb16Kernel_wide_x86 cpu _ _ _ hcap hblk
  · subst hr
    simp only [Family.ladder, Option.some.injEq, Prod.mk.injEq] at hl
    obtain ⟨rfl, rfl⟩ := hl
    exact rgb16Kernel_wide_x86 cpu _ _ _ hcap hblk

/-- In the NEON build, a resolved function pointer whose capability is present
and whose pixel count reaches the block size is the reference kernel exactly
when the remaining test of its ladder fails. -/
theorem resolved_gate_neon (k : Int) (cpu : Cpu) (e : EntryPoint) (a : Args)
    (r : RowOp × Variant × Int) (hr : r ∈ e.resolved (Build.neon k) cpu a)
    (flag : CpuFlag) (blk : Int) (hl : Family.neon.ladder r.1 = some (flag, blk))
    (hcap : TestCpuFlag cpu flag = true) (hblk : blk ≤ r.2.2) :
    (Family.neon.gate a r.1 = true → r.2.1 ≠ .C) ∧
      (Family.neon.gate a r.1 = false → r.2.1 = .C) := by
  have triv : ∀ v : Variant, v ≠ .C → (true = true → v ≠ .C) ∧ (true = false → v = .C) :=
    fun v h => ⟨fun _ => h, fun h' => by cases h'⟩
  have P := fun hc => planar_wide_neon k cpu
    (invert a.height a.src_argb a.src_stride_argb).2.1
    (invert a.height a.src_argb a.src_stride_argb).2.2 a.dst a.dst_stride a.width hc
  have R24 := fun hc hb => rgb24Kernel_wide_neon cpu
    (invert a.height a.src_argb a.src_stride_argb).2.1
    (invert a.height a.src_argb a.src_stride_argb).2.2 a.dst a.dst_stride a.width hc hb
  have R16 := fun hc hb => rgb16Kernel_wide_neon cpu
    (invert a.height a.src_argb a.src_stride_argb).2.1
    (invert a.height a.src_argb a.src_stride_argb).2.2 a.width hc hb
  have M := fun hc hb => mergeKernel_wide_neon k cpu a.dst_u a.dst_stride_u
    (halfwidth a.width) hc hb
  have L := fun hc => ladderUVYNEON_wide cpu a.width hc
  cases e <;>
    simp only [EntryPoint.resolved, List.mem_cons, List.mem_singleton, List.not_mem_nil,
      or_false] at hr
  · rcases hr with rfl | rfl <;>
      simp only [Family.ladder, Option.some.injEq, Prod.mk.injEq, reduceCtorEq] at hl <;>
      obtain ⟨rfl, rfl⟩ := hl
    · exact triv _ ((P hcap).1 hblk).2.1
    · exact triv _ ((P hcap).1 hblk).1
  · rcases hr with rfl | rfl <;>
      simp only [Family.ladder, Option.some.injEq, Prod.mk.injEq, reduceCtorEq] at hl <;>
      obtain ⟨rfl, rfl⟩ := hl
    · exact triv _ ((P hcap).2.1 hblk)
    · exact triv _ ((P hcap).1 hblk).2.2.1
  · rcases hr with rfl | rfl <;>
      simp only [Family.ladder, Option.some.injEq, Prod.mk.injEq, reduceCtorEq] at hl <;>
      obtain ⟨rfl, rfl⟩ := hl
    · exact triv _ ((P hcap).2.2 hblk)
    · exact triv _ ((P hcap).1 hblk).2.2.2.1
  · rcases hr with rfl | rfl | rfl <;>
      simp only [Family.ladder, Option.some.injEq, Prod.mk.injEq, reduceCtorEq] at hl <;>
      obtain ⟨rfl, rfl⟩ := hl
    · simp only [(nvKernels_neon k cpu _ _ _ _ _).1]
      exact (L hcap).2 hblk
    · exact triv _ (M hcap hblk)
    · simp only [(nvKernels_neon k cpu _ _ _ _ _).1]
      exact triv _ ((L hcap).1 hblk)
  · rcases hr with rfl | rfl | rfl <;>
      simp only [Family.ladder, Option.some.injEq, Prod.mk.injEq, reduceCtorEq] at hl <;>
      obtain ⟨rfl, rfl⟩ := hl
    · simp only [(nvKernels_neon k cpu _ _ _ _ _).1]
      exact (L hcap).2 hblk
    · exact triv _ (M hcap hblk)
    · simp only [(nvKernels_neon k cpu _ _ _ _ _).1]
      exact triv _ ((L hcap).1 hblk)
  · rcases hr with rfl | rfl | rfl <;>
      simp only [Family.ladder, Option.some.injEq, Prod.mk.injEq, reduceCtorEq] at hl <;>
      obtain ⟨rfl, rfl⟩ := hl
    · simp only [(nvKernels_neon k cpu a.src_argb a.src_stride_argb 0 0 _).2]
      exact (L hcap).2 hblk
    · simp only [(nvKernels_neon k cpu a.src_argb a.src_stride_argb 0 0 _).2]
      exact triv _ ((L hcap).1 hblk)
    · exact triv _ (repackKernel_wide_neon cpu (invert a.height a.dst a.dst_stride).2.1
        (invert a.height a.dst a.dst_stride).2.2 a.width hcap hblk)
  · rcases hr with rfl | rfl | rfl <;>
      simp only [Family.ladder, Option.some.injEq, Prod.mk.injEq, reduceCtorEq] at hl <;>
      obtain ⟨rfl, rfl⟩ := hl
    · simp only [(nvKernels_neon k cpu a.src_argb a.src_stride_argb 0 0 _).2]
      exact (L hcap).2 hblk
    · simp only [(nvKernels_neon k cpu a.src_argb a.src_stride_argb 0 0 _).2]
      exact triv _ ((L hcap).1 hblk)
    · exact triv _ (repackKernel_wide_neon cpu (invert a.height a.dst a.dst_stride).2.1
        (invert a.height a.dst a.dst_stride).2.2 a.width hcap hblk)
  · subst hr
    simp only [Family.ladder, Option.some.injEq, Prod.mk.injEq] at hl
    obtain ⟨rfl, rfl⟩ := hl
    exact triv _ ((P hcap).1 hblk).2.2.2.2
  · subst hr
    simp only [Family.ladder, Option.some.injEq, Prod.mk.injEq] at hl
    obtain ⟨rfl, rfl⟩ := hl
    exact ARGBToRGBA_kernels_wide_neon k cpu
      (invert a.height a.src_argb a.src_stride_argb).2.1
      (invert a.height a.src_argb a.src_stride_argb).2.2 a.dst a.dst_stride a.width hcap
  · subst hr
    simp only [Family.ladder, Option.some.injEq, Prod.mk.injEq] at hl
    obtain ⟨rfl, rfl⟩ := hl
    exact triv _ (R24 hcap hblk)
  · subst hr
    simp only [Family.ladder, Option.some.injEq, Prod.mk.injEq] at hl
    obtain ⟨rfl, rfl⟩ := hl
    exact triv _ (R24 hcap hblk)
  · subst hr
    simp only [Family.ladder, Option.some.injEq, Prod.mk.injEq] at hl
    obtain ⟨rfl, rfl⟩ := hl
    exact triv _ (R16 hcap hblk)
  · subst hr
    simp only [Family.ladder, Option.some.injEq, Prod.mk.injEq] at hl
    obtain ⟨rfl, rfl⟩ := hl
    exact triv _ (R16 hcap hblk)
  · subst hr
    simp only [Family.ladder, Option.some.injEq, Prod.mk.injEq] at hl
    obtain ⟨rfl, rfl⟩ := hl
    exact triv _ (R16 hcap hblk)

theorem ladder_minBlock (fam : Family) (k : Int) (op : RowOp) (flag : CpuFlag) (blk : Int)
    (hl : fam.ladder op = some (flag, blk)) : minBlock (fam.build k) op = blk := by
  cases fam <;> cases op <;>
    simp only [Family.ladder, Option.some.injEq, Prod.mk.injEq, reduceCtorEq] at hl <;>
    obtain ⟨-, rfl⟩ := hl <;> rfl

/-- C16 (counterexample): in the SSSE3 build with SSSE3 present, `ARGBToRGB24`
of a 17-pixel row (at least the block size 16 of `ARGBToRGB24Row`) into a
destination that is not 16-byte aligned invokes the reference kernel
`ARGBToRGB24Row_C`: the alignment test guards the whole ladder, the any-width
tier included. -/
theorem ARGBToRGB24_unaligned_is_reference :
    TestCpuFlag Cpu.all .kCpuHasSSSE3 = true ∧
      minBlock (Build.ssse3 2048) .ARGBToRGB24Row ≤ 17 ∧
      (EntryPoint.ARGBToRGB24.run (Build.ssse3 2048) Cpu.all
        ⟨4096, 80, 8193, 51, 0, 0, 0, 0, 17, 1⟩).trace =
          [Call.ARGBToRGB24Row .C (.mem 4096) (.mem 8193) 17] ∧
      (Call.ARGBToRGB24Row .C (.mem 4096) (.mem 8193) 17).variant.tier = .Reference := by
  decide

/-- C16 (amended): in the x86 and in the NEON build, for every invocation of
every entry point whose operation has a ladder in the build, whose capability
is present and whose pixel count (the width, the half width for `MergeUV`) is
at least the block size of the operation: the invocation is bound to the
any-width tier or a higher one when the remaining test of the ladder
(`Family.gate`) holds, and to the reference kernel when it fails.  The
remaining test is void for `ARGBToYRow`, the `ARGBToUV*Row` kernels (except
the NEON `ARGBToUVRow`), `MergeUV` and the NEON repack and reshuffle kernels,
which therefore never stay on the reference kernel, whatever the alignment. -/
theorem any_tier_when_gate_holds (fam : Family) (k : Int) (cpu : Cpu) (e : EntryPoint)
    (a : Args) (c : Call) (hc : c ∈ (e.run (fam.build k) cpu a).trace)
    (flag : CpuFlag) (blk : Int) (hl : fam.ladder c.op = some (flag, blk))
    (hcap : TestCpuFlag cpu flag = true) (hblk : minBlock (fam.build k) c.op ≤ c.pix) :
    (fam.gate a c.op = true → c.variant.tier ≠ .Reference) ∧
      (fam.gate a c.op = false → c.variant.tier = .Reference ∧ c.variant = .C) := by
  have hr := trace_resolved (fam.build k) cpu e a c hc
  rw [ladder_minBlock fam k c.op flag blk hl] at hblk
  have key : (fam.gate a c.op = true → c.variant ≠ .C) ∧
      (fam.gate a c.op = false → c.variant = .C) := by
    cases fam
    · exact resolved_gate_x86 k cpu e a (c.op, c.variant, c.pix) hr flag blk hl hcap hblk
    · exact resolved_gate_neon k cpu e a (c.op, c.variant, c.pix) hr flag blk hl hcap hblk
  refine ⟨fun hg => (tier_ne_reference_iff _).mpr (key.1 hg), fun hg => ?_⟩
  have hv := key.2 hg
  rw [hv]
  exact ⟨rfl, rfl⟩

/-- C16 (amended), at concrete calls: `ARGBToRGB24` of a 17-pixel row in the
SSSE3 build with SSSE3 present is bound to the any-width kernel when source
and destination are 16-byte aligned, and to the reference kernel when the
destination is not. -/
theorem any_tier_when_gate_holds_witness :
    (Call.ARGBToRGB24Row .Any_SSSE3 (.mem 4096) (.mem 8192) 17).variant.tier ≠ .Reference ∧
      (Call.ARGBToRGB24Row .C (.mem 4096) (.mem 8193) 17).variant = .C :=
  ⟨(any_tier_when_gate_holds .x86 2048 Cpu.all .ARGBToRGB24
      ⟨4096, 80, 8192, 64, 0, 0, 0, 0, 17, 1⟩
      (Call.ARGBToRGB24Row .Any_SSSE3 (.mem 4096) (.mem 8192) 17) (by decide)
      .kCpuHasSSSE3 16 rfl rfl (by decide)).1 (by decide),
   ((any_tier_when_gate_holds .x86 2048 Cpu.all .ARGBToRGB24
      ⟨4096, 80, 8193, 51, 0, 0, 0, 0, 17, 1⟩
      (Call.ARGBToRGB24Row .C (.mem 4096) (.mem 8193) 17) (by decide)
      .kCpuHasSSSE3 16 rfl rfl (by decide)).2 (by decide)).2⟩


/-! ### Orientation and the rows of the source-flipped formats -/

/-- C5 (failing input): `ARGBToNV12` and `ARGBToNV21` of a 16 x 1 image into
a contiguous buffer, the chroma plane right after the one luma row
(`dst_uv = dst_y + 1 * dst_stride_y = 8208`).  The chroma-pair kernel runs on
source row 0 with cross-row stride `0` and its outputs are merged into chroma
row 0, the last chroma row; the luma invocation that follows the luma of
row 0 then writes to `dst_y + dst_stride_y`, the same address, so when the
call returns the last chroma row holds the luma kernel output for source
row 0 and not the merge. -/
theorem nv_single_row_chroma_overwritten :
    (EntryPoint.ARGBToNV12.run (Build.ssse3 2048) Cpu.all
        ⟨4096, 64, 8192, 16, 8208, 16, 0, 0, 16, 1⟩).trace =
      [.ARGBToUVRow .SSSE3 (.mem 4096) 0 .row_u .row_v 16,
       .MergeUV .C .row_u .row_v (.mem 8208) 8,
       .ARGBToYRow .SSSE3 (.mem 4096) (.mem 8192) 16,
       .ARGBToYRow .SSSE3 (.mem 4096) (.mem 8208) 16] ∧
    (EntryPoint.ARGBToNV12.run (Build.ssse3 2048) Cpu.all
        ⟨4096, 64, 8192, 16, 8208, 16, 0, 0, 16, 1⟩).rows (.mem 8208) =
      .app1 .ARGBToYRow .SSSE3 0 16 (.init (.mem 4096)) ∧
    (EntryPoint.ARGBToNV12.run (Build.ssse3 2048) Cpu.all
        ⟨4096, 64, 8192, 16, 8208, 16, 0, 0, 16, 1⟩).rows (.mem 8208) ≠
      .app2 .MergeUV .C 0 8
        (.app2 .ARGBToUVRow .SSSE3 0 16 (.init (.mem 4096)) (.init (.mem 4096)))
        (.app2 .ARGBToUVRow .SSSE3 1 16 (.init (.mem 4096)) (.init (.mem 4096))) ∧
    (EntryPoint.ARGBToNV21.run (Build.ssse3 2048) Cpu.all
        ⟨4096, 64, 8192, 16, 8208, 16, 0, 0, 16, 1⟩).rows (.mem 8208) =
      .app1 .ARGBToYRow .SSSE3 0 16 (.init (.mem 4096)) ∧
    (EntryPoint.ARGBToNV21.run (Build.ssse3 2048) Cpu.all
        ⟨4096, 64, 8192, 16, 8208, 16, 0, 0, 16, 1⟩).rows (.mem 8208) ≠
      .app2 .MergeUV .C 0 8
        (.app2 .ARGBToUVRow .SSSE3 1 16 (.init (.mem 4096)) (.init (.mem 4096)))
        (.app2 .ARGBToUVRow .SSSE3 0 16 (.init (.mem 4096)) (.init (.mem 4096))) := by
  decide

/-- C6 (failing input): `ARGBToNV12` of a 16 x 3 image into a contiguous
buffer, the chroma plane right after the three luma rows
(`dst_uv = dst_y + 3 * dst_stride_y = 8240`).  The row pair `j = 0` is
processed by the four invocations the claim describes, the merge writing
chroma row 0; the last invocation of the call, the second luma invocation of
the unpaired row 2, then writes to `dst_y + 3 * dst_stride_y`, the same
address, so when the call returns chroma row 0 holds the luma kernel output
for source row 2 and not the merge of the chroma of the source rows 0
and 1.  The luma rows 0 and 1 hold the luma of the source rows 0 and 1. -/
theorem nv_row_pair_chroma_overwritten :
    (EntryPoint.ARGBToNV12.run (Build.ssse3 2048) Cpu.all
        ⟨4096, 64, 8192, 16, 8240, 16, 0, 0, 16, 3⟩).trace =
      [.ARGBToUVRow .SSSE3 (.mem 4096) 64 .row_u .row_v 16,
       .MergeUV .C .row_u .row_v (.mem 8240) 8,
       .ARGBToYRow .SSSE3 (.mem 4096) (.mem 8192) 16,
       .ARGBToYRow .SSSE3 (.mem 4160) (.mem 8208) 16,
       .ARGBToUVRow .SSSE3 (.mem 4224) 0 .row_u .row_v 16,
       .MergeUV .C .row_u .row_v (.mem 8256) 8,
       .ARGBToYRow .SSSE3 (.mem 4224) (.mem 8224) 16,
       .ARGBToYRow .SSSE3 (.mem 4224) (.mem 8240) 16] ∧
    (EntryPoint.ARGBToNV12.run (Build.ssse3 2048) Cpu.all
        ⟨4096, 64, 8192, 16, 8240, 16, 0, 0, 16, 3⟩).rows (.mem 8240) =
      .app1 .ARGBToYRow .SSSE3 0 16 (.init (.mem 4224)) ∧
    (EntryPoint.ARGBToNV12.run (Build.ssse3 2048) Cpu.all
        ⟨4096, 64, 8192, 16, 8240, 16, 0, 0, 16, 3⟩).rows (.mem 8240) ≠
      .app2 .MergeUV .C 0 8
        (.app2 .ARGBToUVRow .SSSE3 0 16 (.init (.mem 4096)) (.init (.mem 4160)))
        (.app2 .ARGBToUVRow .SSSE3 1 16 (.init (.mem 4096)) (.init (.mem 4160))) ∧
    (EntryPoint.ARGBToNV12.run (Build.ssse3 2048) Cpu.all
        ⟨4096, 64, 8192, 16, 8240, 16, 0, 0, 16, 3⟩).rows (.mem 8192) =
      .app1 .ARGBToYRow .SSSE3 0 16 (.init (.mem 4096)) ∧
    (EntryPoint.ARGBToNV12.run (Build.ssse3 2048) Cpu.all
        ⟨4096, 64, 8192, 16, 8240, 16, 0, 0, 16, 3⟩).rows (.mem 8208) =
      .app1 .ARGBToYRow .SSSE3 0 16 (.init (.mem 4160)) := by
  decide

end Libyuv
